import Mathlib

/-!
# Render orchestration of the GTR graphics engine: embedding and verified properties

The definitions below translate the scene traversal, draw-call ordering, probe lattice,
light configuration and shadow passes of `rendercall.h`, `renderer.cpp` and `scene.cpp`.

Conventions of the embedding:

* pointers that may be null are `Option`s; a dereference of a null pointer makes the
  enclosing operation return `none`;
* `float` values live in an exact linearly ordered type `D`; matrices, vectors and cameras
  of the math library (`framework.h`, `camera.h`, `mesh.h`, which are not part of the
  sources at hand) are abstract types `M`, `V`, `Cam` whose operations are collected in
  the record `Framework`;
* the alpha modes of `material.h` are an abstract linearly ordered type `A` (a C++ enum
  compared through its integer rank);
* the member vectors of `Renderer` are lists, `push_back` appends at the end.
-/

namespace GTR

/-! ## Enumerations (scene.h, renderer.h) -/

/-- The enum `eEntityType` of `scene.h`. -/
inductive eEntityType where
  | NONE | PREFAB | LIGHT | CAMERA | IRRADIANCE_GRID | PROBE | DECAL | REFLECTION_PROBE
  deriving DecidableEq, Repr

/-- The enum `eLightType` of `scene.h`. -/
inductive eLightType where
  | POINT | SPOT | DIRECTIONAL | NO_LIGHT
  deriving DecidableEq, Repr

/-- The enum `eRenderMode` of `renderer.h`. -/
inductive eRenderMode where
  | FORWARD | DEFERRED | DEFERRED_ALPHA
  deriving DecidableEq, Repr

/-- The enum `eLightMode` of `renderer.h`. -/
inductive eLightMode where
  | SINGLE | MULTI | BRUH
  deriving DecidableEq, Repr

/-- The enum `eLightEq` of `renderer.h`. -/
inductive eLightEq where
  | PHONG | DIRECT_LAMB | DIRECT_BURLEY | NO_EQ
  deriving DecidableEq, Repr

/-- The integer value of an `eLightType` enumerator (`(int)light_type`). -/
def eLightType.toInt : eLightType → Int
  | POINT => 0
  | SPOT => 1
  | DIRECTIONAL => 2
  | NO_LIGHT => 3

/-- The integer value of an `eLightEq` enumerator. -/
def eLightEq.toInt : eLightEq → Int
  | PHONG => 0
  | DIRECT_LAMB => 1
  | DIRECT_BURLEY => 2
  | NO_EQ => 3

/-! ## Assets and draw records (rendercall.h) -/

/-- A mesh asset, known to the renderer through its name and its vertex count. -/
structure Mesh where
  name : String
  num_vertices : Nat := 3
  deriving DecidableEq, Repr

/-- A material asset: the fields of `GTR::Material` that the renderer reads. -/
structure Material (A : Type) where
  name : String
  alpha_mode : A
  two_sided : Bool := false
  deriving DecidableEq, Repr

/-- The class `ReflectionProbeEntity` of `scene.h` (a `BaseEntity` with a cubemap). -/
structure ReflectionProbeEntity (M : Type) where
  name : String
  visible : Bool := true
  model : M
  /-- Whether the pointer `cubemap` is non-null (the constructor allocates it). -/
  cubemap : Bool := true
  deriving DecidableEq, Repr

/-- The class `RenderCall` of `rendercall.h`. The constructor `RenderCall(mesh, material,
model)` sets `probe = NULL` and `cam_dist = 0`. -/
structure RenderCall (A D M : Type) where
  mesh : Option Mesh
  material : Option (Material A)
  model : M
  probe : Option (ReflectionProbeEntity M)
  cam_dist : D
  deriving DecidableEq, Repr

section Ordering

variable {A D M : Type} [LinearOrder A] [LinearOrder D]

/-- The member `RenderCall::operator<`:
```
if (material->alpha_mode != b.material->alpha_mode)
    return material->alpha_mode <= b.material->alpha_mode;
else
    return cam_dist > b.cam_dist;
```
Both material pointers are dereferenced, so the result is `none` when one is null. -/
def RenderCall.lt (a b : RenderCall A D M) : Option Bool :=
  match a.material, b.material with
  | some ma, some mb =>
    if ma.alpha_mode ≠ mb.alpha_mode then
      some (decide (ma.alpha_mode ≤ mb.alpha_mode))
    else
      some (decide (a.cam_dist > b.cam_dist))
  | _, _ => none

/-- Two calls are incomparable when neither is smaller than the other. -/
def RenderCall.incomparable (a b : RenderCall A D M) : Prop :=
  RenderCall.lt a b = some false ∧ RenderCall.lt b a = some false

end Ordering

/-! ## Prefab hierarchy (prefab.h) -/

/-- A node of a prefab hierarchy (`GTR::Node`): visibility flag, optional mesh and
material, children. `global_matrix` is the matrix that `node->getGlobalMatrix(true)`
returns for this node. -/
inductive Node (A M : Type) where
  | mk (name : String) (visible : Bool) (mesh : Option Mesh)
      (material : Option (Material A)) (global_matrix : M)
      (children : List (Node A M)) : Node A M

namespace Node

variable {A M : Type}

/-- Field `name`. -/
def name : Node A M → String
  | mk n _ _ _ _ _ => n

/-- Field `visible`. -/
def visible : Node A M → Bool
  | mk _ v _ _ _ _ => v

/-- Field `mesh`. -/
def mesh : Node A M → Option Mesh
  | mk _ _ m _ _ _ => m

/-- Field `material`. -/
def material : Node A M → Option (Material A)
  | mk _ _ _ m _ _ => m

/-- The result of `getGlobalMatrix(true)`. -/
def getGlobalMatrix : Node A M → M
  | mk _ _ _ _ g _ => g

/-- Field `children`. -/
def children : Node A M → List (Node A M)
  | mk _ _ _ _ _ c => c

end Node

/-! ## Scene entities (scene.h) -/

/-- A framebuffer object created with `setDepthOnly(width, height)`. -/
structure FBO where
  width : Nat
  height : Nat
  deriving DecidableEq, Repr

/-- The class `LightEntity` of `scene.h`, with the fields that the orchestration reads or
writes. `shadow_fbo` is the owned shadow render-target (`NULL` is `none`); `uvs` is the
atlas rectangle `(x, y, side)`. -/
structure LightEntity (D M : Type) where
  name : String
  visible : Bool := true
  model : M
  light_type : eLightType
  max_distance : D
  cone_angle : D
  cast_shadows : Bool
  uvs : D × D × D
  shadow_fbo : Option FBO
  deriving DecidableEq, Repr

/-- The class `ProbeEntity` of `scene.h`: lattice position (`local`) and linear `index`. -/
structure ProbeEntity (D : Type) where
  local_pos : D × D × D
  index : Nat
  deriving DecidableEq, Repr

/-- The member `dim` of `IrradianceGrid`, a `Vector3` holding the number of probes
along each axis; the components are whole numbers. -/
structure GridDim where
  x : Nat
  y : Nat
  z : Nat
  deriving DecidableEq, Repr

/-- The class `IrradianceGrid` of `scene.h`. -/
structure IrradianceGrid (D M : Type) where
  name : String
  visible : Bool := true
  model : M
  dim : GridDim
  probes : List (ProbeEntity D)

/-- An element of `Scene::entities`: a `BaseEntity` together with the data of its
dynamic class. `prefab` carries the root node of the `Prefab` the entity points to
(`none` when the pointer is null); `other` stands for the entity types the fetch loop
does not look into (`NONE`, `CAMERA`, `PROBE`, `DECAL`). -/
inductive BaseEntity (A D M : Type) where
  | prefab (name : String) (visible : Bool) (model : M) (prefab : Option (Node A M))
  | light (l : LightEntity D M)
  | reflection_probe (p : ReflectionProbeEntity M)
  | irradiance_grid (g : IrradianceGrid D M)
  | other (entity_type : eEntityType) (visible : Bool) (model : M)

/-- Field `BaseEntity::visible`. -/
def BaseEntity.visible {A D M : Type} : BaseEntity A D M → Bool
  | .prefab _ v _ _ => v
  | .light l => l.visible
  | .reflection_probe p => p.visible
  | .irradiance_grid g => g.visible
  | .other _ v _ => v

/-- Field `BaseEntity::entity_type`, as set by the constructor of each class. -/
def BaseEntity.entity_type {A D M : Type} : BaseEntity A D M → eEntityType
  | .prefab _ _ _ _ => .PREFAB
  | .light _ => .LIGHT
  | .reflection_probe _ => .REFLECTION_PROBE
  | .irradiance_grid _ => .IRRADIANCE_GRID
  | .other t _ _ => t

/-- The class `Scene`: the ordered entity list. -/
structure Scene (A D M : Type) where
  entities : List (BaseEntity A D M)
  /-- Whether the pointer `environment` (the skybox texture) is non-null. -/
  environment : Bool := false

/-! ## The math library as seen by the renderer -/

/-- The operations of the math and camera library that the renderer invokes. Their
implementation (`framework.h`, `camera.h`, `mesh.h`, `utils.h`, `shader.h`) is outside
the sources at hand, so they are parameters of every definition that uses them. -/
structure Framework (A D M V Cam : Type) where
  /-- `Matrix44::operator*`. -/
  mul : M → M → M
  /-- `Matrix44::getTranslation()`. -/
  getTranslation : M → V
  /-- `Vector3::distance(v)`. -/
  distance : V → V → D
  /-- The constant `FLT_MAX`. -/
  FLT_MAX : D
  /-- `transformBoundingBox(model, mesh->box).center`. -/
  boxCenter : M → Mesh → V
  /-- `Camera::eye`. -/
  eye : Cam → V
  /-- `camera->testSphereInFrustum(center, radius)`. -/
  testSphereInFrustum : Cam → V → D → Bool
  /-- `boundingSphere(apex, direction, max_distance, angle)` of `utils.h`, as centre and
  radius. -/
  boundingSphere : V → V → D → D → V × D
  /-- `model * Vector3(0, 0, 0)`. -/
  origin : M → V
  /-- `model.rotateVector(Vector3(0, 0, -1))`. -/
  frontDir : M → V
  /-- `angle * PI / 180`. -/
  toRadians : D → D
  /-- The enumerator `BLEND` of `eAlphaMode` (`material.h`). -/
  BLEND : A
  /-- Whether `Shader::Get(name)` finds a shader of that name. -/
  shaderGet : String → Bool
  /-- `model.setFrontAndOrthonormalize(target - model.getTranslation())`. -/
  lookTowards : M → V → M
  /-- `light->camera->testBoxInFrustum(box.center, box.halfsize)` for the world box
  `transformBoundingBox(model, mesh->box)`, with the shadow camera of the light as
  `updateLight` leaves it. -/
  shadowFrustumTest : LightEntity D M → M → Mesh → Bool
  /-- The enumerator `NO_ALPHA` of `eAlphaMode` (`material.h`). -/
  NO_ALPHA : A
  /-- `camera->testBoxInFrustum(box.center, box.halfsize)` for the world box
  `transformBoundingBox(model, mesh->box)`. -/
  cameraFrustumTest : Cam → M → Mesh → Bool
  /-- The matrix `m` after `m.setTranslation(pos.x, pos.y, pos.z)` and
  `m.scale(d, d, d)`. -/
  sphereModel : V → D → M

/-! ## Renderer state (renderer.h) -/

/-- The members of `Renderer` that the fetch and shadow stages read or write. -/
structure Renderer (A D M : Type) where
  render_mode : eRenderMode
  light_mode : eLightMode
  shadow_count : Nat
  calls : List (RenderCall A D M)
  lights : List (LightEntity D M)
  reflection_probes : List (ReflectionProbeEntity M)
  grid : Option (IrradianceGrid D M)
  directional_light : Option (LightEntity D M)
  atlas : Option FBO
  light_eq : eLightEq := eLightEq.DIRECT_BURLEY
  pcf : Bool := false
  dithering : Bool := false
  activate_ssao : Bool := true
  activate_irr : Bool := false
  irr_3lerp : Bool := false
  reflections : Bool := false
  volumetric : Bool := false
  show_probes : Bool := false
  show_reflection_probes : Bool := false
  hdr_active : Bool := true
  blur_iterations : Nat := 10
  /-- Whether the pointer `probes_texture` is non-null. -/
  probes_texture : Bool := false
  /-- The member `ssao->blur`. -/
  ssao_blur : Bool := true
  depth_viewport : Bool := false
  depth_light : Nat := 0

section Traversal

variable {A D M V Cam : Type} [LinearOrder A] [LinearOrder D]

/-- One iteration of the probe loop of `getCallsFromNode`, on the loop state
`(dist, call)`:
```
p = reflection_probes[i];
dist_probe = p->model.getTranslation().distance(call.model.getTranslation());
if (dist_probe < dist) { dist = dist_probe; call.probe = p; }
``` -/
def probeStep (fw : Framework A D M V Cam) (st : D × RenderCall A D M)
    (p : ReflectionProbeEntity M) : D × RenderCall A D M :=
  let dist_probe := fw.distance (fw.getTranslation p.model) (fw.getTranslation st.2.model)
  if dist_probe < st.1 then (dist_probe, { st.2 with probe := some p }) else st

/-- The probe loop of `getCallsFromNode`: `float dist = FLT_MAX;` followed by one
`probeStep` for each entry of `reflection_probes`, in order. -/
def nearestProbeLoop (fw : Framework A D M V Cam)
    (reflection_probes : List (ReflectionProbeEntity M)) (call : RenderCall A D M) :
    D × RenderCall A D M :=
  reflection_probes.foldl (probeStep fw) (fw.FLT_MAX, call)

/-- The body of `if (node->mesh && node->material)` in `getCallsFromNode`: the call that
is pushed for a node with mesh `mesh` and material `material` whose composed matrix is
`node_model`. -/
def buildCall (fw : Framework A D M V Cam)
    (reflection_probes : List (ReflectionProbeEntity M)) (camera : Option Cam)
    (node_model : M) (mesh : Mesh) (material : Material A) [Zero D] : RenderCall A D M :=
  let call : RenderCall A D M :=
    { mesh := some mesh, material := some material, model := node_model,
      probe := none, cam_dist := 0 }
  let call := match camera with
    | some cam => { call with cam_dist := fw.distance (fw.boxCenter node_model mesh) (fw.eye cam) }
    | none => call
  (nearestProbeLoop fw reflection_probes call).2

mutual

/-- The method `Renderer::getCallsFromNode(prefab_model, node, camera)`. -/
def getCallsFromNode [Zero D] (fw : Framework A D M V Cam) (prefab_model : M)
    (node : Node A M) (camera : Option Cam) (r : Renderer A D M) : Renderer A D M :=
  match node with
  | .mk _ visible mesh material global_matrix children =>
    if !visible then r
    else
      let node_model := fw.mul global_matrix prefab_model
      let r1 := match mesh, material with
        | some me, some ma =>
          { r with calls := r.calls ++ [buildCall fw r.reflection_probes camera node_model me ma] }
        | _, _ => r
      getCallsFromChildren fw prefab_model children camera r1

/-- The loop `for (i < node->children.size()) getCallsFromNode(prefab_model,
node->children[i], camera)`. -/
def getCallsFromChildren [Zero D] (fw : Framework A D M V Cam) (prefab_model : M)
    (children : List (Node A M)) (camera : Option Cam) (r : Renderer A D M) :
    Renderer A D M :=
  match children with
  | [] => r
  | c :: cs => getCallsFromChildren fw prefab_model cs camera
      (getCallsFromNode fw prefab_model c camera r)

end

/-- The method `Renderer::getCallsFromPrefab(model, prefab, camera)`, on the root node
of the prefab. -/
def getCallsFromPrefab [Zero D] (fw : Framework A D M V Cam) (model : M)
    (root : Node A M) (camera : Option Cam) (r : Renderer A D M) : Renderer A D M :=
  getCallsFromNode fw model root camera r

end Traversal

section Fetch

variable {A D M V Cam : Type} [LinearOrder A] [LinearOrder D]

/-- The method `LightEntity::lightBounding(camera)`: the bounding sphere of the light
(a cone sphere for `SPOT`, position and `max_distance` otherwise) against the frustum. -/
def LightEntity.lightBounding (fw : Framework A D M V Cam) (light : LightEntity D M)
    (camera : Cam) : Bool :=
  let sphere : V × D :=
    if light.light_type = eLightType.SPOT then
      fw.boundingSphere (fw.origin light.model) (fw.frontDir light.model)
        light.max_distance (fw.toRadians light.cone_angle)
    else
      (fw.origin light.model, light.max_distance)
  fw.testSphereInFrustum camera sphere.1 sphere.2

/-- One iteration of the entity loop of `fetchSceneEntities`; the four tests on
`ent->entity_type` are exclusive, so they are one case distinction. -/
def fetchEntity [Zero D] (fw : Framework A D M V Cam) (camera : Cam)
    (fetch_prefabs fetch_lights fetch_probes fetch_grid : Bool)
    (r : Renderer A D M) (ent : BaseEntity A D M) : Renderer A D M :=
  if !ent.visible then r
  else
    match ent with
    | .prefab _ _ model pent =>
      if fetch_prefabs then
        match pent with
        | some root => getCallsFromPrefab fw model root (some camera) r
        | none => r
      else r
    | .reflection_probe pent =>
      if fetch_probes then { r with reflection_probes := r.reflection_probes ++ [pent] }
      else r
    | .irradiance_grid g =>
      if fetch_grid then { r with grid := some g } else r
    | .light light =>
      if fetch_lights then
        if light.light_type = eLightType.DIRECTIONAL then
          let r1 :=
            if r.render_mode = eRenderMode.DEFERRED then
              { r with directional_light := some light }
            else { r with lights := r.lights ++ [light] }
          { r1 with shadow_count := r1.shadow_count + 1 }
        else if light.lightBounding fw camera then
          let r1 :=
            if light.light_type ≠ eLightType.POINT then
              { r with shadow_count := r.shadow_count + 1 }
            else r
          { r1 with lights := r1.lights ++ [light] }
        else r
      else r
    | .other _ _ _ => r

/-- The part of `Renderer::fetchSceneEntities` that precedes the sort: the member vectors
selected by the flags are cleared, then the entities are visited in scene order. -/
def fetchLoop [Zero D] (fw : Framework A D M V Cam) (scene : Scene A D M) (camera : Cam)
    (fetch_prefabs fetch_lights fetch_probes fetch_grid : Bool)
    (r : Renderer A D M) : Renderer A D M :=
  let r1 := if fetch_prefabs then { r with calls := [] } else r
  let r2 :=
    if fetch_lights then
      { r1 with directional_light := none, shadow_count := 0, lights := [] }
    else r1
  let r3 := if fetch_probes then { r2 with reflection_probes := [] } else r2
  scene.entities.foldl (fetchEntity fw camera fetch_prefabs fetch_lights fetch_probes fetch_grid) r3

/-- The method `Renderer::fetchSceneEntities`. `sort` stands for the library call
`std::sort(calls.begin(), calls.end())`, which orders through `RenderCall::operator<`. -/
def fetchSceneEntities [Zero D] (fw : Framework A D M V Cam)
    (sort : List (RenderCall A D M) → List (RenderCall A D M))
    (scene : Scene A D M) (camera : Cam)
    (fetch_prefabs fetch_lights fetch_probes fetch_grid : Bool)
    (r : Renderer A D M) : Renderer A D M :=
  let r1 := fetchLoop fw scene camera fetch_prefabs fetch_lights fetch_probes fetch_grid r
  if fetch_prefabs then { r1 with calls := sort r1.calls } else r1

/-- The postcondition that the C++ standard gives `std::sort` when the comparison is a
strict weak ordering: the range holds the same elements as before, and no element is
smaller (through `operator<`) than one that precedes it. Nothing is promised about the
relative order of equivalent elements. -/
def StdSortPost (input output : List (RenderCall A D M)) : Prop :=
  output.Perm input ∧ output.Pairwise (fun x y => RenderCall.lt y x = some false)

instance StdSortPost.decidable [DecidableEq M] (input output : List (RenderCall A D M)) :
    Decidable (StdSortPost input output) := by
  unfold StdSortPost
  infer_instance

/-- The sort key of a call: the alpha mode of its material and its camera distance. -/
def RenderCall.key (c : RenderCall A D M) : Option A × D :=
  (c.material.map (fun m => m.alpha_mode), c.cam_dist)

/-- A reordering is stable when, for every sort key, the calls carrying that key come in
the output in the same order as in the input. -/
def StableReorder (input output : List (RenderCall A D M)) : Prop :=
  ∀ k : Option A × D,
    output.filter (fun c => decide (c.key = k)) = input.filter (fun c => decide (c.key = k))

end Fetch

/-! ## The library sort (libstdc++, bits/stl_algo.h and bits/stl_heap.h)

`std::sort` is not part of the repository; the functions below follow its text in the
GNU C++ library. A range is a list, an iterator a position in it. -/

section StdSort

variable {α : Type}

/-- The call `std::iter_swap(a, b)` on positions of the range. -/
def iterSwap (l : List α) (a b : Nat) : List α :=
  match l[a]?, l[b]? with
  | some x, some y => (l.set a y).set b x
  | _, _ => l

/-- The assignment `*dst = std::move(*src)`. -/
def iterAssign (l : List α) (dst src : Nat) : List α :=
  match l[src]? with
  | some x => l.set dst x
  | none => l

/-- The comparison `comp(a, b)` of two positions, `*a < *b`. -/
def iterComp (comp : α → α → Bool) (l : List α) (a b : Nat) : Bool :=
  match l[a]?, l[b]? with
  | some x, some y => comp x y
  | _, _ => false

/-- The comparison of a held value with a position, `val < *b`. -/
def valComp (comp : α → α → Bool) (l : List α) (val : α) (b : Nat) : Bool :=
  match l[b]? with
  | some y => comp val y
  | none => false

/-- The comparison of a position with a held value, `*a < val`. -/
def compVal (comp : α → α → Bool) (l : List α) (a : Nat) (val : α) : Bool :=
  match l[a]? with
  | some x => comp x val
  | none => false

/-- The function `std::__move_median_to_first(result, a, b, c, comp)`. -/
def moveMedianToFirst (comp : α → α → Bool) (l : List α) (result a b c : Nat) : List α :=
  if iterComp comp l a b then
    if iterComp comp l b c then iterSwap l result b
    else if iterComp comp l a c then iterSwap l result c
    else iterSwap l result a
  else if iterComp comp l a c then iterSwap l result a
  else if iterComp comp l b c then iterSwap l result c
  else iterSwap l result b

/-- The loop of `std::__unguarded_linear_insert`, with `val` the value taken out and the
argument the position `last` of the hole:
```
while (comp(val, next)) { *last = *next; last = next; --next; }
*last = val;
``` -/
def unguardedLinearInsertLoop (comp : α → α → Bool) (val : α) : Nat → List α → List α
  | 0, l => l.set 0 val
  | next + 1, l =>
    if valComp comp l val next then
      unguardedLinearInsertLoop comp val next (iterAssign l (next + 1) next)
    else l.set (next + 1) val

/-- The function `std::__unguarded_linear_insert(last, comp)`. -/
def unguardedLinearInsert (comp : α → α → Bool) (l : List α) (last : Nat) : List α :=
  match l[last]? with
  | some val => unguardedLinearInsertLoop comp val last l
  | none => l

/-- The branch of `std::__insertion_sort` for an element smaller than the first:
```
val = *i; std::move_backward(first, i, i + 1); *first = val;
``` -/
def moveToFront (l : List α) (first i : Nat) : List α :=
  match l[i]? with
  | some val => l.take first ++ val :: (l.drop first).take (i - first) ++ l.drop (i + 1)
  | none => l

/-- The function `std::__insertion_sort(first, last, comp)`. -/
def insertionSortRange (comp : α → α → Bool) (l : List α) (first last : Nat) : List α :=
  (List.range' (first + 1) (last - (first + 1))).foldl
    (fun l i =>
      if iterComp comp l i first then moveToFront l first i
      else unguardedLinearInsert comp l i) l

/-- The function `std::__unguarded_insertion_sort(first, last, comp)`. -/
def unguardedInsertionSort (comp : α → α → Bool) (l : List α) (first last : Nat) : List α :=
  (List.range' first (last - first)).foldl (fun l i => unguardedLinearInsert comp l i) l

/-- The constant `_S_threshold` of the sort routines. -/
def sortThreshold : Nat := 16

/-- The function `std::__final_insertion_sort(first, last, comp)`. -/
def finalInsertionSort (comp : α → α → Bool) (l : List α) (first last : Nat) : List α :=
  if last - first > sortThreshold then
    unguardedInsertionSort comp (insertionSortRange comp l first (first + sortThreshold))
      (first + sortThreshold) last
  else insertionSortRange comp l first last

/-- The loop `while (comp(first, pivot)) ++first;` of `std::__unguarded_partition`; the
first argument bounds the number of steps. -/
def partitionScanUp (comp : α → α → Bool) (l : List α) (pivot : Nat) : Nat → Nat → Nat
  | 0, first => first
  | fuel + 1, first =>
    if iterComp comp l first pivot then partitionScanUp comp l pivot fuel (first + 1)
    else first

/-- The loop `while (comp(pivot, last)) --last;` of `std::__unguarded_partition`. -/
def partitionScanDown (comp : α → α → Bool) (l : List α) (pivot : Nat) : Nat → Nat
  | 0 => 0
  | last + 1 =>
    if iterComp comp l pivot (last + 1) then partitionScanDown comp l pivot last
    else last + 1

/-- The function `std::__unguarded_partition(first, last, pivot, comp)`; the first
argument bounds the number of rounds of its loop. It returns the range and the cut. -/
def unguardedPartition (comp : α → α → Bool) :
    Nat → List α → Nat → Nat → Nat → List α × Nat
  | 0, l, first, _, _ => (l, first)
  | fuel + 1, l, first, last, pivot =>
    let first1 := partitionScanUp comp l pivot (l.length + 1) first
    let last1 := partitionScanDown comp l pivot (last - 1)
    if first1 < last1 then
      unguardedPartition comp fuel (iterSwap l first1 last1) (first1 + 1) last1 pivot
    else (l, first1)

/-- The function `std::__unguarded_partition_pivot(first, last, comp)`. -/
def unguardedPartitionPivot (comp : α → α → Bool) (l : List α) (first last : Nat) :
    List α × Nat :=
  let mid := first + (last - first) / 2
  let l1 := moveMedianToFirst comp l first (first + 1) mid (last - 1)
  unguardedPartition comp (l1.length + 1) l1 (first + 1) last first

/-- The function `std::__push_heap(first, holeIndex, topIndex, value, comp)`; the first
argument bounds the number of steps of its loop. -/
def pushHeap (comp : α → α → Bool) (first topIndex : Nat) (value : α) :
    Nat → List α → Nat → List α
  | 0, l, holeIndex => l.set (first + holeIndex) value
  | fuel + 1, l, holeIndex =>
    let parent := (holeIndex - 1) / 2
    if holeIndex > topIndex && compVal comp l (first + parent) value then
      pushHeap comp first topIndex value fuel (iterAssign l (first + holeIndex) (first + parent))
        parent
    else l.set (first + holeIndex) value

/-- The first loop of `std::__adjust_heap`, which moves the hole down to a leaf; it returns
the range, the hole and `secondChild`. -/
def adjustHeapDown (comp : α → α → Bool) (first len : Nat) :
    Nat → List α → Nat → Nat → List α × Nat × Nat
  | 0, l, holeIndex, secondChild => (l, holeIndex, secondChild)
  | fuel + 1, l, holeIndex, secondChild =>
    if secondChild < (len - 1) / 2 then
      let child := 2 * (secondChild + 1)
      let child1 :=
        if iterComp comp l (first + child) (first + (child - 1)) then child - 1 else child
      adjustHeapDown comp first len fuel (iterAssign l (first + holeIndex) (first + child1))
        child1 child1
    else (l, holeIndex, secondChild)

/-- The function `std::__adjust_heap(first, holeIndex, len, value, comp)`. The distances
are signed in the source: `(len - 2) / 2` is `-1` for `len = 0`, which no `secondChild`
equals. -/
def adjustHeap (comp : α → α → Bool) (l : List α) (first holeIndex len : Nat) (value : α) :
    List α :=
  let down := adjustHeapDown comp first len len l holeIndex holeIndex
  let last :=
    if len % 2 = 0 ∧ 2 ≤ len ∧ down.2.2 = (len - 2) / 2 then
      (iterAssign down.1 (first + down.2.1) (first + (2 * (down.2.2 + 1) - 1)),
        2 * (down.2.2 + 1) - 1)
    else (down.1, down.2.1)
  pushHeap comp first holeIndex value (last.2 + 1) last.1 last.2

/-- The function `std::__pop_heap(first, last, result, comp)`. -/
def popHeap (comp : α → α → Bool) (l : List α) (first last result : Nat) : List α :=
  match l[result]? with
  | some value => adjustHeap comp (iterAssign l result first) first 0 (last - first) value
  | none => l

/-- The loop of `std::__make_heap`, from `parent` down to `0`. -/
def makeHeapLoop (comp : α → α → Bool) (first len : Nat) : Nat → List α → List α
  | 0, l =>
    match l[first]? with
    | some value => adjustHeap comp l first 0 len value
    | none => l
  | parent + 1, l =>
    match l[first + (parent + 1)]? with
    | some value => makeHeapLoop comp first len parent
        (adjustHeap comp l first (parent + 1) len value)
    | none => l

/-- The function `std::__make_heap(first, last, comp)`. -/
def makeHeap (comp : α → α → Bool) (l : List α) (first last : Nat) : List α :=
  if last - first < 2 then l
  else makeHeapLoop comp first (last - first) ((last - first - 2) / 2) l

/-- The function `std::__sort_heap(first, last, comp)`, by recursion on `last`. -/
def sortHeap (comp : α → α → Bool) (first : Nat) : Nat → List α → List α
  | 0, l => l
  | last + 1, l =>
    if last + 1 - first > 1 then sortHeap comp first last (popHeap comp l first last last)
    else l

/-- The function `std::__heap_select(first, middle, last, comp)`. -/
def heapSelect (comp : α → α → Bool) (l : List α) (first middle last : Nat) : List α :=
  (List.range' middle (last - middle)).foldl
    (fun l i => if iterComp comp l i first then popHeap comp l first middle i else l)
    (makeHeap comp l first middle)

/-- The function `std::__partial_sort(first, middle, last, comp)`. -/
def partialSort (comp : α → α → Bool) (l : List α) (first middle last : Nat) : List α :=
  sortHeap comp first middle (heapSelect comp l first middle last)

/-- The function `std::__introsort_loop(first, last, depth_limit, comp)`, by recursion on
`depth_limit`. -/
def introsortLoop (comp : α → α → Bool) : Nat → List α → Nat → Nat → List α
  | 0, l, first, last =>
    if last - first > sortThreshold then partialSort comp l first last last else l
  | depth + 1, l, first, last =>
    if last - first > sortThreshold then
      let cut := unguardedPartitionPivot comp l first last
      introsortLoop comp depth (introsortLoop comp depth cut.1 cut.2 last) first cut.2
    else l

/-- The function `std::__lg(n)`: the position of the highest set bit of `n`. -/
def stdLg (n : Nat) : Nat :=
  ((List.range n).filter (fun k => decide (2 ^ (k + 1) ≤ n))).length

/-- The function `std::sort(first, last)` of libstdc++ on a whole vector, with `comp` the
`operator<` of the elements: introsort down to ranges of 16 elements, then insertion
sort. -/
def stdSort (comp : α → α → Bool) (l : List α) : List α :=
  if l.isEmpty then l
  else finalInsertionSort comp (introsortLoop comp (stdLg l.length * 2) l 0 l.length) 0 l.length

end StdSort

section StdSortCalls

variable {A D M : Type} [LinearOrder A] [LinearOrder D]

/-- The call `std::sort(calls.begin(), calls.end())` of `fetchSceneEntities` with the
GNU C++ library: `stdSort` through `RenderCall::operator<`, on calls that all have a
material. -/
def stdSortCalls (l : List (RenderCall A D M)) : List (RenderCall A D M) :=
  stdSort (fun a b => RenderCall.lt a b == some true) l

end StdSortCalls

/-! ## Irradiance grid and light configuration (scene.cpp) -/

section Configure

variable {A D M V Cam : Type}

/-- The exponent of the spacing of the `float` values around the whole number `n`: the
least `e` with `n < 2 ^ (24 + e)`, searched upwards from `e` (a `float` has a
significand of 24 bits; the 104 steps of the search reach `FLT_MAX`). -/
def float32ShiftFrom : Nat → Nat → Nat → Nat
  | 0, e, _ => e
  | fuel + 1, e, n => if n < 2 ^ (24 + e) then e else float32ShiftFrom fuel (e + 1) n

/-- The `float` nearest to the whole number `n` (IEEE 754 binary32, round to nearest,
ties to even), for `n` below `FLT_MAX`. It is the value of an `int` operand converted to
`float` and of the exact sum or product of two whole-number `float` values stored in a
`float`. -/
def roundToFloat (n : Nat) : Nat :=
  let u := 2 ^ float32ShiftFrom 104 0 n
  if 2 * (n % u) < u ∨ (2 * (n % u) = u ∧ n / u % 2 = 0) then n / u * u else (n / u + 1) * u

/-- The values the counter takes in `for (int i = 0; i < bound; ++i)` when `bound` is a
`float` that holds a whole number: the comparison converts `i` to `float`, and the loop
ends at the first `i` whose conversion is not below `bound`. -/
def floatLoopRange (bound : Nat) : List Nat :=
  (List.range bound).takeWhile (fun i => decide (roundToFloat i < bound))

/-- The value stored by `p->index = i + dim.x * (j + dim.y * k);`: `dim` is a `Vector3`
of `float`, so `i`, `j` and `k` are converted to `float`, every product and sum is
rounded to `float`, and the result is truncated to `int` (it is a whole number, taken
below `2 ^ 31`). -/
def IrradianceGrid.probeIndex (dim : GridDim) (i j k : Nat) : Nat :=
  roundToFloat (roundToFloat i +
    roundToFloat (dim.x * roundToFloat (roundToFloat j + roundToFloat (dim.y * roundToFloat k))))

/-- The body of the innermost loop of `IrradianceGrid::configure` for the lattice
coordinates `(i, j, k)`:
```
p->local = Vector3(i / dim.x, j / dim.y, k / dim.z);
p->index = i + dim.x * (j + dim.y * k);
probes.push_back(p);
```
(`updateProbe` only places the probe in the world and is left out, as `ProbeEntity`
carries no matrix here.) -/
def IrradianceGrid.addProbe [DivisionRing D] (dim : GridDim) (k j : Nat)
    (g : IrradianceGrid D M) (i : Nat) : IrradianceGrid D M :=
  let p : ProbeEntity D :=
    { local_pos := ((i : D) / (dim.x : D), (j : D) / (dim.y : D), (k : D) / (dim.z : D))
      index := IrradianceGrid.probeIndex dim i j k }
  { g with probes := g.probes ++ [p] }

/-- The method `IrradianceGrid::configure`; `dim` is the vector read from the JSON
description, its components whole numbers that a `float` holds. The loops run `k`
outermost, then `j`, then `i`, each `int` counter compared with the `float` component. -/
def IrradianceGrid.configure [DivisionRing D] (g : IrradianceGrid D M) (dim : GridDim) :
    IrradianceGrid D M :=
  (floatLoopRange dim.z).foldl
    (fun gk k =>
      (floatLoopRange dim.y).foldl
        (fun gj j => (floatLoopRange dim.x).foldl (IrradianceGrid.addProbe dim k j) gj) gk)
    { g with dim := dim }

/-- The keys of the JSON description of a light that `LightEntity::configure` reads into
members carried by `LightEntity` here; an absent key is `none`. -/
structure LightJson (D V : Type) where
  light_type : Option String := none
  max_dist : Option D := none
  target : Option V := none
  cone_angle : Option D := none
  cast_shadows : Option Bool := none

/-- The constructor `LightEntity::LightEntity()`: `cast_shadows = false`,
`uvs = Vector3()`, `shadow_fbo = NULL`. The members it leaves uninitialised
(`light_type`, `max_distance`, `cone_angle`) and those of the entity (`name`, `model`)
are arguments. -/
def LightEntity.new [Zero D] (name : String) (model : M) (light_type : eLightType)
    (max_distance cone_angle : D) : LightEntity D M :=
  { name := name, visible := true, model := model, light_type := light_type,
    max_distance := max_distance, cone_angle := cone_angle, cast_shadows := false,
    uvs := (0, 0, 0), shadow_fbo := none }

/-- The expression `1024 * pow(2, (int)quality)`: side of a shadow map at a quality
tier. -/
def shadowResolution (quality : Nat) : Nat := 1024 * 2 ^ quality

/-- The method `LightEntity::configure(json)`, with `quality` the value of
`Application::instance->quality`. -/
def LightEntity.configure (fw : Framework A D M V Cam) (quality : Nat)
    (json : LightJson D V) (light : LightEntity D M) : LightEntity D M :=
  let l1 :=
    match json.light_type with
    | some type_str =>
      let a := if type_str = "POINT" then { light with light_type := eLightType.POINT } else light
      let b :=
        if type_str = "SPOT" then
          { a with light_type := eLightType.SPOT,
                   shadow_fbo := some ⟨shadowResolution quality, shadowResolution quality⟩ }
        else a
      if type_str = "DIRECTIONAL" then
        { b with light_type := eLightType.DIRECTIONAL,
                 shadow_fbo := some ⟨shadowResolution quality, shadowResolution quality⟩ }
      else b
    | none => light
  let l2 := match json.max_dist with
    | some d => { l1 with max_distance := d }
    | none => l1
  let l3 := match json.target with
    | some t => { l2 with model := fw.lookTowards l2.model t }
    | none => l2
  let l4 := match json.cone_angle with
    | some c => { l3 with cone_angle := c }
    | none => l3
  match json.cast_shadows with
  | some b => { l4 with cast_shadows := b }
  | none => l4

/-- The probe that `IrradianceGrid::configure` creates for the lattice coordinates
`(i, j, k)`. -/
def latticeProbe [DivisionRing D] (dim : GridDim) (i j k : Nat) : ProbeEntity D :=
  { local_pos := ((i : D) / (dim.x : D), (j : D) / (dim.y : D), (k : D) / (dim.z : D))
    index := IrradianceGrid.probeIndex dim i j k }

end Configure

/-! ## Shadow passes (renderer.cpp) -/

section Shadows

variable {A D M V Cam : Type} [LinearOrder A] [LinearOrder D]

/-- A mesh submitted to the shadow-map shader (`mesh->render(GL_TRIANGLES)`). -/
structure ShadowDraw (M : Type) where
  mesh : Mesh
  model : M
  two_sided : Bool
  deriving DecidableEq, Repr

/-- A fault that ends the frame: a null pointer dereferenced (the light whose
`shadow_fbo` is null, a call without mesh or material, a call without probe, the grid,
the atlas, an entry of the light list, a shader that `Shader::Get` did not find), a
write past the end of a fixed-size array, or `operator[]` of a vector with an index that
is not below its size. -/
inductive Fault (D M : Type) where
  | nullShadowFbo (light : LightEntity D M)
  | nullMesh
  | nullMaterial
  | nullProbe
  | nullGrid
  | nullAtlas
  | nullLight
  | nullShader (name : String)
  | arrayOverflow (index : Nat)
  | vectorOutOfRange (index : Nat)
  deriving DecidableEq, Repr

/-- One run of `shadowMapping`: the light, the render-target bound and the draws. -/
structure ShadowPass (D M : Type) where
  light : LightEntity D M
  target : FBO
  draws : List (ShadowDraw M)
  deriving DecidableEq, Repr

/-- One atlas cell rendered by `renderToAtlas`: the light with its new `uvs`, the counter
`c`, the value `(int)len`, the scissor and viewport rectangle `(x, y, size, size)` and
the draws. -/
structure AtlasCell (D M : Type) where
  light : LightEntity D M
  index : Nat
  cells_per_side : Nat
  x : Nat
  y : Nat
  size : Nat
  draws : List (ShadowDraw M)
  deriving DecidableEq, Repr

/-- The method `Renderer::renderMeshWithMaterialShadow`: the draws it submits. -/
def renderMeshWithMaterialShadow (fw : Framework A D M V Cam) (model : M)
    (mesh : Option Mesh) (material : Option (Material A)) (_light : LightEntity D M) :
    List (ShadowDraw M) :=
  match mesh, material with
  | some me, some ma =>
    if me.num_vertices = 0 then []
    else if !fw.shaderGet "shadowmap" || ma.alpha_mode = fw.BLEND then []
    else [{ mesh := me, model := model, two_sided := ma.two_sided }]
  | _, _ => []

/-- The method `Renderer::updateLight`: it refits the shadow camera of the light (not
carried by `LightEntity` here). A `POINT` light returns at once; a `DIRECTIONAL` light
reads `light->shadow_fbo->depth_texture->width`. -/
def updateLight (light : LightEntity D M) : Except (Fault D M) Unit :=
  match light.light_type with
  | eLightType.POINT => Except.ok ()
  | eLightType.SPOT => Except.ok ()
  | eLightType.DIRECTIONAL =>
    match light.shadow_fbo with
    | some _ => Except.ok ()
    | none => Except.error (Fault.nullShadowFbo light)
  | eLightType.NO_LIGHT => Except.ok ()

/-- The loop over `calls` in `shadowMapping`: the world box reads `calls[i].mesh->box`,
and a call whose box passes the frustum test of the light goes to
`renderMeshWithMaterialShadow`. -/
def shadowMappingDraws (fw : Framework A D M V Cam) (light : LightEntity D M) :
    List (RenderCall A D M) → Except (Fault D M) (List (ShadowDraw M))
  | [] => Except.ok []
  | call :: rest =>
    match call.mesh with
    | none => Except.error Fault.nullMesh
    | some me =>
      let here :=
        if fw.shadowFrustumTest light call.model me then
          renderMeshWithMaterialShadow fw call.model call.mesh call.material light
        else []
      (shadowMappingDraws fw light rest).map (fun ds => here ++ ds)

/-- The method `Renderer::shadowMapping(light, camera)`: `updateLight`, then
`light->shadow_fbo->bind()`, then the loop over the calls. -/
def shadowMapping (fw : Framework A D M V Cam) (r : Renderer A D M)
    (light : LightEntity D M) : Except (Fault D M) (ShadowPass D M) :=
  (updateLight light).bind (fun _ =>
    match light.shadow_fbo with
    | none => Except.error (Fault.nullShadowFbo light)
    | some fbo =>
      (shadowMappingDraws fw light r.calls).map
        (fun ds => { light := light, target := fbo, draws := ds }))

/-- The loop of `renderScene` in multi-pass mode:
```
for (i < lights.size()) { light = lights[i]; if (light->cast_shadows) shadowMapping(light, camera); }
``` -/
def shadowMappingLoop (fw : Framework A D M V Cam) (r : Renderer A D M) :
    List (LightEntity D M) → Except (Fault D M) (List (ShadowPass D M))
  | [] => Except.ok []
  | light :: rest =>
    if light.cast_shadows then
      (shadowMapping fw r light).bind (fun p =>
        (shadowMappingLoop fw r rest).map (fun ps => p :: ps))
    else shadowMappingLoop fw r rest

/-- The value `(int)ceil(sqrt(n))` for a count `n`: the least whole number `k` with
`n ≤ k * k`, searched upwards from `0`. -/
def ceilSqrt (n : Nat) : Nat :=
  ((List.range (n + 1)).find? (fun k => decide (n ≤ k * k))).getD n

/-- The inner loop of `renderToAtlas` over the calls, for one light: a call is skipped
when `(!testBoxInFrustum && light_type != DIRECTIONAL) || alpha_mode == BLEND`, and drawn
otherwise. -/
def atlasDraws (fw : Framework A D M V Cam) (light : LightEntity D M) :
    List (RenderCall A D M) → Except (Fault D M) (List (ShadowDraw M))
  | [] => Except.ok []
  | call :: rest =>
    match call.mesh with
    | none => Except.error Fault.nullMesh
    | some me =>
      if !fw.shadowFrustumTest light call.model me
          && light.light_type ≠ eLightType.DIRECTIONAL then
        atlasDraws fw light rest
      else
        match call.material with
        | none => Except.error Fault.nullMaterial
        | some ma =>
          if ma.alpha_mode = fw.BLEND then atlasDraws fw light rest
          else (atlasDraws fw light rest).map
            (fun ds => { mesh := me, model := call.model, two_sided := ma.two_sided } :: ds)

/-- The loop of `renderToAtlas` over the lights; `c` is the counter of lights placed so
far, `res` the cell resolution. It returns the lights (with their new `uvs`) and the
cells rendered. For a light that is not `POINT`:
```
updateLight(light, camera);
float len = ceil(sqrt(shadow_count));
int ires = (c % (int)len) * res;
int jres = (int)(floor(c / len)) * res;
float wi = (c % (int)len) / len;
float hj = floor(c / len) / len;
light->uvs = Vector3(wi, hj, 1 / len);
glScissor(ires, jres, res, res); glClear(...); glViewport(ires, jres, res, res);
... draws ...
c++;
``` -/
def atlasLoop [DivisionRing D] (fw : Framework A D M V Cam) (shadow_count res : Nat)
    (calls : List (RenderCall A D M)) :
    List (LightEntity D M) → Nat →
      Except (Fault D M) (List (LightEntity D M) × List (AtlasCell D M))
  | [], _ => Except.ok ([], [])
  | light :: rest, c =>
    if light.light_type = eLightType.POINT then
      (atlasLoop fw shadow_count res calls rest c).map (fun out => (light :: out.1, out.2))
    else
      (updateLight light).bind (fun _ =>
        let len := ceilSqrt shadow_count
        let ires := (c % len) * res
        let jres := (c / len) * res
        let wi : D := ((c % len : Nat) : D) / (len : D)
        let hj : D := ((c / len : Nat) : D) / (len : D)
        let light1 := { light with uvs := (wi, hj, 1 / (len : D)) }
        (atlasDraws fw light1 calls).bind (fun ds =>
          (atlasLoop fw shadow_count res calls rest (c + 1)).map (fun out =>
            (light1 :: out.1,
              { light := light1, index := c, cells_per_side := len, x := ires, y := jres,
                size := res, draws := ds } :: out.2))))

/-- The method `Renderer::renderToAtlas(camera)`, with `quality` the value of
`Application::instance->quality`. It returns the renderer (members `shadow_count`,
`atlas` and the `uvs` of the lights updated) and the cells rendered. -/
def renderToAtlas [DivisionRing D] (fw : Framework A D M V Cam) (quality : Nat)
    (r : Renderer A D M) : Except (Fault D M) (Renderer A D M × List (AtlasCell D M)) :=
  if r.shadow_count = 0 || r.calls.isEmpty then Except.ok (r, [])
  else if !fw.shaderGet "shadowmap" then Except.ok (r, [])
  else
    let res := shadowResolution quality
    let r1 := { r with shadow_count := 4 }
    let r2 :=
      match r1.atlas with
      | none =>
        { r1 with atlas := some ⟨res * ceilSqrt r1.shadow_count, res * ceilSqrt r1.shadow_count⟩ }
      | some _ => r1
    (atlasLoop fw r2.shadow_count res r2.calls r2.lights 0).map
      (fun out => ({ r2 with lights := out.1 }, out.2))

/-- The first part of `Renderer::renderScene`: `fetchSceneEntities(scene, camera, true,
true, true, true)`, then the shadow maps (one `shadowMapping` per shadow-casting light
in multi-pass mode, followed in deferred mode by the directional light; `renderToAtlas`
in single-pass mode). It returns the renderer, the shadow-map passes run and the atlas
cells rendered. -/
def renderSceneShadows [DivisionRing D] (fw : Framework A D M V Cam)
    (sort : List (RenderCall A D M) → List (RenderCall A D M)) (quality : Nat)
    (scene : Scene A D M) (camera : Cam) (r : Renderer A D M) :
    Except (Fault D M)
      (Renderer A D M × List (ShadowPass D M) × List (AtlasCell D M)) :=
  let r1 := fetchSceneEntities fw sort scene camera true true true true r
  if r1.light_mode = eLightMode.MULTI then
    (shadowMappingLoop fw r1 r1.lights).bind (fun passes =>
      let last : Except (Fault D M) (List (ShadowPass D M)) :=
        if r1.render_mode = eRenderMode.DEFERRED then
          match r1.directional_light with
          | some dl =>
            if dl.cast_shadows then (shadowMapping fw r1 dl).map (fun p => [p])
            else Except.ok []
          | none => Except.ok []
        else Except.ok []
      last.map (fun ps => (r1, passes ++ ps, [])))
  else if r1.light_mode = eLightMode.SINGLE then
    (renderToAtlas fw quality r1).map (fun out => (out.1, [], out.2))
  else Except.ok (r1, [], [])

/-- The cells rendered by a run of `renderToAtlas` (none when the run did not complete). -/
def atlasCells
    (out : Except (Fault D M) (Renderer A D M × List (AtlasCell D M))) :
    List (AtlasCell D M) :=
  match out with
  | Except.ok o => o.2
  | Except.error _ => []

/-- The interiors of two atlas rectangles `(x, y, side)` overlap: the open squares
`(x, x + side) × (y, y + side)` have a common point. -/
def uvInteriorsOverlap [Add D] (a b : D × D × D) : Prop :=
  a.1 < b.1 + b.2.2 ∧ b.1 < a.1 + a.2.2 ∧ a.2.1 < b.2.1 + b.2.2 ∧ b.2.1 < a.2.1 + a.2.2

end Shadows

/-! ## Graphics commands and the mesh passes (renderer.cpp) -/

/-- The capabilities switched with `glEnable` and `glDisable`. -/
inductive GLCap where
  | CULL_FACE | BLEND | DEPTH_TEST | SCISSOR_TEST
  deriving DecidableEq, Repr

/-- The blend factors passed to `glBlendFunc`. -/
inductive GLFactor where
  | SRC_ALPHA | ONE_MINUS_SRC_ALPHA | ONE
  deriving DecidableEq, Repr

/-- The comparisons passed to `glDepthFunc`. -/
inductive GLDepthFunc where
  | LESS | LEQUAL
  deriving DecidableEq, Repr

/-- The windings passed to `glFrontFace`. -/
inductive GLWinding where
  | CW | CCW
  deriving DecidableEq, Repr

/-- The value of a uniform upload, as far as it is followed here: an integer, a boolean,
a zero vector, a matrix, a texture (by name), the per-attribute array packed from the
listed lights and uploaded with `length` entries, or a value that is not followed
(colours, factors, camera matrices). -/
inductive UVal (D M : Type) where
  | int (v : Int)
  | bool (v : Bool)
  | zero
  | matrix (m : M)
  | texture (name : String)
  | lights (slots : List (LightEntity D M)) (length : Nat)
  | untracked
  deriving DecidableEq, Repr

/-- A command issued to the graphics layer. `subpass` stands for a whole auxiliary pass
(sky, decals, ambient occlusion, volumetric light, probe display) whose commands are not
listed one by one. -/
inductive GLCmd (D M : Type) where
  | enable (cap : GLCap)
  | disable (cap : GLCap)
  | blendFunc (src dst : GLFactor)
  | depthFunc (f : GLDepthFunc)
  | frontFace (w : GLWinding)
  | shaderEnable (name : String)
  | shaderDisable (name : String)
  | setUniform (name : String) (value : UVal D M)
  | draw (mesh : Mesh)
  | subpass (name : String)
  deriving DecidableEq, Repr

section MeshPasses

variable {A D M V Cam : Type} [LinearOrder A] [LinearOrder D]

/-- The mesh of a draw command (`none` for any other command). -/
def GLCmd.drawnMesh : GLCmd D M → Option Mesh
  | GLCmd.draw mesh => some mesh
  | _ => none

/-- The value that the uniform `name` holds after the commands `cmds`: that of the last
upload to it. -/
def lastUniform (name : String) (cmds : List (GLCmd D M)) : Option (UVal D M) :=
  cmds.foldl
    (fun acc c =>
      match c with
      | GLCmd.setUniform n v => if n = name then some v else acc
      | _ => acc)
    none

/-- An upload whose value is not followed. -/
def untrackedUniform (name : String) : GLCmd D M :=
  GLCmd.setUniform name UVal.untracked

/-- The constant `Renderer::max_lights` of `renderer.h`. -/
def max_lights : Nat := 100

/-- The full-screen quad `Mesh::getQuad()`. -/
def quadMesh : Mesh := { name := "quad", num_vertices := 6 }

/-- The mesh `Mesh::Get("data/meshes/sphere.obj")`. -/
def sphereMesh : Mesh := { name := "data/meshes/sphere.obj", num_vertices := 3 }

/-- The result of `Shader::Get(name)` followed by a use of the shader without a null
test (`shader->enable()`): a fault when the shader is not found. -/
def requireShader (fw : Framework A D M V Cam) (name : String) : Except (Fault D M) Unit :=
  if fw.shaderGet name then Except.ok () else Except.error (Fault.nullShader name)

/-- The block that `renderMultiPass`, `renderSinglePass` and `renderMeshWithMaterial`
share:
```
if (probes_texture) {
    shader->setUniform("u_invmodel_grid", grid->inv_model);
    shader->setUniform("u_irr_dims", grid->dim);
    shader->setUniform("u_trilinear", irr_3lerp);
    shader->setTexture("u_texture_probes", probes_texture, 6);
}
``` -/
def irradianceUniforms (r : Renderer A D M) : Except (Fault D M) (List (GLCmd D M)) :=
  if r.probes_texture then
    match r.grid with
    | none => Except.error Fault.nullGrid
    | some _ =>
      Except.ok [untrackedUniform "u_invmodel_grid", untrackedUniform "u_irr_dims",
        GLCmd.setUniform "u_trilinear" (UVal.bool r.irr_3lerp),
        GLCmd.setUniform "u_texture_probes" (UVal.texture "probes_texture")]
  else Except.ok []

/-- The method `LightEntity::uploadLightParams(sh, linearize, hdr_gamma)`. With
`cast_shadows` set it reads `shadow_fbo->depth_texture`. -/
def LightEntity.uploadLightParams (light : LightEntity D M) :
    Except (Fault D M) (List (GLCmd D M)) :=
  let shadow : Except (Fault D M) (List (GLCmd D M)) :=
    if light.cast_shadows then
      match light.shadow_fbo with
      | none => Except.error (Fault.nullShadowFbo light)
      | some _ =>
        Except.ok [GLCmd.setUniform "shadowmap" (UVal.texture ("shadowmap of " ++ light.name)),
          untrackedUniform "u_shadow_viewproj", untrackedUniform "u_shadow_bias"]
    else Except.ok []
  shadow.map (fun sh =>
    sh ++ [untrackedUniform "u_light_color", untrackedUniform "u_light_cutoff",
      untrackedUniform "u_light_exp", untrackedUniform "u_light_vector",
      GLCmd.setUniform "u_shadows" (UVal.bool light.cast_shadows),
      untrackedUniform "u_light_position", untrackedUniform "u_light_maxdist",
      GLCmd.setUniform "u_light_type" (UVal.int light.light_type.toInt),
      untrackedUniform "u_light_intensity"])

/-- The commands of `renderMultiPass` that precede `uploadLightParams` for the light of
index `i`: nothing for the first light, and for the others
```
if (material) { if (material->alpha_mode == BLEND) glBlendFunc(GL_SRC_ALPHA, GL_ONE);
                else glEnable(GL_BLEND); }
shader->setVector3("u_ambient_light", Vector3(0, 0, 0));
shader->setUniform("u_irr", false);
shader->setUniform("u_reflections", false);
if (pipeline == DEFERRED) { shader->setUniform("u_emissive", false);
                            glEnable(GL_BLEND); glBlendFunc(GL_ONE, GL_ONE); }
else shader->setUniform("u_emissive", Vector3(0, 0, 0));
``` -/
def multiPassPrelude (fw : Framework A D M V Cam) (material : Option (Material A))
    (pipeline : eRenderMode) (i : Nat) : List (GLCmd D M) :=
  if i ≠ 0 then
    (match material with
      | some ma =>
        if ma.alpha_mode = fw.BLEND then [GLCmd.blendFunc GLFactor.SRC_ALPHA GLFactor.ONE]
        else [GLCmd.enable GLCap.BLEND]
      | none => []) ++
    [GLCmd.setUniform "u_ambient_light" UVal.zero,
      GLCmd.setUniform "u_irr" (UVal.bool false),
      GLCmd.setUniform "u_reflections" (UVal.bool false)] ++
    (if pipeline = eRenderMode.DEFERRED then
      [GLCmd.setUniform "u_emissive" (UVal.bool false), GLCmd.enable GLCap.BLEND,
        GLCmd.blendFunc GLFactor.ONE GLFactor.ONE]
    else [GLCmd.setUniform "u_emissive" UVal.zero])
  else []

/-- The loop of `renderMultiPass` over the lights, from the light of index `i` on: for
each light the prelude, `uploadLightParams` and `mesh->render(GL_TRIANGLES)`. -/
def multiPassLoop (fw : Framework A D M V Cam) (mesh : Mesh)
    (material : Option (Material A)) (pipeline : eRenderMode) :
    List (LightEntity D M) → Nat → Except (Fault D M) (List (GLCmd D M))
  | [], _ => Except.ok []
  | light :: rest, i =>
    light.uploadLightParams.bind (fun up =>
      (multiPassLoop fw mesh material pipeline rest (i + 1)).map (fun tail =>
        multiPassPrelude fw material pipeline i ++ up ++ [GLCmd.draw mesh] ++ tail))

/-- The method `Renderer::renderMultiPass(mesh, material, shader, pipeline)`. -/
def renderMultiPass (fw : Framework A D M V Cam) (r : Renderer A D M) (mesh : Mesh)
    (material : Option (Material A)) (pipeline : eRenderMode) :
    Except (Fault D M) (List (GLCmd D M)) :=
  (irradianceUniforms r).bind (fun irr =>
    (multiPassLoop fw mesh material pipeline r.lights 0).map (fun body =>
      [GLCmd.enable GLCap.DEPTH_TEST, GLCmd.depthFunc GLDepthFunc.LEQUAL,
        GLCmd.setUniform "u_pcf" (UVal.bool r.pcf)] ++ irr ++
      [GLCmd.setUniform "u_irr" (UVal.bool r.activate_irr)] ++ body))

/-- The array slots that the filling loop of `renderSinglePass` writes: slot `i` of every
per-attribute array receives the record of `lights[i]`, for every `i < lights.size()`. -/
def singlePassSlots (lights : List (LightEntity D M)) : List (Nat × LightEntity D M) :=
  lights.enum

/-- The names of the twelve per-attribute arrays that `renderSinglePass` uploads, each
with `max_lights` entries. -/
def singlePassArrays : List String :=
  ["u_shadow_viewproj", "u_light_position", "u_light_color", "u_light_vector",
    "u_light_uvs", "u_light_maxdist", "u_light_type", "u_light_intensity",
    "u_light_cutoff", "u_light_exp", "u_shadows", "u_shadow_bias"]

/-- The method `Renderer::renderSinglePass(shader, mesh)`. The arrays have `max_lights`
entries; a write to a slot past their end is the fault `arrayOverflow`. With
`shadow_count != 0` the function reads `atlas->depth_texture`. -/
def renderSinglePass (r : Renderer A D M) (mesh : Mesh) :
    Except (Fault D M) (List (GLCmd D M)) :=
  match (singlePassSlots r.lights).find? (fun slot => decide (max_lights ≤ slot.1)) with
  | some slot => Except.error (Fault.arrayOverflow slot.1)
  | none =>
    (irradianceUniforms r).bind (fun irr =>
      let atlasTexture : Except (Fault D M) (List (GLCmd D M)) :=
        if r.shadow_count ≠ 0 then
          match r.atlas with
          | none => Except.error Fault.nullAtlas
          | some _ => Except.ok [GLCmd.setUniform "u_texture_atlas" (UVal.texture "atlas")]
        else Except.ok [GLCmd.setUniform "u_texture_atlas" (UVal.texture "black")]
      atlasTexture.map (fun tex =>
        irr ++ [GLCmd.setUniform "u_irr" (UVal.bool r.activate_irr)] ++
        singlePassArrays.map
          (fun name => GLCmd.setUniform name (UVal.lights r.lights max_lights)) ++
        [GLCmd.setUniform "u_num_lights" (UVal.int r.lights.length),
          GLCmd.setUniform "u_shadow_count" (UVal.int r.shadow_count),
          GLCmd.setUniform "u_pcf" (UVal.bool r.pcf)] ++ tex ++ [GLCmd.draw mesh]))

/-- The shader that `renderMeshWithMaterial` asks for:
```
switch (pipeline) {
  case FORWARD: if (light_mode == MULTI) shader = Shader::Get("light_multi");
                if (light_mode == SINGLE) shader = Shader::Get("light_single"); break;
  case DEFERRED: shader = Shader::Get("gbuffers"); break;
  case DEFERRED_ALPHA: shader = Shader::Get("light_multi"); break;
}
```
(`none` when no lookup is made). -/
def chooseShader (r : Renderer A D M) (pipeline : eRenderMode) : Option String :=
  match pipeline with
  | eRenderMode.FORWARD =>
    let first := if r.light_mode = eLightMode.MULTI then some "light_multi" else none
    if r.light_mode = eLightMode.SINGLE then some "light_single" else first
  | eRenderMode.DEFERRED => some "gbuffers"
  | eRenderMode.DEFERRED_ALPHA => some "light_multi"

/-- The uploads of `renderMeshWithMaterial` from `shader->enable()` to the texture
slots. -/
def meshUniforms (r : Renderer A D M) (call : RenderCall A D M) (shader : String) :
    List (GLCmd D M) :=
  [GLCmd.shaderEnable shader, untrackedUniform "u_viewprojection",
    untrackedUniform "u_camera_position", untrackedUniform "u_viewmatrix",
    GLCmd.setUniform "u_model" (UVal.matrix call.model), untrackedUniform "u_color",
    untrackedUniform "u_emissive", untrackedUniform "u_ambient_light",
    GLCmd.setUniform "u_light_eq" (UVal.int r.light_eq.toInt), untrackedUniform "u_gamma",
    untrackedUniform "u_metallic", untrackedUniform "u_roughness",
    untrackedUniform "u_texture", untrackedUniform "u_texture_em",
    untrackedUniform "u_texture_metallic_roughness", untrackedUniform "u_texture_normals"]

/-- The block
```
if (call.probe)
    if (call.probe->cubemap) shader->setUniform("u_environment_texture", call.probe->cubemap, 13);
    else shader->setUniform("u_environment_texture", Texture::getWhiteTexture(), 13);
```
(the `else` belongs to the inner `if`). -/
def environmentUniform (call : RenderCall A D M) : List (GLCmd D M) :=
  match call.probe with
  | some p =>
    if p.cubemap then
      [GLCmd.setUniform "u_environment_texture" (UVal.texture ("cubemap of " ++ p.name))]
    else [GLCmd.setUniform "u_environment_texture" (UVal.texture "white")]
  | none => []

/-- The uploads between the environment texture and the reflections flag:
`u_deferred`, for `DEFERRED_ALPHA` the ambient-occlusion uniforms, then
`u_alpha_cutoff`. -/
def deferredFlagUniforms (r : Renderer A D M) (pipeline : eRenderMode) : List (GLCmd D M) :=
  [GLCmd.setUniform "u_deferred" (UVal.bool (decide (pipeline = eRenderMode.DEFERRED_ALPHA)))] ++
  (if pipeline = eRenderMode.DEFERRED_ALPHA then
    [GLCmd.setUniform "u_ao" (UVal.bool r.activate_ssao)] ++
    (if r.activate_ssao then [GLCmd.setUniform "u_ao_texture" (UVal.texture "ssao")] else [])
  else []) ++
  [untrackedUniform "u_alpha_cutoff"]

/-- The block `if (reflections) shader->setTexture("u_environment_texture",
call.probe->cubemap, 11);`, which dereferences `call.probe`, followed by the upload of
`u_reflections`. -/
def reflectionUniforms (r : Renderer A D M) (call : RenderCall A D M) :
    Except (Fault D M) (List (GLCmd D M)) :=
  if r.reflections then
    match call.probe with
    | none => Except.error Fault.nullProbe
    | some p =>
      Except.ok [GLCmd.setUniform "u_environment_texture" (UVal.texture ("cubemap of " ++ p.name)),
        GLCmd.setUniform "u_reflections" (UVal.bool r.reflections)]
  else Except.ok [GLCmd.setUniform "u_reflections" (UVal.bool r.reflections)]

/-- The three-way branch of `renderMeshWithMaterial` that submits the draws: multi-pass
lights (forward multi-pass or the alpha overlay of the deferred pipeline), single-pass
lights, or the geometry pass of the deferred pipeline. -/
def meshLightingPass (fw : Framework A D M V Cam) (r : Renderer A D M) (mesh : Mesh)
    (material : Material A) (pipeline : eRenderMode) :
    Except (Fault D M) (List (GLCmd D M)) :=
  if (pipeline = eRenderMode.FORWARD ∧ r.light_mode = eLightMode.MULTI)
      ∨ pipeline = eRenderMode.DEFERRED_ALPHA then
    let blend : List (GLCmd D M) :=
      if material.alpha_mode = fw.BLEND then
        [GLCmd.enable GLCap.BLEND,
          GLCmd.blendFunc GLFactor.SRC_ALPHA GLFactor.ONE_MINUS_SRC_ALPHA]
      else [GLCmd.disable GLCap.BLEND, GLCmd.blendFunc GLFactor.SRC_ALPHA GLFactor.ONE]
    if r.lights.length = 0 then
      Except.ok (blend ++
        [GLCmd.setUniform "u_light_type" (UVal.int eLightType.NO_LIGHT.toInt),
          GLCmd.setUniform "u_light_eq" (UVal.int eLightEq.NO_EQ.toInt), GLCmd.draw mesh])
    else
      (renderMultiPass fw r mesh (some material) pipeline).map (fun cmds => blend ++ cmds)
  else if pipeline = eRenderMode.FORWARD ∧ r.light_mode = eLightMode.SINGLE then
    let blend : List (GLCmd D M) :=
      if material.alpha_mode = fw.BLEND then
        [GLCmd.enable GLCap.BLEND,
          GLCmd.blendFunc GLFactor.SRC_ALPHA GLFactor.ONE_MINUS_SRC_ALPHA]
      else []
    (renderSinglePass r mesh).map (fun cmds => blend ++ cmds)
  else
    (irradianceUniforms r).map (fun irr =>
      irr ++ [GLCmd.setUniform "u_irr" (UVal.bool r.probes_texture)] ++
      (if r.dithering || decide (material.alpha_mode = fw.NO_ALPHA) then [GLCmd.draw mesh]
       else []))

/-- The method `Renderer::renderMeshWithMaterial(call, camera, scene, pipeline)`: the
commands it issues, in order. -/
def renderMeshWithMaterial (fw : Framework A D M V Cam) (r : Renderer A D M)
    (call : RenderCall A D M) (pipeline : eRenderMode) :
    Except (Fault D M) (List (GLCmd D M)) :=
  match call.mesh, call.material with
  | some mesh, some material =>
    if mesh.num_vertices = 0 then Except.ok []
    else
      let cull : GLCmd D M :=
        if material.two_sided then GLCmd.disable GLCap.CULL_FACE
        else GLCmd.enable GLCap.CULL_FACE
      match (chooseShader r pipeline).filter fw.shaderGet with
      | none => Except.ok [cull]
      | some shader =>
        (reflectionUniforms r call).bind (fun refl =>
          (meshLightingPass fw r mesh material pipeline).map (fun pass =>
            [cull] ++ meshUniforms r call shader ++ environmentUniform call ++
            deferredFlagUniforms r pipeline ++ refl ++ pass ++
            [GLCmd.shaderDisable shader, GLCmd.disable GLCap.BLEND,
              GLCmd.depthFunc GLDepthFunc.LESS]))
  | _, _ => Except.ok []

/-- The commands of `Renderer::renderMeshWithMaterialShadow`, in order; the function
`renderMeshWithMaterialShadow` above lists its draws. -/
def renderMeshWithMaterialShadowCommands (fw : Framework A D M V Cam) (model : M)
    (mesh : Option Mesh) (material : Option (Material A)) (_light : LightEntity D M) :
    List (GLCmd D M) :=
  match mesh, material with
  | some me, some ma =>
    if me.num_vertices = 0 then []
    else if !fw.shaderGet "shadowmap" || ma.alpha_mode = fw.BLEND then []
    else
      [if ma.two_sided then GLCmd.disable GLCap.CULL_FACE else GLCmd.enable GLCap.CULL_FACE,
        GLCmd.shaderEnable "shadowmap", untrackedUniform "u_viewprojection",
        untrackedUniform "u_texture", GLCmd.setUniform "u_model" (UVal.matrix model),
        untrackedUniform "u_alpha_cutoff", GLCmd.draw me, GLCmd.shaderDisable "shadowmap",
        GLCmd.disable GLCap.BLEND, GLCmd.depthFunc GLDepthFunc.LESS]
  | _, _ => []

/-- The loop over the calls that `renderCalls` and `renderGBuffers` share: the world box
reads `calls[i].mesh->box`, and a call whose box passes the frustum test of the camera
goes to `renderMeshWithMaterial`. -/
def renderCallsLoop (fw : Framework A D M V Cam) (r : Renderer A D M) (camera : Cam)
    (pipeline : eRenderMode) :
    List (RenderCall A D M) → Except (Fault D M) (List (GLCmd D M))
  | [] => Except.ok []
  | call :: rest =>
    match call.mesh with
    | none => Except.error Fault.nullMesh
    | some me =>
      (if fw.cameraFrustumTest camera call.model me then
          renderMeshWithMaterial fw r call pipeline
        else Except.ok []).bind (fun here =>
        (renderCallsLoop fw r camera pipeline rest).map (fun tail => here ++ tail))

/-- The method `Renderer::renderSkybox`, run when `scene->environment` is not null: it
enables the shader `skybox` without a null test. -/
def renderSkybox (fw : Framework A D M V Cam) (scene : Scene A D M) :
    Except (Fault D M) (List (GLCmd D M)) :=
  if scene.environment then
    (requireShader fw "skybox").map (fun _ => [GLCmd.subpass "renderSkybox"])
  else Except.ok []

/-- The method `Renderer::renderCalls(calls, camera, scene, pipeline)` of the forward
pipeline (the binding and clearing of the render target are not listed). -/
def renderCalls (fw : Framework A D M V Cam) (r : Renderer A D M)
    (calls : List (RenderCall A D M)) (camera : Cam) (scene : Scene A D M)
    (pipeline : eRenderMode) : Except (Fault D M) (List (GLCmd D M)) :=
  (renderSkybox fw scene).bind (fun sky =>
    (renderCallsLoop fw r camera pipeline calls).map (fun body => sky ++ body))

/-- The method `Renderer::renderGBuffers`: sky, the geometry pass (every call in the
frustum goes to `renderMeshWithMaterial` with the pipeline `render_mode`), then the
decals, which enable the shader `decals` without a null test. -/
def renderGBuffers (fw : Framework A D M V Cam) (r : Renderer A D M)
    (calls : List (RenderCall A D M)) (camera : Cam) (scene : Scene A D M) :
    Except (Fault D M) (List (GLCmd D M)) :=
  (renderSkybox fw scene).bind (fun sky =>
    (renderCallsLoop fw r camera r.render_mode calls).bind (fun body =>
      (requireShader fw "decals").map (fun _ =>
        sky ++ body ++ [GLCmd.subpass "renderDecals", GLCmd.disable GLCap.DEPTH_TEST,
          GLCmd.disable GLCap.BLEND])))

/-- The method `Renderer::passDeferredUniforms(sh, first_pass, ...)`. -/
def passDeferredUniforms (r : Renderer A D M) (first_pass : Bool) : List (GLCmd D M) :=
  [untrackedUniform "u_color_texture", untrackedUniform "u_normal_texture",
    untrackedUniform "u_extra_texture", untrackedUniform "u_depth_texture",
    untrackedUniform "u_inverse_viewprojection", untrackedUniform "u_iRes"] ++
  (if first_pass then
    [untrackedUniform "u_ambient_light", GLCmd.setUniform "u_emissive" (UVal.bool true),
      GLCmd.setUniform "u_back" (UVal.bool true),
      GLCmd.setUniform "u_ao" (UVal.bool r.activate_ssao), untrackedUniform "u_irr_texture",
      GLCmd.setUniform "u_irr" (UVal.bool r.activate_irr)]
  else
    [GLCmd.setUniform "u_ambient_light" UVal.zero,
      GLCmd.setUniform "u_emissive" (UVal.bool false),
      GLCmd.setUniform "u_back" (UVal.bool false), GLCmd.setUniform "u_ao" (UVal.bool false)]) ++
  [GLCmd.setUniform "u_light_eq" (UVal.int r.light_eq.toInt),
    untrackedUniform "u_camera_position", untrackedUniform "u_gamma"]

/-- The loop of `renderMultiPassSphere` over the lights: for each light the sphere
matrix (translation to the light, scaled by `max_distance`), `uploadLightParams`,
`glFrontFace(GL_CW)` and the draw of the sphere. -/
def sphereLoop (fw : Framework A D M V Cam) :
    List (LightEntity D M) → Except (Fault D M) (List (GLCmd D M))
  | [] => Except.ok []
  | light :: rest =>
    light.uploadLightParams.bind (fun up =>
      (sphereLoop fw rest).map (fun tail =>
        [untrackedUniform "u_viewprojection",
          GLCmd.setUniform "u_model"
            (UVal.matrix (fw.sphereModel (fw.getTranslation light.model) light.max_distance))]
        ++ up ++ [GLCmd.frontFace GLWinding.CW, GLCmd.draw sphereMesh] ++ tail))

/-- The method `Renderer::renderMultiPassSphere(sh, camera)`. -/
def renderMultiPassSphere (fw : Framework A D M V Cam) (r : Renderer A D M)
    (sh : String) : Except (Fault D M) (List (GLCmd D M)) :=
  (sphereLoop fw r.lights).map (fun body =>
    [GLCmd.enable GLCap.BLEND, GLCmd.blendFunc GLFactor.ONE GLFactor.ONE,
      GLCmd.enable GLCap.CULL_FACE, GLCmd.setUniform "u_ambient_light" UVal.zero,
      GLCmd.setUniform "u_emissive" (UVal.bool false),
      GLCmd.setUniform "u_back" (UVal.bool false),
      GLCmd.setUniform "u_light_eq" (UVal.int r.light_eq.toInt),
      untrackedUniform "u_camera_position", GLCmd.setUniform "u_pcf" (UVal.bool r.pcf)] ++
    body ++
    [GLCmd.shaderDisable sh, GLCmd.disable GLCap.DEPTH_TEST, GLCmd.disable GLCap.BLEND,
      GLCmd.frontFace GLWinding.CCW])

/-- The alpha forward loop of `renderDeferred`: a call whose material has alpha mode
`NO_ALPHA` is skipped, any other call in the frustum goes to `renderMeshWithMaterial`
with the pipeline `DEFERRED_ALPHA`. -/
def alphaForwardLoop (fw : Framework A D M V Cam) (r : Renderer A D M) (camera : Cam) :
    List (RenderCall A D M) → Except (Fault D M) (List (GLCmd D M))
  | [] => Except.ok []
  | call :: rest =>
    match call.material with
    | none => Except.error Fault.nullMaterial
    | some ma =>
      if ma.alpha_mode = fw.NO_ALPHA then alphaForwardLoop fw r camera rest
      else
        match call.mesh with
        | none => Except.error Fault.nullMesh
        | some me =>
          (if fw.cameraFrustumTest camera call.model me then
              renderMeshWithMaterial fw r call eRenderMode.DEFERRED_ALPHA
            else Except.ok []).bind (fun here =>
            (alphaForwardLoop fw r camera rest).map (fun tail => here ++ tail))

/-- The alpha forward overlay of `renderDeferred`:
```
if (!dithering) {
    if (directional_light) lights.push_back(directional_light);
    for (int i = 0; i < calls.size(); ++i) { ... }
}
```
It returns the renderer, with `lights` as the overlay leaves it, and the commands. -/
def alphaForwardPass (fw : Framework A D M V Cam) (r : Renderer A D M) (camera : Cam)
    (calls : List (RenderCall A D M)) :
    Except (Fault D M) (Renderer A D M × List (GLCmd D M)) :=
  if r.dithering then Except.ok (r, [])
  else
    let r1 : Renderer A D M :=
      match r.directional_light with
      | some dl => { r with lights := r.lights ++ [dl] }
      | none => r
    (alphaForwardLoop fw r1 camera calls).map (fun cmds => (r1, cmds))

/-- The lighting resolve of `renderDeferred` with the shader `deferred_multi`, which is
enabled without a null test: the uniforms of the first pass, the directional light when
there is one (`u_light_eq = NO_EQ` otherwise) and the full-screen quad. -/
def deferredResolvePass (fw : Framework A D M V Cam) (r : Renderer A D M) :
    Except (Fault D M) (List (GLCmd D M)) :=
  (requireShader fw "deferred_multi").bind (fun _ =>
    (match r.directional_light with
      | some dl =>
        dl.uploadLightParams.map (fun up => GLCmd.setUniform "u_pcf" (UVal.bool r.pcf) :: up)
      | none => Except.ok [GLCmd.setUniform "u_light_eq" (UVal.int eLightEq.NO_EQ.toInt)]).map
      (fun dir =>
        [GLCmd.shaderEnable "deferred_multi"] ++ passDeferredUniforms r true ++
        (if r.activate_ssao then
          [untrackedUniform "u_ao_texture", untrackedUniform "u_ao_factor"] else []) ++
        dir ++
        [GLCmd.disable GLCap.DEPTH_TEST, GLCmd.disable GLCap.BLEND, GLCmd.draw quadMesh,
          GLCmd.shaderDisable "deferred_multi"]))

/-- The light-volume pass of `renderDeferred` with the shader `deferred_ws`, enabled
without a null test. -/
def deferredSpherePass (fw : Framework A D M V Cam) (r : Renderer A D M) :
    Except (Fault D M) (List (GLCmd D M)) :=
  (requireShader fw "deferred_ws").bind (fun _ =>
    (renderMultiPassSphere fw r "deferred_ws").map (fun spheres =>
      [GLCmd.shaderEnable "deferred_ws"] ++ passDeferredUniforms r false ++ spheres))

/-- The optional passes that end `renderDeferred`: `volumetricDirectional` (shader
`volume`, reads `directional_light`), `renderProbes` (returns at once without a grid,
shader `probe`) and `renderReflectionProbes` (shader `reflection_probe`). -/
def deferredExtras (fw : Framework A D M V Cam) (r : Renderer A D M) :
    Except (Fault D M) (List (GLCmd D M)) :=
  (if r.volumetric then
      (requireShader fw "volume").bind (fun _ =>
        match r.directional_light with
        | none => Except.error Fault.nullLight
        | some _ => Except.ok [GLCmd.subpass "volumetricDirectional"])
    else Except.ok []).bind (fun vol =>
    (if r.show_probes && r.grid.isSome then
        (requireShader fw "probe").map (fun _ => [GLCmd.subpass "renderProbes"])
      else Except.ok []).bind (fun probes =>
      (if r.show_reflection_probes then
          (requireShader fw "reflection_probe").map
            (fun _ => [GLCmd.subpass "renderReflectionProbes"])
        else Except.ok []).map (fun refl => vol ++ probes ++ refl)))

/-- The ambient-occlusion pass `ssao->apply(...)` of `renderDeferred`, run when
`activate_ssao` is set: it enables the shader `ssao`, and `ssao_blur` when the blur is
on, without a null test. -/
def ssaoPass (fw : Framework A D M V Cam) (r : Renderer A D M) :
    Except (Fault D M) (List (GLCmd D M)) :=
  if r.activate_ssao then
    (requireShader fw "ssao").bind (fun _ =>
      (if r.ssao_blur then requireShader fw "ssao_blur" else Except.ok ()).map
        (fun _ => [GLCmd.subpass "SSAO::apply"]))
  else Except.ok []

/-- The method `Renderer::renderDeferred(calls, camera, scene)`. With dithering off the
alpha forward overlay first appends the directional light, when there is one, to
`lights`; the renderer is returned with that list. -/
def renderDeferred (fw : Framework A D M V Cam) (r : Renderer A D M)
    (calls : List (RenderCall A D M)) (camera : Cam) (scene : Scene A D M) :
    Except (Fault D M) (Renderer A D M × List (GLCmd D M)) :=
  (renderGBuffers fw r calls camera scene).bind (fun gb =>
    (ssaoPass fw r).bind (fun ao =>
      (deferredResolvePass fw r).bind (fun resolve =>
        (deferredSpherePass fw r).bind (fun spheres =>
          (alphaForwardPass fw r camera calls).bind (fun alpha =>
            (deferredExtras fw alpha.1).map (fun extras =>
              (alpha.1, gb ++ ao ++ resolve ++ spheres ++ alpha.2 ++ extras ++
                [GLCmd.disable GLCap.BLEND, GLCmd.disable GLCap.DEPTH_TEST])))))))

/-- The quality-change loop of `Application::renderDebugGUI` over the entries of
`renderer->lights` (an entry is `none` when the pointer is null):
```
if (lights[i]->light_type == SPOT || lights[i]->light_type == DIRECTIONAL) {
    lights[i]->shadow_fbo->~FBO();
    lights[i]->shadow_fbo = new FBO();
    int res = 1024 * pow(2, (int)quality);
    lights[i]->shadow_fbo->setDepthOnly(res, res);
}
``` -/
def qualityChangeLoop (quality : Nat) :
    List (Option (LightEntity D M)) → Except (Fault D M) (List (LightEntity D M))
  | [] => Except.ok []
  | none :: _ => Except.error Fault.nullLight
  | some light :: rest =>
    (if light.light_type = eLightType.SPOT ∨ light.light_type = eLightType.DIRECTIONAL then
        match light.shadow_fbo with
        | none => Except.error (Fault.nullShadowFbo light)
        | some _ =>
          Except.ok { light with
            shadow_fbo := some ⟨shadowResolution quality, shadowResolution quality⟩ }
      else Except.ok light).bind (fun updated =>
      (qualityChangeLoop quality rest).map (fun tail => updated :: tail))

/-- The quality-change handling of `Application::renderDebugGUI` for the new tier
`quality`: in deferred mode `renderer->directional_light` is first appended to
`renderer->lights` (null or not), then the loop runs, then the atlas is dropped. The
directional light is the same object as the entry appended for it. -/
def renderDebugGUIQualityChange (quality : Nat) (r : Renderer A D M) :
    Except (Fault D M) (Renderer A D M) :=
  let entries : List (Option (LightEntity D M)) :=
    if r.render_mode = eRenderMode.DEFERRED then r.lights.map some ++ [r.directional_light]
    else r.lights.map some
  (qualityChangeLoop quality entries).map (fun updated =>
    { r with
      lights := updated
      directional_light :=
        if r.render_mode = eRenderMode.DEFERRED then updated.getLast? else r.directional_light
      atlas := none })

/-- The handling of the key `1` in `Application::onKeyDown`:
```
if (renderer->lights.size() > 0)
    renderer->depth_light = (renderer->depth_light + 1) % renderer->lights.size();
``` -/
def onKeyDownSDLK1 (r : Renderer A D M) : Renderer A D M :=
  if 0 < r.lights.length then
    { r with depth_light := (r.depth_light + 1) % r.lights.length }
  else r

/-- The method `Renderer::renderAtlas`: the loop that fills `nearfars[max_lights]` and
`light_types[max_lights]` with the lights that are not `POINT` and cast shadows, then
the shader `atlas` (enabled without a null test) and `atlas->depth_texture`. -/
def renderAtlas (fw : Framework A D M V Cam) (r : Renderer A D M) :
    Except (Fault D M) (List (GLCmd D M)) :=
  if max_lights <
      (r.lights.filter
        (fun l => !(decide (l.light_type = eLightType.POINT) || !l.cast_shadows))).length then
    Except.error (Fault.arrayOverflow max_lights)
  else
    (requireShader fw "atlas").bind (fun _ =>
      match r.atlas with
      | none => Except.error Fault.nullAtlas
      | some _ => Except.ok [GLCmd.subpass "renderAtlas"])

/-- The method `Renderer::renderShadowmaps`:
```
if (lights.size() > 0 && depth_viewport && light_mode == MULTI) {
    if (render_mode == DEFERRED) lights.push_back(directional_light);
    LightEntity* light = lights[depth_light];
    if (!light->cast_shadows) return;
    ... Shader::Get("depth") ... light->shadow_fbo->depth_texture->toViewport(zshader);
}
if (light_mode == SINGLE && depth_viewport && shadow_count > 0) renderAtlas();
```
The entries of `lights` at the selection are listed with `none` for a null pointer. -/
def renderShadowmaps (fw : Framework A D M V Cam) (r : Renderer A D M) :
    Except (Fault D M) (List (GLCmd D M)) :=
  if 0 < r.lights.length ∧ r.depth_viewport = true ∧ r.light_mode = eLightMode.MULTI then
    let entries : List (Option (LightEntity D M)) :=
      if r.render_mode = eRenderMode.DEFERRED then r.lights.map some ++ [r.directional_light]
      else r.lights.map some
    match entries[r.depth_light]? with
    | none => Except.error (Fault.vectorOutOfRange r.depth_light)
    | some none => Except.error Fault.nullLight
    | some (some light) =>
      if !light.cast_shadows then Except.ok []
      else
        (requireShader fw "depth").bind (fun _ =>
          match light.shadow_fbo with
          | none => Except.error (Fault.nullShadowFbo light)
          | some _ => Except.ok [GLCmd.subpass ("depth viewport of " ++ light.name)])
  else if r.light_mode = eLightMode.SINGLE ∧ r.depth_viewport = true ∧ 0 < r.shadow_count then
    renderAtlas fw r
  else Except.ok []

end MeshPasses

/-! ## Graphics state at the draws -/

/-- The part of the graphics state that is followed through a command list: whether
`GL_BLEND` is enabled, the factors of the last `glBlendFunc`, and the value last
uploaded to each uniform of the shader in use (`none` while the commands have not set
it). -/
structure GLState (D M : Type) where
  blend : Option Bool
  blendFunc : Option (GLFactor × GLFactor)
  uniform : String → Option (UVal D M)

section GraphicsState

variable {D M : Type}

/-- The state of which nothing is known. -/
def GLState.unknown : GLState D M :=
  { blend := none, blendFunc := none, uniform := fun _ => none }

/-- The effect of one command on the state. -/
def GLState.step (s : GLState D M) : GLCmd D M → GLState D M
  | GLCmd.enable GLCap.BLEND => { s with blend := some true }
  | GLCmd.disable GLCap.BLEND => { s with blend := some false }
  | GLCmd.blendFunc src dst => { s with blendFunc := some (src, dst) }
  | GLCmd.setUniform name value =>
    { s with uniform := fun n => if n = name then some value else s.uniform n }
  | _ => s

/-- The state after a command list. -/
def GLState.run (s : GLState D M) (cmds : List (GLCmd D M)) : GLState D M :=
  cmds.foldl GLState.step s

/-- The states in which the draws of a command list are issued, in order. -/
def statesAtDraws : GLState D M → List (GLCmd D M) → List (GLState D M)
  | _, [] => []
  | s, GLCmd.draw _ :: rest => s :: statesAtDraws s rest
  | s, c :: rest => statesAtDraws (s.step c) rest

/-- Blending is additive in a state: `GL_BLEND` is enabled and the destination factor of
the blend function is `ONE`. -/
def GLState.additiveBlend (s : GLState D M) : Prop :=
  s.blend = some true ∧ s.blendFunc.map Prod.snd = some GLFactor.ONE

/-- What `renderMultiPass` relies on in the blend state it is entered with, for a
material that is `BLEND` (`blendMaterial = true`) or not: blending enabled in the first
case, a blend function with destination factor `ONE` in the second. -/
def GLState.blendReady (s : GLState D M) (blendMaterial : Bool) : Prop :=
  (blendMaterial = true → s.blend = some true) ∧
  (blendMaterial = false → s.blendFunc.map Prod.snd = some GLFactor.ONE)

end GraphicsState

/-! ## Reference definitions for the deferred passes -/

section DeferredSpec

variable {A D M V Cam : Type}

/-- The world box of the call passes the frustum test of the camera. -/
def RenderCall.inCameraFrustum (fw : Framework A D M V Cam) (camera : Cam)
    (c : RenderCall A D M) : Bool :=
  match c.mesh with
  | some me => fw.cameraFrustumTest camera c.model me
  | none => false

/-- The material of the call has the alpha mode `a`. -/
def RenderCall.hasAlphaMode [DecidableEq A] (c : RenderCall A D M) (a : A) : Bool :=
  match c.material with
  | some ma => decide (ma.alpha_mode = a)
  | none => false

/-- The mesh of the call has at least one vertex. -/
def RenderCall.hasVertices (c : RenderCall A D M) : Bool :=
  match c.mesh with
  | some me => decide (me.num_vertices ≠ 0)
  | none => false

/-- The mesh of a call, drawn `n` times. -/
def RenderCall.drawnTimes (n : Nat) (c : RenderCall A D M) : List Mesh :=
  match c.mesh with
  | some me => List.replicate n me
  | none => []

end DeferredSpec


/-! ## Post-processing chain (renderer.cpp) -/

/-- One full-screen pass of the post-processing chain: its label, the shader enabled for
it (`none` for `toViewport()` without a shader and for `copyTo`), the texture or target
it renders into, the textures bound as inputs, whether it is drawn with additive
blending (`glBlendFunc(GL_ONE, GL_ONE)`) onto its target, and the value of the uniform
`horizontal` of a blur pass. -/
structure PostStage where
  name : String
  shader : Option String
  target : String
  samplers : List String
  additive : Bool := false
  horizontal : Option Bool := none
  deriving DecidableEq, Repr

section PostFX

variable {A D M V Cam : Type}

/-- The blur loop of `renderToFBO`: `n` passes into `illumination_fbo_blurred`, each
reading that same texture, the flag `horizontal` flipped after every pass. -/
def blurPasses : Nat → Bool → List PostStage
  | 0, _ => []
  | n + 1, horizontal =>
    { name := "blur", shader := some "blur", target := "illumination_fbo_blurred",
      samplers := ["illumination_fbo_blurred"], horizontal := some horizontal } ::
      blurPasses n (!horizontal)

/-- The post-processing chain of `Renderer::renderToFBO` (the statements between
`renderScene(scene, camera)` and the debug views), as the list of its full-screen
passes in order. Every shader is enabled without a null test. -/
def renderToFBOPostFX [LinearOrder A] [LinearOrder D] (fw : Framework A D M V Cam)
    (r : Renderer A D M) : Except (Fault D M) (List PostStage) :=
  (requireShader fw "fxaa").bind (fun _ =>
  (requireShader fw "blur").bind (fun _ =>
  (requireShader fw "dof").bind (fun _ =>
  (requireShader fw "motionblur").bind (fun _ =>
  (requireShader fw "bloom").bind (fun _ =>
  (requireShader fw "ca").bind (fun _ =>
  (requireShader fw "grain").bind (fun _ =>
  (requireShader fw "hdr").map (fun _ =>
    [{ name := "fxaa", shader := some "fxaa", target := "ping",
       samplers := ["illumination_fbo", "pong"] },
     { name := "copy", shader := none, target := "illumination_fbo_blurred",
       samplers := ["ping"] }] ++
    blurPasses r.blur_iterations true ++
    [{ name := "dof", shader := some "dof", target := "pong",
       samplers := ["ping", "illumination_fbo_blurred", "illumination_fbo depth", "ping"] },
     { name := "motionblur", shader := some "motionblur", target := "ping",
       samplers := ["pong", "illumination_fbo depth", "pong"] },
     { name := "bloom", shader := some "bloom", target := "bloom_fbo",
       samplers := ["illumination_fbo_blurred"] },
     { name := "bloom composite", shader := none, target := "ping",
       samplers := ["bloom_fbo"], additive := true },
     { name := "ca", shader := some "ca", target := "pong", samplers := ["ping", "ping"] },
     { name := "grain", shader := some "grain", target := "ping",
       samplers := ["pong", "pong"] },
     { name := "hdr", shader := some "hdr", target := "screen",
       samplers := ["bloom_fbo", "ping"] }]))))))))

/-- The colour inputs of a pass: the textures it samples and, when it blends onto its
target, the previous content of that target. -/
def PostStage.colourInputs (s : PostStage) : List String :=
  s.samplers ++ (if s.additive then [s.target] else [])

/-- A pass of the main chain: it renders into one of the scratch textures `ping` and
`pong`, or to the screen. -/
def PostStage.onMainChain (s : PostStage) : Bool :=
  s.target = "ping" || s.target = "pong" || s.target = "screen"

/-- The shaders that the post-processing chain looks up. -/
def postShaders : List String :=
  ["fxaa", "blur", "dof", "motionblur", "bloom", "ca", "grain", "hdr"]

end PostFX


/-! ## Reference definitions for the traversal -/

section TraversalSpec

variable {A D M V Cam : Type}

mutual

/-- All nodes of a hierarchy in pre-order, each with the list of its proper ancestors
(nearest first, continuing `ancestors`). -/
def Node.preorder (ancestors : List (Node A M)) (node : Node A M) :
    List (List (Node A M) × Node A M) :=
  match node with
  | .mk n v me ma g children =>
    (ancestors, .mk n v me ma g children) ::
      Node.preorderList (.mk n v me ma g children :: ancestors) children

/-- Pre-order of a list of sibling nodes. -/
def Node.preorderList (ancestors : List (Node A M)) (nodes : List (Node A M)) :
    List (List (Node A M) × Node A M) :=
  match nodes with
  | [] => []
  | c :: cs => Node.preorder ancestors c ++ Node.preorderList ancestors cs

end

/-- A node, given with its ancestors, yields a draw call: it has both a mesh and a
material, and it and all its ancestors are visible. -/
def Node.drawable (p : List (Node A M) × Node A M) : Bool :=
  p.1.all Node.visible && p.2.visible && p.2.mesh.isSome && p.2.material.isSome

/-- The nodes of a hierarchy that yield a draw call, in pre-order. -/
def Node.drawableNodes (node : Node A M) : List (Node A M) :=
  ((Node.preorder [] node).filter Node.drawable).map Prod.snd

/-- The call that `getCallsFromNode` builds for a node that has a mesh and a material
(`none` for a node lacking one of them), with the probe list `reflection_probes`. -/
def nodeCall [LinearOrder D] [Zero D] (fw : Framework A D M V Cam)
    (reflection_probes : List (ReflectionProbeEntity M)) (camera : Option Cam)
    (prefab_model : M) (node : Node A M) : Option (RenderCall A D M) :=
  match node.mesh, node.material with
  | some me, some ma =>
    some (buildCall fw reflection_probes camera (fw.mul node.getGlobalMatrix prefab_model) me ma)
  | _, _ => none

/-- The calls that the traversal builds for the drawable entries of a pre-order listing. -/
def callsOfListing [LinearOrder D] [Zero D] (fw : Framework A D M V Cam)
    (reflection_probes : List (ReflectionProbeEntity M)) (camera : Option Cam)
    (prefab_model : M) (listing : List (List (Node A M) × Node A M)) :
    List (RenderCall A D M) :=
  (listing.filter Node.drawable).filterMap
    (fun p => nodeCall fw reflection_probes camera prefab_model p.2)

end TraversalSpec

/-! ## Reference definitions for the fetch -/

section FetchSpec

variable {A D M : Type}

/-- The light of an entity that is a visible light (`none` for any other entity). -/
def entityVisibleLight (ent : BaseEntity A D M) : Option (LightEntity D M) :=
  match ent with
  | BaseEntity.light l => if l.visible then some l else none
  | _ => none

/-- The visible light entities of a scene, in entity order. -/
def visibleLights (scene : Scene A D M) : List (LightEntity D M) :=
  scene.entities.filterMap entityVisibleLight

/-- The drawable nodes of an entity that is a visible prefab entity with a prefab, in
pre-order, each with the model matrix of the entity (none for any other entity). -/
def entityDrawableNodes (ent : BaseEntity A D M) : List (M × Node A M) :=
  match ent with
  | BaseEntity.prefab _ true model (some root) =>
    (Node.drawableNodes root).map (fun n => (model, n))
  | _ => []

/-- The drawable nodes of the visible prefab entities of a scene, in entity order. -/
def sceneDrawableNodes (scene : Scene A D M) : List (M × Node A M) :=
  scene.entities.flatMap entityDrawableNodes

/-- A call is the one built for a drawable node `p.2` of an entity with model matrix
`p.1`: it carries the mesh and the material of the node, and the global matrix of the
node times the matrix of the entity. -/
def CallBuiltFrom {V Cam : Type} (fw : Framework A D M V Cam) (p : M × Node A M)
    (c : RenderCall A D M) : Prop :=
  c.mesh = p.2.mesh ∧ c.material = p.2.material ∧ c.model = fw.mul p.2.getGlobalMatrix p.1

/-- The test that decides whether `fetchSceneEntities` appends a visible light to
`lights`: in `DEFERRED` render mode the lights that are not `DIRECTIONAL` and pass
`lightBounding`, in any other mode the `DIRECTIONAL` lights and those that pass
`lightBounding`. -/
def lightListed {V Cam : Type} [LinearOrder A] [LinearOrder D] (fw : Framework A D M V Cam)
    (camera : Cam) (render_mode : eRenderMode) (l : LightEntity D M) : Bool :=
  if render_mode = eRenderMode.DEFERRED then
    decide (l.light_type ≠ eLightType.DIRECTIONAL) && l.lightBounding fw camera
  else decide (l.light_type = eLightType.DIRECTIONAL) || l.lightBounding fw camera

end FetchSpec

/-! ## Concrete data used to instantiate the theorems -/

section Instances

/-- A one-dimensional instance of the math library: matrices are translations along a
line (an integer offset, multiplication composes offsets), vectors are points of the
line, distances are absolute differences, the frustum reaches 100 units around the
camera, every shader is found and a shadow camera sees every box. Alpha modes are the
ranks `0 = NO_ALPHA`, `1 = MASK`, `2 = BLEND`. -/
def lineFramework : Framework Nat ℚ Int Int Int :=
  { mul := fun a b => a + b
    getTranslation := fun m => m
    distance := fun a b => ((|a - b| : Int) : ℚ)
    FLT_MAX := 1000000
    boxCenter := fun m _ => m
    eye := fun c => c
    testSphereInFrustum := fun c v rad => decide (((|v - c| - 100 : Int) : ℚ) ≤ rad)
    boundingSphere := fun apex _ d _ => (apex, d)
    origin := fun m => m
    frontDir := fun _ => -1
    toRadians := fun a => a
    BLEND := 2
    shaderGet := fun _ => true
    lookTowards := fun m _ => m
    shadowFrustumTest := fun _ _ _ => true
    NO_ALPHA := 0
    cameraFrustumTest := fun c m _ => decide (|m - c| ≤ 100)
    sphereModel := fun v _ => v }

/-- A call whose material has alpha rank `alpha`, at camera distance `d`. -/
def sampleCall (nm : String) (alpha : Nat) (d : Int) : RenderCall Nat ℚ Int :=
  { mesh := some { name := nm }, material := some { name := nm, alpha_mode := alpha },
    model := d, probe := none, cam_dist := (d : ℚ) }

/-- A stable insertion sort through `RenderCall::operator<`, one admissible behaviour of
`std::sort`. -/
def insertionSortCalls {A D M : Type} [LinearOrder A] [LinearOrder D]
    (l : List (RenderCall A D M)) : List (RenderCall A D M) :=
  l.insertionSort (fun x y => RenderCall.lt y x = some false)

/-- A renderer before the first frame: forward rendering, multi-pass lights, all member
vectors empty. -/
def emptyRenderer : Renderer Nat ℚ Int :=
  { render_mode := eRenderMode.FORWARD, light_mode := eLightMode.MULTI, shadow_count := 0,
    calls := [], lights := [], reflection_probes := [], grid := none,
    directional_light := none, atlas := none }

/-- A prefab entity made of a single visible node with a mesh and a material. -/
def singleNodePrefab (nm : String) (alpha : Nat) (offset : Int) : BaseEntity Nat ℚ Int :=
  BaseEntity.prefab nm true offset
    (some (Node.mk nm true (some { name := nm }) (some { name := nm, alpha_mode := alpha }) 0 []))

/-- A scene with a blended prefab, a near and a far prefab without alpha, in that order. -/
def threePrefabScene : Scene Nat ℚ Int :=
  { entities := [singleNodePrefab "glass" 2 4, singleNodePrefab "near" 0 1,
      singleNodePrefab "far" 0 7] }

/-- A scene with two different prefabs at the same place, with the same alpha mode. -/
def twinScene : Scene Nat ℚ Int :=
  { entities := [singleNodePrefab "first" 0 5, singleNodePrefab "second" 0 5] }

/-- The names of seventeen prefabs. -/
def seventeenNames : List String :=
  ["p00", "p01", "p02", "p03", "p04", "p05", "p06", "p07", "p08", "p09", "p10", "p11",
    "p12", "p13", "p14", "p15", "p16"]

/-- A scene with seventeen different prefabs at the same place, with the same alpha
mode. -/
def seventeenScene : Scene Nat ℚ Int :=
  { entities := seventeenNames.map (fun nm => singleNodePrefab nm 0 5) }

/-- A scene whose only prefab precedes its only reflection probe in entity order. -/
def probeLastScene : Scene Nat ℚ Int :=
  { entities := [singleNodePrefab "crate" 0 5,
      BaseEntity.reflection_probe { name := "probe", model := 6 }] }

/-- A grid entity on which `configure` has not run yet: no probes. -/
def emptyGrid : IrradianceGrid ℚ Int :=
  { name := "grid", model := 0, dim := ⟨0, 0, 0⟩, probes := [] }

/-- A spot light described without shadows: `"light_type": "SPOT"`,
`"cast_shadows": false`, at quality tier 1. -/
def plainSpotLight : LightEntity ℚ Int :=
  (LightEntity.new "lamp" 3 eLightType.POINT 0 0).configure lineFramework 1
    { light_type := some "SPOT", max_dist := some 50, cast_shadows := some false }

/-- A point light described with `"light_type": "POINT"`, `"cast_shadows": true`. -/
def pointShadowLight : LightEntity ℚ Int :=
  (LightEntity.new "bulb" 3 eLightType.POINT 0 0).configure lineFramework 1
    { light_type := some "POINT", max_dist := some 50, cast_shadows := some true }

/-- A spot light described with `"light_type": "SPOT"`, `"cast_shadows": true`, at
quality tier 0. -/
def spotShadowLight : LightEntity ℚ Int :=
  (LightEntity.new "spot" 3 eLightType.POINT 0 0).configure lineFramework 0
    { light_type := some "SPOT", max_dist := some 50, cast_shadows := some true }

/-- A scene with one prefab and the shadow-casting point light. -/
def pointShadowScene : Scene Nat ℚ Int :=
  { entities := [singleNodePrefab "crate" 0 5, BaseEntity.light pointShadowLight] }

/-- A scene with one prefab and the shadow-casting spot light. -/
def spotShadowScene : Scene Nat ℚ Int :=
  { entities := [singleNodePrefab "crate" 0 5, BaseEntity.light spotShadowLight] }

/-- A forward renderer in single-pass light mode, before the first frame. -/
def singlePassRenderer : Renderer Nat ℚ Int :=
  { emptyRenderer with light_mode := eLightMode.SINGLE }

/-- A single-pass renderer after a fetch that found one call and two spot lights, the
first described without shadows and the second with shadows. -/
def twoSpotRenderer : Renderer Nat ℚ Int :=
  { singlePassRenderer with
    shadow_count := 2
    calls := [sampleCall "crate" 0 5]
    lights := [plainSpotLight, spotShadowLight] }

/-- A scene with one prefab and the spot light described without shadows. -/
def plainSpotScene : Scene Nat ℚ Int :=
  { entities := [singleNodePrefab "crate" 0 5, BaseEntity.light plainSpotLight] }

/-- A single-pass renderer after a fetch that found a call without alpha, a blended
call and the shadow-casting spot light. -/
def glassRenderer : Renderer Nat ℚ Int :=
  { singlePassRenderer with
    shadow_count := 1
    calls := [sampleCall "crate" 0 5, sampleCall "glass" 2 4]
    lights := [spotShadowLight] }

/-- The line framework with the shader `missing` absent: `Shader::Get(missing)` returns
null, every other shader is found. -/
def frameworkWithout (missing : String) : Framework Nat ℚ Int Int Int :=
  { lineFramework with shaderGet := fun name => decide (name ≠ missing) }

/-- A renderer in deferred mode before the first frame: no directional light. -/
def deferredRenderer : Renderer Nat ℚ Int :=
  { emptyRenderer with render_mode := eRenderMode.DEFERRED }

/-- A deferred renderer after a frame that fetched the shadow-casting spot light, found
no directional light and allocated the atlas. -/
def deferredSpotRenderer : Renderer Nat ℚ Int :=
  { deferredRenderer with
    lights := [spotShadowLight]
    atlas := some ⟨2048, 2048⟩ }

/-- A point light described without shadows. -/
def plainPointLight : LightEntity ℚ Int :=
  (LightEntity.new "bulb" 3 eLightType.POINT 0 0).configure lineFramework 1
    { light_type := some "POINT", max_dist := some 50, cast_shadows := some false }

/-- A single-pass renderer after a fetch that found `max_lights + 1` point lights. -/
def crowdedRenderer : Renderer Nat ℚ Int :=
  { singlePassRenderer with lights := List.replicate (max_lights + 1) plainPointLight }

/-- A single-pass renderer after a fetch that found one call and five shadow-casting
spot lights. -/
def fiveSpotRenderer : Renderer Nat ℚ Int :=
  { singlePassRenderer with
    shadow_count := 5
    calls := [sampleCall "crate" 0 5]
    lights := List.replicate 5 spotShadowLight }

/-- The line framework with shadow cameras that see no box: the frustum test of every
light fails for every call. -/
def blindFramework : Framework Nat ℚ Int Int Int :=
  { lineFramework with shadowFrustumTest := fun _ _ _ => false }

/-- A directional light described with `"light_type": "DIRECTIONAL"`,
`"cast_shadows": true`, at quality tier 0. -/
def sunLight : LightEntity ℚ Int :=
  (LightEntity.new "sun" 3 eLightType.POINT 0 0).configure lineFramework 0
    { light_type := some "DIRECTIONAL", max_dist := some 50, cast_shadows := some true }

/-- A single-pass renderer after a fetch that found one call and the directional light. -/
def sunRenderer : Renderer Nat ℚ Int :=
  { singlePassRenderer with
    shadow_count := 1
    calls := [sampleCall "crate" 0 5]
    lights := [sunLight] }

/-- A scene with one prefab and no reflection probe. -/
def crateScene : Scene Nat ℚ Int :=
  { entities := [singleNodePrefab "crate" 0 5] }

/-- The forward multi-pass renderer with the `reflections` flag on. -/
def reflectiveRenderer : Renderer Nat ℚ Int :=
  { emptyRenderer with reflections := true }

/-- A shadow-casting spot light at the origin of the line, reaching 50 units. -/
def nearLamp : LightEntity ℚ Int :=
  (LightEntity.new "near lamp" 0 eLightType.POINT 0 0).configure lineFramework 0
    { light_type := some "SPOT", max_dist := some 50, cast_shadows := some true }

/-- A shadow-casting spot light at 200 on the line, reaching 50 units. -/
def farLamp : LightEntity ℚ Int :=
  (LightEntity.new "far lamp" 200 eLightType.POINT 0 0).configure lineFramework 0
    { light_type := some "SPOT", max_dist := some 50, cast_shadows := some true }

/-- A scene with the two lamps. -/
def twoLampScene : Scene Nat ℚ Int :=
  { entities := [BaseEntity.light nearLamp, BaseEntity.light farLamp] }

/-- The forward multi-pass renderer with the depth viewport on, `depth_light = 0`. -/
def viewportRenderer : Renderer Nat ℚ Int :=
  { emptyRenderer with depth_viewport := true }

/-- The renderer after the fetch of a first frame on `twoLampScene`, the camera at 100:
both lamps are in the frustum. -/
def firstFrame : Renderer Nat ℚ Int :=
  fetchSceneEntities lineFramework insertionSortCalls twoLampScene 100 true true true true
    viewportRenderer

/-- The renderer after the key `1` is pressed at the end of the first frame. -/
def afterKeyPress : Renderer Nat ℚ Int :=
  onKeyDownSDLK1 firstFrame

/-- The renderer after the fetch of the next frame, the camera moved to 0: only the near
lamp is in the frustum. -/
def secondFrame : Renderer Nat ℚ Int :=
  fetchSceneEntities lineFramework insertionSortCalls twoLampScene 0 true true true true
    afterKeyPress

/-- The forward multi-pass renderer after a fetch that found the spot light without
shadows and the shadow-casting spot light. -/
def twoLightForwardRenderer : Renderer Nat ℚ Int :=
  { emptyRenderer with lights := [plainSpotLight, spotShadowLight] }

/-- A scene with the near lamp, the directional light and the far lamp, in that order. -/
def sunLampScene : Scene Nat ℚ Int :=
  { entities := [BaseEntity.light nearLamp, BaseEntity.light sunLight,
      BaseEntity.light farLamp] }

/-- A deferred renderer after a fetch that found an opaque call, a blended call and the
shadow-casting spot light. -/
def deferredGlassRenderer : Renderer Nat ℚ Int :=
  { deferredRenderer with
    calls := [sampleCall "crate" 0 5, sampleCall "glass" 2 4]
    lights := [spotShadowLight] }

/-- A scene whose only prefab has a node with a material without alpha and a mesh that
holds no vertex, five units from the origin. -/
def huskScene : Scene Nat ℚ Int :=
  { entities := [BaseEntity.prefab "husk" true 5
      (some (Node.mk "husk" true (some { name := "husk", num_vertices := 0 })
        (some { name := "husk", alpha_mode := 0 }) 0 []))] }

/-- The deferred renderer after the fetch of `huskScene` with the camera at the origin. -/
def huskRenderer : Renderer Nat ℚ Int :=
  fetchSceneEntities lineFramework insertionSortCalls huskScene 0 true true true true
    deferredRenderer

end Instances

/-! # Verified properties -/

section OrderingTheorems

variable {A D M : Type} [LinearOrder A] [LinearOrder D]

theorem RenderCall.lt_some_true_iff (a b : RenderCall A D M) (ma mb : Material A)
    (ha : a.material = some ma) (hb : b.material = some mb) :
    RenderCall.lt a b = some true ↔
      (ma.alpha_mode < mb.alpha_mode ∨
        (ma.alpha_mode = mb.alpha_mode ∧ b.cam_dist < a.cam_dist)) := by
  unfold RenderCall.lt
  rw [ha, hb]
  by_cases h : ma.alpha_mode = mb.alpha_mode
  · simp [h]
  · simp only [ne_eq, h, not_false_eq_true, if_true, Option.some.injEq, decide_eq_true_eq,
      false_and, or_false]
    exact ⟨fun hle => lt_of_le_of_ne hle h, le_of_lt⟩

theorem RenderCall.lt_some_false_iff (a b : RenderCall A D M) (ma mb : Material A)
    (ha : a.material = some ma) (hb : b.material = some mb) :
    RenderCall.lt a b = some false ↔
      (mb.alpha_mode < ma.alpha_mode ∨
        (ma.alpha_mode = mb.alpha_mode ∧ a.cam_dist ≤ b.cam_dist)) := by
  unfold RenderCall.lt
  rw [ha, hb]
  by_cases h : ma.alpha_mode = mb.alpha_mode
  · simp [h]
  · simp only [ne_eq, h, not_false_eq_true, if_true, Option.some.injEq, decide_eq_false_iff_not,
      not_le, false_and, or_false]

/-- C2. `RenderCall::operator<` is a strict weak ordering on calls whose materials are
not null: it is irreflexive, transitive, and incomparability is transitive. -/
theorem RenderCall.lt_strict_weak_ordering (a b c : RenderCall A D M)
    (ha : a.material.isSome) (hb : b.material.isSome) (hc : c.material.isSome) :
    RenderCall.lt a a = some false ∧
    (RenderCall.lt a b = some true → RenderCall.lt b c = some true →
      RenderCall.lt a c = some true) ∧
    (RenderCall.incomparable a b → RenderCall.incomparable b c →
      RenderCall.incomparable a c) := by
  obtain ⟨ma, hma⟩ := Option.isSome_iff_exists.mp ha
  obtain ⟨mb, hmb⟩ := Option.isSome_iff_exists.mp hb
  obtain ⟨mc, hmc⟩ := Option.isSome_iff_exists.mp hc
  refine ⟨?_, ?_, ?_⟩
  · rw [RenderCall.lt_some_false_iff a a ma ma hma hma]
    exact Or.inr ⟨rfl, le_refl _⟩
  · rw [RenderCall.lt_some_true_iff a b ma mb hma hmb,
      RenderCall.lt_some_true_iff b c mb mc hmb hmc,
      RenderCall.lt_some_true_iff a c ma mc hma hmc]
    rintro (h1 | ⟨h1, h1d⟩) (h2 | ⟨h2, h2d⟩)
    · exact Or.inl (lt_trans h1 h2)
    · exact Or.inl (h2 ▸ h1)
    · exact Or.inl (h1 ▸ h2)
    · exact Or.inr ⟨h1.trans h2, lt_trans h2d h1d⟩
  · unfold RenderCall.incomparable
    rw [RenderCall.lt_some_false_iff a b ma mb hma hmb,
      RenderCall.lt_some_false_iff b a mb ma hmb hma,
      RenderCall.lt_some_false_iff b c mb mc hmb hmc,
      RenderCall.lt_some_false_iff c b mc mb hmc hmb,
      RenderCall.lt_some_false_iff a c ma mc hma hmc,
      RenderCall.lt_some_false_iff c a mc ma hmc hma]
    rintro ⟨h1, h2⟩ ⟨h3, h4⟩
    have eab : ma.alpha_mode = mb.alpha_mode := by
      rcases h1 with h1 | ⟨h1, _⟩
      · rcases h2 with h2 | ⟨h2, _⟩
        · exact absurd h1 (not_lt_of_gt h2)
        · exact h2.symm
      · exact h1
    have ebc : mb.alpha_mode = mc.alpha_mode := by
      rcases h3 with h3 | ⟨h3, _⟩
      · rcases h4 with h4 | ⟨h4, _⟩
        · exact absurd h3 (not_lt_of_gt h4)
        · exact h4.symm
      · exact h3
    have dab : a.cam_dist ≤ b.cam_dist := by
      rcases h1 with h1 | ⟨_, h1⟩
      · exact absurd h1 (by rw [eab]; exact lt_irrefl _)
      · exact h1
    have dba : b.cam_dist ≤ a.cam_dist := by
      rcases h2 with h2 | ⟨_, h2⟩
      · exact absurd h2 (by rw [eab]; exact lt_irrefl _)
      · exact h2
    have dbc : b.cam_dist ≤ c.cam_dist := by
      rcases h3 with h3 | ⟨_, h3⟩
      · exact absurd h3 (by rw [ebc]; exact lt_irrefl _)
      · exact h3
    have dcb : c.cam_dist ≤ b.cam_dist := by
      rcases h4 with h4 | ⟨_, h4⟩
      · exact absurd h4 (by rw [ebc]; exact lt_irrefl _)
      · exact h4
    exact ⟨Or.inr ⟨eab.trans ebc, le_trans dab dbc⟩,
      Or.inr ⟨(eab.trans ebc).symm, le_trans dcb dba⟩⟩

/-- Instance of C2 on three concrete calls: an opaque call at distance 5, an opaque call
at distance 3 and a blended call at distance 9. -/
theorem RenderCall.lt_strict_weak_ordering_witness :
    RenderCall.lt (sampleCall "a" 0 5) (sampleCall "a" 0 5) = some false ∧
    (RenderCall.lt (sampleCall "a" 0 5) (sampleCall "b" 0 3) = some true →
      RenderCall.lt (sampleCall "b" 0 3) (sampleCall "c" 2 9) = some true →
      RenderCall.lt (sampleCall "a" 0 5) (sampleCall "c" 2 9) = some true) ∧
    (RenderCall.incomparable (sampleCall "a" 0 5) (sampleCall "b" 0 3) →
      RenderCall.incomparable (sampleCall "b" 0 3) (sampleCall "c" 2 9) →
      RenderCall.incomparable (sampleCall "a" 0 5) (sampleCall "c" 2 9)) :=
  RenderCall.lt_strict_weak_ordering (sampleCall "a" 0 5) (sampleCall "b" 0 3)
    (sampleCall "c" 2 9) (by decide) (by decide) (by decide)

/-- The order that `operator<` induces on sort keys: both alpha modes are present, and
the first key has the smaller alpha mode, or the same one and no smaller a distance. -/
theorem RenderCall.key_rel_of_lt_false (x y : RenderCall A D M)
    (h : RenderCall.lt y x = some false) :
    ∃ a b, x.key.1 = some a ∧ y.key.1 = some b ∧
      (a < b ∨ (a = b ∧ y.key.2 ≤ x.key.2)) := by
  cases hmx : x.material with
  | none => simp [RenderCall.lt, hmx] at h
  | some mx =>
    cases hmy : y.material with
    | none => simp [RenderCall.lt, hmy] at h
    | some my =>
      refine ⟨mx.alpha_mode, my.alpha_mode, by simp [RenderCall.key, hmx],
        by simp [RenderCall.key, hmy], ?_⟩
      rcases (RenderCall.lt_some_false_iff y x my mx hmy hmx).mp h with h1 | ⟨h1, h2⟩
      · exact Or.inl h1
      · exact Or.inr ⟨h1.symm, h2⟩

theorem StdSortPost.keys_unique (input out1 out2 : List (RenderCall A D M))
    (h1 : StdSortPost input out1) (h2 : StdSortPost input out2) :
    out1.map RenderCall.key = out2.map RenderCall.key := by
  let rel : Option A × D → Option A × D → Prop := fun k1 k2 =>
    ∃ a b, k1.1 = some a ∧ k2.1 = some b ∧ (a < b ∨ (a = b ∧ k2.2 ≤ k1.2))
  haveI : IsAntisymm (Option A × D) rel := ⟨by
    rintro ⟨k1a, k1d⟩ ⟨k2a, k2d⟩ ⟨a, b, ha, hb, hab⟩ ⟨b2, a2, hb2, ha2, hba⟩
    simp only at ha hb hb2 ha2 hab hba
    rw [ha] at ha2
    rw [hb] at hb2
    cases ha2
    cases hb2
    rcases hab with hab | ⟨hab, hd1⟩
    · rcases hba with hba | ⟨hba, _⟩
      · exact absurd hab (not_lt_of_gt hba)
      · exact absurd hab (by rw [hba]; exact lt_irrefl _)
    · rcases hba with hba | ⟨_, hd2⟩
      · exact absurd hba (by rw [hab]; exact lt_irrefl _)
      · rw [ha, hb, hab, le_antisymm hd1 hd2]⟩
  have hs1 : (out1.map RenderCall.key).Sorted rel :=
    List.pairwise_map.mpr (h1.2.imp (fun {x y} h => RenderCall.key_rel_of_lt_false x y h))
  have hs2 : (out2.map RenderCall.key).Sorted rel :=
    List.pairwise_map.mpr (h2.2.imp (fun {x y} h => RenderCall.key_rel_of_lt_false x y h))
  exact List.eq_of_perm_of_sorted ((h1.1.trans h2.1.symm).map _) hs1 hs2

end OrderingTheorems

section TraversalLemmas

variable {A D M V Cam : Type}

mutual

theorem Node.filter_drawable_preorder_hidden (anc : List (Node A M)) (node : Node A M)
    (h : anc.all Node.visible = false) :
    (Node.preorder anc node).filter Node.drawable = [] := by
  match node with
  | .mk n v me ma g children =>
    have hd : Node.drawable (anc, Node.mk n v me ma g children) = false := by
      simp [Node.drawable, h]
    rw [Node.preorder, List.filter_cons, hd]
    simp only [Bool.false_eq_true, if_false]
    exact Node.filter_drawable_preorderList_hidden _ children (by simp [h])

theorem Node.filter_drawable_preorderList_hidden (anc : List (Node A M))
    (nodes : List (Node A M)) (h : anc.all Node.visible = false) :
    (Node.preorderList anc nodes).filter Node.drawable = [] := by
  match nodes with
  | [] => simp [Node.preorderList]
  | c :: cs =>
    rw [Node.preorderList, List.filter_append,
      Node.filter_drawable_preorder_hidden anc c h,
      Node.filter_drawable_preorderList_hidden anc cs h]
    rfl

end

variable [LinearOrder D] [Zero D]

mutual

theorem getCallsFromNode_eq (fw : Framework A D M V Cam) (pm : M) (node : Node A M)
    (cam : Option Cam) (r : Renderer A D M) (anc : List (Node A M))
    (hanc : anc.all Node.visible = true) :
    getCallsFromNode fw pm node cam r =
      { r with calls := r.calls ++
                 callsOfListing fw r.reflection_probes cam pm (Node.preorder anc node) } := by
  match node with
  | .mk n v me ma g children =>
    cases v with
    | false =>
      have hd : Node.drawable (anc, Node.mk n false me ma g children) = false := by
        simp [Node.drawable, Node.visible]
      unfold callsOfListing
      rw [Node.preorder, List.filter_cons, hd]
      simp only [Bool.false_eq_true, if_false]
      rw [Node.filter_drawable_preorderList_hidden _ children (by simp [Node.visible])]
      simp [getCallsFromNode]
    | true =>
      have hanc2 : (Node.mk n true me ma g children :: anc).all Node.visible = true := by
        simp only [List.all_cons, Node.visible, Bool.true_and]
        exact hanc
      rw [getCallsFromNode]
      simp only [Bool.not_true, Bool.false_eq_true, if_false]
      rw [getCallsFromChildren_eq fw pm children cam _ _ hanc2]
      unfold callsOfListing
      rw [Node.preorder, List.filter_cons]
      cases me with
      | none =>
        have hd : Node.drawable (anc, Node.mk n true none ma g children) = false := by
          simp [Node.drawable, Node.mesh]
        simp [hd]
      | some me =>
        cases ma with
        | none =>
          have hd : Node.drawable (anc, Node.mk n true (some me) none g children) = false := by
            simp [Node.drawable, Node.material]
          simp [hd]
        | some ma =>
          have hd : Node.drawable (anc, Node.mk n true (some me) (some ma) g children) = true := by
            simp [Node.drawable, Node.mesh, Node.material, Node.visible, hanc]
          simp [hd, nodeCall, Node.mesh, Node.material, Node.getGlobalMatrix]

theorem getCallsFromChildren_eq (fw : Framework A D M V Cam) (pm : M)
    (nodes : List (Node A M)) (cam : Option Cam) (r : Renderer A D M)
    (anc : List (Node A M)) (hanc : anc.all Node.visible = true) :
    getCallsFromChildren fw pm nodes cam r =
      { r with calls := r.calls ++
                 callsOfListing fw r.reflection_probes cam pm (Node.preorderList anc nodes) } := by
  match nodes with
  | [] => simp [getCallsFromChildren, Node.preorderList, callsOfListing]
  | c :: cs =>
    rw [getCallsFromChildren, getCallsFromNode_eq fw pm c cam r anc hanc,
      getCallsFromChildren_eq fw pm cs cam _ anc hanc, Node.preorderList]
    simp [callsOfListing, List.filter_append, List.filterMap_append]

end

end TraversalLemmas

/-! ## Ordering of the fetched calls -/

section SortTheorems

variable {A D M V Cam : Type} [LinearOrder A] [LinearOrder D] [Zero D]

/-- C1. After `fetchSceneEntities` with `fetch_prefabs = true`, provided `std::sort` met
its postcondition on the traversed calls: for all positions `i < j` of `calls`, the alpha
mode of `calls[i]` is at most that of `calls[j]`, and when the alpha modes are equal the
camera distance of `calls[i]` is at least that of `calls[j]`. -/
theorem fetchSceneEntities_calls_ordered (fw : Framework A D M V Cam)
    (sort : List (RenderCall A D M) → List (RenderCall A D M))
    (scene : Scene A D M) (camera : Cam) (fetch_lights fetch_probes fetch_grid : Bool)
    (r : Renderer A D M)
    (hsort : StdSortPost
      (fetchLoop fw scene camera true fetch_lights fetch_probes fetch_grid r).calls
      (sort (fetchLoop fw scene camera true fetch_lights fetch_probes fetch_grid r).calls))
    (i j : Nat) (hij : i < j) (ci cj : RenderCall A D M)
    (hi : (fetchSceneEntities fw sort scene camera true fetch_lights fetch_probes
      fetch_grid r).calls[i]? = some ci)
    (hj : (fetchSceneEntities fw sort scene camera true fetch_lights fetch_probes
      fetch_grid r).calls[j]? = some cj) :
    ∃ mi mj, ci.material = some mi ∧ cj.material = some mj ∧
      mi.alpha_mode ≤ mj.alpha_mode ∧
      (mi.alpha_mode = mj.alpha_mode → cj.cam_dist ≤ ci.cam_dist) := by
  have hcalls : (fetchSceneEntities fw sort scene camera true fetch_lights fetch_probes
      fetch_grid r).calls =
      sort (fetchLoop fw scene camera true fetch_lights fetch_probes fetch_grid r).calls := by
    simp [fetchSceneEntities]
  rw [hcalls] at hi hj
  obtain ⟨hi1, hi2⟩ := List.getElem?_eq_some_iff.mp hi
  obtain ⟨hj1, hj2⟩ := List.getElem?_eq_some_iff.mp hj
  have hlt : RenderCall.lt cj ci = some false := by
    have := List.pairwise_iff_getElem.mp hsort.2 i j hi1 hj1 hij
    rwa [hi2, hj2] at this
  cases hmi : ci.material with
  | none => simp [RenderCall.lt, hmi] at hlt
  | some mi =>
    cases hmj : cj.material with
    | none => simp [RenderCall.lt, hmj] at hlt
    | some mj =>
      refine ⟨mi, mj, rfl, rfl, ?_⟩
      rcases (RenderCall.lt_some_false_iff cj ci mj mi hmj hmi).mp hlt with h | ⟨h, hd⟩
      · exact ⟨le_of_lt h, fun he => absurd h (by rw [he]; exact lt_irrefl _)⟩
      · exact ⟨le_of_eq h.symm, fun _ => hd⟩

/-- Instance of C1: in the three-prefab scene sorted by insertion sort, position 0 holds
the far call without alpha and position 2 the blended call. -/
theorem fetchSceneEntities_calls_ordered_witness :
    ∃ mi mj, (sampleCall "far" 0 7).material = some mi ∧
      (sampleCall "glass" 2 4).material = some mj ∧
      mi.alpha_mode ≤ mj.alpha_mode ∧
      (mi.alpha_mode = mj.alpha_mode →
        (sampleCall "glass" 2 4).cam_dist ≤ (sampleCall "far" 0 7).cam_dist) :=
  fetchSceneEntities_calls_ordered lineFramework insertionSortCalls threePrefabScene 0
    true true true emptyRenderer (by decide) 0 2 (by decide) (sampleCall "far" 0 7)
    (sampleCall "glass" 2 4) (by decide) (by decide)

theorem orderedInsert_pairwise_on {α : Type} (rel : α → α → Prop) [DecidableRel rel]
    (P : α → Prop) (htot : ∀ x y, P x → P y → rel x y ∨ rel y x)
    (htr : ∀ x y z, P x → P y → P z → rel x y → rel y z → rel x z)
    (a : α) (l : List α) (ha : P a) (hl : ∀ x ∈ l, P x) (hs : l.Pairwise rel) :
    (l.orderedInsert rel a).Pairwise rel := by
  induction l with
  | nil => simp
  | cons b l ih =>
    have hb : P b := hl b (List.mem_cons_self b l)
    have hl2 : ∀ x ∈ l, P x := fun x hx => hl x (List.mem_cons_of_mem b hx)
    rw [List.pairwise_cons] at hs
    rw [List.orderedInsert]
    split_ifs with hab
    · refine List.pairwise_cons.mpr ⟨?_, List.pairwise_cons.mpr hs⟩
      intro x hx
      rcases List.mem_cons.mp hx with rfl | hx
      · exact hab
      · exact htr a b x ha hb (hl2 x hx) hab (hs.1 x hx)
    · refine List.pairwise_cons.mpr ⟨?_, ih hl2 hs.2⟩
      intro x hx
      rcases (List.mem_orderedInsert rel).mp hx with rfl | hx
      · exact (htot x b ha hb).resolve_left hab
      · exact hs.1 x hx

theorem insertionSort_pairwise_on {α : Type} (rel : α → α → Prop) [DecidableRel rel]
    (P : α → Prop) (htot : ∀ x y, P x → P y → rel x y ∨ rel y x)
    (htr : ∀ x y z, P x → P y → P z → rel x y → rel y z → rel x z)
    (l : List α) (hl : ∀ x ∈ l, P x) : (l.insertionSort rel).Pairwise rel := by
  induction l with
  | nil => simp
  | cons a l ih =>
    have hl2 : ∀ x ∈ l, P x := fun x hx => hl x (List.mem_cons_of_mem a hx)
    rw [List.insertionSort]
    apply orderedInsert_pairwise_on rel P htot htr a _ (hl a (List.mem_cons_self a l))
    · intro x hx
      exact hl2 x ((List.perm_insertionSort rel l).mem_iff.mp hx)
    · exact ih hl2

omit [Zero D] in
theorem insertionSortCalls_post (l : List (RenderCall A D M))
    (hl : ∀ c ∈ l, c.material.isSome = true) : StdSortPost l (insertionSortCalls l) := by
  refine ⟨List.perm_insertionSort _ l, ?_⟩
  apply insertionSort_pairwise_on _ (fun c => c.material.isSome = true) _ _ l hl
  · intro x y hx hy
    obtain ⟨mx, hmx⟩ := Option.isSome_iff_exists.mp hx
    obtain ⟨my, hmy⟩ := Option.isSome_iff_exists.mp hy
    rw [RenderCall.lt_some_false_iff y x my mx hmy hmx,
      RenderCall.lt_some_false_iff x y mx my hmx hmy]
    rcases lt_trichotomy mx.alpha_mode my.alpha_mode with h | h | h
    · exact Or.inl (Or.inl h)
    · rcases le_total x.cam_dist y.cam_dist with hd | hd
      · exact Or.inr (Or.inr ⟨h, hd⟩)
      · exact Or.inl (Or.inr ⟨h.symm, hd⟩)
    · exact Or.inr (Or.inl h)
  · intro x y z hx hy hz
    obtain ⟨mx, hmx⟩ := Option.isSome_iff_exists.mp hx
    obtain ⟨my, hmy⟩ := Option.isSome_iff_exists.mp hy
    obtain ⟨mz, hmz⟩ := Option.isSome_iff_exists.mp hz
    rw [RenderCall.lt_some_false_iff y x my mx hmy hmx,
      RenderCall.lt_some_false_iff z y mz my hmz hmy,
      RenderCall.lt_some_false_iff z x mz mx hmz hmx]
    rintro (h1 | ⟨h1, d1⟩) (h2 | ⟨h2, d2⟩)
    · exact Or.inl (lt_trans h1 h2)
    · exact Or.inl (h2 ▸ h1)
    · exact Or.inl (h1 ▸ h2)
    · exact Or.inr ⟨h2.trans h1, le_trans d2 d1⟩

/-- C3 (counterexample). The scene holds seventeen different prefabs with the same alpha
mode at the same distance; the traversal produces their calls in scene order, all with
the same key, and `std::sort` of the GNU C++ library, which partitions a range of more
than 16 elements around a median before its insertion sort, leaves them in another
order: the sort of `fetchSceneEntities` is not stable. -/
theorem fetchSceneEntities_sort_unstable :
    (fetchLoop lineFramework seventeenScene 0 true true true true emptyRenderer).calls.map
        (fun c => (c.mesh.map (fun m => m.name), c.key)) =
      seventeenNames.map (fun nm => (some nm, (some 0, (5 : ℚ)))) ∧
    (fetchSceneEntities lineFramework stdSortCalls seventeenScene 0 true true true true
        emptyRenderer).calls.map (fun c => c.mesh.map (fun m => m.name)) =
      [some "p08", some "p16", some "p15", some "p14", some "p13", some "p12", some "p11",
        some "p10", some "p09", some "p00", some "p07", some "p06", some "p05", some "p04",
        some "p03", some "p02", some "p01"] ∧
    StdSortPost
      (fetchLoop lineFramework seventeenScene 0 true true true true emptyRenderer).calls
      (fetchSceneEntities lineFramework stdSortCalls seventeenScene 0 true true true true
        emptyRenderer).calls ∧
    ¬ StableReorder
      (fetchLoop lineFramework seventeenScene 0 true true true true emptyRenderer).calls
      (fetchSceneEntities lineFramework stdSortCalls seventeenScene 0 true true true true
        emptyRenderer).calls := by
  refine ⟨by decide!, by decide!, by decide!, fun h => ?_⟩
  have h5 := h (some 0, 5)
  revert h5
  decide!

/-- C3 (amended). Provided `std::sort` met its postcondition, the sorted calls carry the
same sequence of (alpha mode, camera distance) keys as any stable sort `stable` of the
traversal output, and for every key the calls carrying it are a permutation of those
the traversal produced: only their relative order is left open. -/
theorem fetchSceneEntities_sort_stable_up_to_ties (fw : Framework A D M V Cam)
    (sort : List (RenderCall A D M) → List (RenderCall A D M))
    (scene : Scene A D M) (camera : Cam) (fetch_lights fetch_probes fetch_grid : Bool)
    (r : Renderer A D M) (stable : List (RenderCall A D M))
    (hsort : StdSortPost
      (fetchLoop fw scene camera true fetch_lights fetch_probes fetch_grid r).calls
      (sort (fetchLoop fw scene camera true fetch_lights fetch_probes fetch_grid r).calls))
    (hstable : StdSortPost
      (fetchLoop fw scene camera true fetch_lights fetch_probes fetch_grid r).calls stable ∧
      StableReorder
        (fetchLoop fw scene camera true fetch_lights fetch_probes fetch_grid r).calls stable) :
    (fetchSceneEntities fw sort scene camera true fetch_lights fetch_probes
        fetch_grid r).calls.map RenderCall.key = stable.map RenderCall.key ∧
    ∀ k : Option A × D,
      ((fetchSceneEntities fw sort scene camera true fetch_lights fetch_probes
        fetch_grid r).calls.filter (fun c => decide (c.key = k))).Perm
      ((fetchLoop fw scene camera true fetch_lights fetch_probes
        fetch_grid r).calls.filter (fun c => decide (c.key = k))) := by
  have hcalls : (fetchSceneEntities fw sort scene camera true fetch_lights fetch_probes
      fetch_grid r).calls =
      sort (fetchLoop fw scene camera true fetch_lights fetch_probes fetch_grid r).calls := by
    simp [fetchSceneEntities]
  rw [hcalls]
  exact ⟨StdSortPost.keys_unique _ _ _ hsort hstable.1, fun k => hsort.1.filter _⟩

/-- Instance of the amended C3 on the scene of two prefabs with equal keys, sorted by
insertion sort. -/
theorem fetchSceneEntities_sort_stable_up_to_ties_witness :
    (fetchSceneEntities lineFramework insertionSortCalls twinScene 0 true true true true
        emptyRenderer).calls.map RenderCall.key =
      (insertionSortCalls
        (fetchLoop lineFramework twinScene 0 true true true true
          emptyRenderer).calls).map RenderCall.key ∧
    ∀ k : Option Nat × ℚ,
      ((fetchSceneEntities lineFramework insertionSortCalls twinScene 0 true true true true
        emptyRenderer).calls.filter (fun c => decide (c.key = k))).Perm
      ((fetchLoop lineFramework twinScene 0 true true true true
        emptyRenderer).calls.filter (fun c => decide (c.key = k))) :=
  fetchSceneEntities_sort_stable_up_to_ties lineFramework insertionSortCalls twinScene 0
    true true true emptyRenderer
    (insertionSortCalls
      (fetchLoop lineFramework twinScene 0 true true true true emptyRenderer).calls)
    (by decide)
    ⟨by decide, fun k => by
      rw [show insertionSortCalls
        (fetchLoop lineFramework twinScene 0 true true true true emptyRenderer).calls =
        (fetchLoop lineFramework twinScene 0 true true true true emptyRenderer).calls
        from by decide]⟩

end SortTheorems

/-! ## Scene traversal -/

section TraversalTheorems

variable {A D M V Cam : Type} [LinearOrder D]

theorem probeStep_foldl_fields (fw : Framework A D M V Cam)
    (probes : List (ReflectionProbeEntity M)) (st : D × RenderCall A D M) :
    (probes.foldl (probeStep fw) st).2.mesh = st.2.mesh ∧
    (probes.foldl (probeStep fw) st).2.material = st.2.material ∧
    (probes.foldl (probeStep fw) st).2.model = st.2.model ∧
    (probes.foldl (probeStep fw) st).2.cam_dist = st.2.cam_dist := by
  induction probes generalizing st with
  | nil => simp
  | cons p ps ih =>
    simp only [List.foldl_cons]
    obtain ⟨h1, h2, h3, h4⟩ := ih (probeStep fw st p)
    rw [h1, h2, h3, h4]
    unfold probeStep
    simp only
    split_ifs <;> simp

theorem buildCall_fields [Zero D] (fw : Framework A D M V Cam)
    (probes : List (ReflectionProbeEntity M)) (camera : Option Cam) (node_model : M)
    (me : Mesh) (ma : Material A) :
    (buildCall fw probes camera node_model me ma).mesh = some me ∧
    (buildCall fw probes camera node_model me ma).material = some ma ∧
    (buildCall fw probes camera node_model me ma).model = node_model := by
  unfold buildCall nearestProbeLoop
  cases camera with
  | none =>
    obtain ⟨h1, h2, h3, _⟩ := probeStep_foldl_fields fw probes (fw.FLT_MAX,
      ({ mesh := some me, material := some ma, model := node_model, probe := none,
         cam_dist := 0 } : RenderCall A D M))
    exact ⟨h1, h2, h3⟩
  | some cam =>
    obtain ⟨h1, h2, h3, _⟩ := probeStep_foldl_fields fw probes (fw.FLT_MAX,
      ({ mesh := some me, material := some ma, model := node_model, probe := none,
         cam_dist := fw.distance (fw.boxCenter node_model me) (fw.eye cam) } :
         RenderCall A D M))
    exact ⟨h1, h2, h3⟩

theorem forall₂_map_filterMap {α β γ : Type} (R : β → γ → Prop) (g : α → β)
    (f : α → Option γ) (l : List α) (h : ∀ a ∈ l, ∃ c, f a = some c ∧ R (g a) c) :
    List.Forall₂ R (l.map g) (l.filterMap f) := by
  induction l with
  | nil => simp
  | cons a l ih =>
    obtain ⟨c, hc, hR⟩ := h a (List.mem_cons_self a l)
    rw [List.map_cons, List.filterMap_cons_some hc]
    exact List.Forall₂.cons hR (ih (fun b hb => h b (List.mem_cons_of_mem a hb)))

theorem getCallsFromNode_related [Zero D] (fw : Framework A D M V Cam) (pm : M) (node : Node A M)
    (cam : Option Cam) (r : Renderer A D M) (R : Node A M → RenderCall A D M → Prop)
    (hR : ∀ (n : Node A M) (me : Mesh) (ma : Material A), n.mesh = some me →
      n.material = some ma →
      R n (buildCall fw r.reflection_probes cam (fw.mul n.getGlobalMatrix pm) me ma)) :
    ∃ appended, (getCallsFromNode fw pm node cam r).calls = r.calls ++ appended ∧
      List.Forall₂ R (Node.drawableNodes node) appended := by
  refine ⟨callsOfListing fw r.reflection_probes cam pm (Node.preorder [] node), ?_, ?_⟩
  · rw [getCallsFromNode_eq fw pm node cam r [] (by simp)]
  · unfold callsOfListing Node.drawableNodes
    apply forall₂_map_filterMap
    intro p hp
    have hd : Node.drawable p = true := (List.mem_filter.mp hp).2
    simp only [Node.drawable, Bool.and_eq_true] at hd
    obtain ⟨me, hme⟩ := Option.isSome_iff_exists.mp hd.1.2
    obtain ⟨ma, hma⟩ := Option.isSome_iff_exists.mp hd.2
    exact ⟨_, by simp [nodeCall, hme, hma], hR p.2 me ma hme hma⟩

/-- C4. `getCallsFromNode` appends exactly one call for each node that has a mesh and a
material and is visible together with all its ancestors, in pre-order of the hierarchy,
carrying that mesh and that material; no other node (a node lacking a mesh or a
material, an invisible node, a descendant of an invisible node) contributes a call. -/
theorem getCallsFromNode_appends_drawable [Zero D] (fw : Framework A D M V Cam) (prefab_model : M)
    (node : Node A M) (camera : Option Cam) (r : Renderer A D M) :
    ∃ appended,
      (getCallsFromNode fw prefab_model node camera r).calls = r.calls ++ appended ∧
      List.Forall₂
        (fun n c => c.mesh = n.mesh ∧ c.material = n.material ∧
          c.mesh.isSome = true ∧ c.material.isSome = true)
        (Node.drawableNodes node) appended := by
  apply getCallsFromNode_related
  intro n me ma hme hma
  obtain ⟨h1, h2, _⟩ := buildCall_fields fw r.reflection_probes camera
    (fw.mul n.getGlobalMatrix prefab_model) me ma
  simp [h1, h2, hme, hma]

/-- C5. Every call appended by `getCallsFromNode`, for a drawable node at any depth, has
`model = node.getGlobalMatrix(true) * prefab_model` with the matrix `prefab_model` that
was passed for the root. -/
theorem getCallsFromNode_model [Zero D] (fw : Framework A D M V Cam) (prefab_model : M)
    (node : Node A M) (camera : Option Cam) (r : Renderer A D M) :
    ∃ appended,
      (getCallsFromPrefab fw prefab_model node camera r).calls = r.calls ++ appended ∧
      List.Forall₂ (fun n c => c.model = fw.mul n.getGlobalMatrix prefab_model)
        (Node.drawableNodes node) appended := by
  unfold getCallsFromPrefab
  apply getCallsFromNode_related
  intro n me ma _ _
  exact (buildCall_fields fw r.reflection_probes camera
    (fw.mul n.getGlobalMatrix prefab_model) me ma).2.2

end TraversalTheorems


/-! ## Irradiance grid -/

section GridTheorems

variable {D M : Type} [DivisionRing D]

theorem flatMap_range_map {β : Type} (F : Nat → β) (G : Nat → Nat → β) (m n : Nat)
    (h : ∀ i j, i < m → j < n → G i j = F (i + m * j)) :
    (List.range n).flatMap (fun j => (List.range m).map (fun i => G i j)) =
      (List.range (m * n)).map F := by
  induction n with
  | zero => simp
  | succ n ih =>
    rw [List.range_succ, List.flatMap_append, List.flatMap_singleton,
      ih (fun i j hi hj => h i j hi (Nat.lt_succ_of_lt hj)), Nat.mul_succ, List.range_add,
      List.map_append, List.map_map]
    congr 1
    apply List.map_congr_left
    intro i hi
    rw [h i n (List.mem_range.mp hi) (Nat.lt_succ_self n)]
    simp [Nat.add_comm]

/-- A whole number up to `2 ^ 24` is a `float`: the conversion keeps it. -/
theorem roundToFloat_exact (n : Nat) (h : n ≤ 2 ^ 24) : roundToFloat n = n := by
  rcases Nat.lt_or_ge n (2 ^ 24) with hlt | hge
  · have hs : float32ShiftFrom (103 + 1) 0 n = 0 := by
      rw [float32ShiftFrom]
      exact if_pos hlt
    have hs2 : float32ShiftFrom 104 0 n = 0 := hs
    simp [roundToFloat, hs2, Nat.mod_one]
  · have : n = 2 ^ 24 := Nat.le_antisymm h hge
    subst this
    decide

/-- Up to the bound `2 ^ 24` the loop `for (int i = 0; i < bound; ++i)` runs over
`0 .. bound - 1`. -/
theorem floatLoopRange_eq_range (bound : Nat) (h : bound ≤ 2 ^ 24) :
    floatLoopRange bound = List.range bound := by
  unfold floatLoopRange
  rw [List.takeWhile_eq_self_iff]
  intro i hi
  have hi2 := List.mem_range.mp hi
  rw [roundToFloat_exact i (by omega)]
  simpa using hi2

/-- On a grid of at most `2 ^ 24` probes the index expression is exact. -/
theorem IrradianceGrid.probeIndex_exact (dim : GridDim) (i j k : Nat) (hi : i < dim.x)
    (hj : j < dim.y) (hk : k < dim.z) (hbound : dim.x * dim.y * dim.z ≤ 2 ^ 24) :
    IrradianceGrid.probeIndex dim i j k = i + dim.x * (j + dim.y * k) := by
  have h1 : j + dim.y * k + 1 ≤ dim.y * dim.z := by
    calc j + dim.y * k + 1 ≤ dim.y + dim.y * k := by omega
      _ = dim.y * (k + 1) := by ring
      _ ≤ dim.y * dim.z := Nat.mul_le_mul_left _ hk
  have h2 : i + dim.x * (j + dim.y * k) < dim.x * dim.y * dim.z := by
    calc i + dim.x * (j + dim.y * k) < dim.x + dim.x * (j + dim.y * k) := by omega
      _ = dim.x * (j + dim.y * k + 1) := by ring
      _ ≤ dim.x * (dim.y * dim.z) := Nat.mul_le_mul_left _ h1
      _ = dim.x * dim.y * dim.z := by ring
  have hx : 1 ≤ dim.x := by omega
  have hy : 1 ≤ dim.y := by omega
  have h3 : j + dim.y * k ≤ dim.x * (j + dim.y * k) := Nat.le_mul_of_pos_left _ hx
  have h4 : dim.y * k ≤ j + dim.y * k := Nat.le_add_left _ _
  have h5 : k ≤ dim.y * k := Nat.le_mul_of_pos_left _ hy
  unfold IrradianceGrid.probeIndex
  rw [roundToFloat_exact k (by omega), roundToFloat_exact (dim.y * k) (by omega),
    roundToFloat_exact j (by omega), roundToFloat_exact (j + dim.y * k) (by omega),
    roundToFloat_exact (dim.x * (j + dim.y * k)) (by omega),
    roundToFloat_exact i (by omega), roundToFloat_exact _ (by omega)]

theorem IrradianceGrid.foldl_addProbe (dim : GridDim) (k j : Nat) (l : List Nat)
    (g : IrradianceGrid D M) :
    (l.foldl (IrradianceGrid.addProbe dim k j) g).probes =
      g.probes ++ l.map (fun i => latticeProbe dim i j k) := by
  induction l generalizing g with
  | nil => simp
  | cons i l ih =>
    rw [List.foldl_cons, ih]
    simp [IrradianceGrid.addProbe, latticeProbe]

theorem IrradianceGrid.foldl_row (dim : GridDim) (k : Nat) (l : List Nat)
    (g : IrradianceGrid D M) :
    (l.foldl (fun gj j => (floatLoopRange dim.x).foldl (IrradianceGrid.addProbe dim k j) gj)
      g).probes =
      g.probes ++ l.flatMap (fun j => (floatLoopRange dim.x).map
        (fun i => latticeProbe dim i j k)) := by
  induction l generalizing g with
  | nil => simp
  | cons j l ih =>
    rw [List.foldl_cons, ih, IrradianceGrid.foldl_addProbe]
    simp

theorem IrradianceGrid.foldl_slab (dim : GridDim) (l : List Nat) (g : IrradianceGrid D M) :
    (l.foldl (fun gk k => (floatLoopRange dim.y).foldl
        (fun gj j => (floatLoopRange dim.x).foldl (IrradianceGrid.addProbe dim k j) gj) gk)
      g).probes =
      g.probes ++ l.flatMap (fun k => (floatLoopRange dim.y).flatMap
        (fun j => (floatLoopRange dim.x).map (fun i => latticeProbe dim i j k))) := by
  induction l generalizing g with
  | nil => simp
  | cons k l ih =>
    rw [List.foldl_cons, ih, IrradianceGrid.foldl_row]
    simp

theorem lattice_decode (x y i j k : Nat) (hi : i < x) (hj : j < y) :
    (i + x * (j + y * k)) % x = i ∧ (i + x * (j + y * k)) / x % y = j ∧
      (i + x * (j + y * k)) / (x * y) = k := by
  have hx : 0 < x := Nat.lt_of_le_of_lt (Nat.zero_le i) hi
  have hy : 0 < y := Nat.lt_of_le_of_lt (Nat.zero_le j) hj
  have h1 : (i + x * (j + y * k)) / x = j + y * k := by
    rw [Nat.add_mul_div_left _ _ hx, Nat.div_eq_of_lt hi, Nat.zero_add]
  refine ⟨?_, ?_, ?_⟩
  · rw [Nat.add_mul_mod_self_left, Nat.mod_eq_of_lt hi]
  · rw [h1, Nat.add_mul_mod_self_left, Nat.mod_eq_of_lt hj]
  · rw [← Nat.div_div_eq_div_mul, h1, Nat.add_mul_div_left _ _ hy, Nat.div_eq_of_lt hj,
      Nat.zero_add]

/-- The probes that `IrradianceGrid::configure` appends, in order: one for each `k`, `j`
and `i` that the three loops run through. -/
theorem IrradianceGrid.configure_loops (g : IrradianceGrid D M) (dim : GridDim) :
    (g.configure dim).probes =
      g.probes ++ (floatLoopRange dim.z).flatMap (fun k => (floatLoopRange dim.y).flatMap
        (fun j => (floatLoopRange dim.x).map (fun i => latticeProbe dim i j k))) := by
  unfold IrradianceGrid.configure
  rw [IrradianceGrid.foldl_slab]

/-- With every component of `dim` up to `2 ^ 24`, the probe appended at position `n` is
the one of the lattice coordinates `(n mod dx, (n / dx) mod dy, n / (dx * dy))`. -/
theorem IrradianceGrid.configure_probes (g : IrradianceGrid D M) (dim : GridDim)
    (hx : dim.x ≤ 2 ^ 24) (hy : dim.y ≤ 2 ^ 24) (hz : dim.z ≤ 2 ^ 24) :
    (g.configure dim).probes =
      g.probes ++ (List.range (dim.x * dim.y * dim.z)).map
        (fun n => latticeProbe dim (n % dim.x) (n / dim.x % dim.y) (n / (dim.x * dim.y))) := by
  rw [IrradianceGrid.configure_loops, floatLoopRange_eq_range _ hx,
    floatLoopRange_eq_range _ hy, floatLoopRange_eq_range _ hz]
  congr 1
  have inner : ∀ k, (List.range dim.y).flatMap
      (fun j => (List.range dim.x).map (fun i => (latticeProbe dim i j k : ProbeEntity D))) =
      (List.range (dim.x * dim.y)).map (fun t =>
        latticeProbe dim ((t + dim.x * dim.y * k) % dim.x)
          ((t + dim.x * dim.y * k) / dim.x % dim.y)
          ((t + dim.x * dim.y * k) / (dim.x * dim.y))) := by
    intro k
    apply flatMap_range_map
    intro i j hi hj
    have e : i + dim.x * j + dim.x * dim.y * k = i + dim.x * (j + dim.y * k) := by ring
    obtain ⟨h1, h2, h3⟩ := lattice_decode dim.x dim.y i j k hi hj
    rw [e, h1, h2, h3]
  simp only [inner]
  exact flatMap_range_map _ _ _ _ (fun i j _ _ => rfl)

/-- The part of C7 that the code meets: on a grid without probes, with dimensions
`(dx, dy, dz)` whose product is at most `2 ^ 24`, `IrradianceGrid::configure` leaves
`dx * dy * dz` probes; the probe at list position `n` has `index = n`; the probe created
for the lattice coordinates `(i, j, k)` is the one at position `i + dx * (j + dy * k)`;
and for the dimensions `(2, 2, 1)` the indices are `0, 1, 2, 3`. -/
theorem IrradianceGrid.configure_lattice (g : IrradianceGrid D M) (dim : GridDim)
    (hempty : g.probes = []) (hbound : dim.x * dim.y * dim.z ≤ 2 ^ 24) :
    (g.configure dim).probes.length = dim.x * dim.y * dim.z ∧
    (∀ (n : Nat) (p : ProbeEntity D), (g.configure dim).probes[n]? = some p → p.index = n) ∧
    (∀ i j k : Nat, i < dim.x → j < dim.y → k < dim.z →
      (g.configure dim).probes[i + dim.x * (j + dim.y * k)]? =
        some (latticeProbe dim i j k)) ∧
    (dim = ⟨2, 2, 1⟩ → (g.configure dim).probes.map (fun p => p.index) = [0, 1, 2, 3]) := by
  by_cases hzero : dim.x * dim.y * dim.z = 0
  · have hnone : (g.configure dim).probes = [] := by
      rw [IrradianceGrid.configure_loops, hempty, List.nil_append]
      rcases Nat.mul_eq_zero.mp hzero with hxy | hz
      · rcases Nat.mul_eq_zero.mp hxy with hx | hy
        · rw [hx]
          simp [floatLoopRange]
        · rw [hy]
          simp [floatLoopRange]
      · rw [hz]
        simp [floatLoopRange]
    refine ⟨by rw [hnone, hzero]; rfl, ?_, ?_, ?_⟩
    · intro n p hn
      rw [hnone] at hn
      simp at hn
    · intro i j k hi hj hk
      have hpos : 0 < dim.x * dim.y * dim.z :=
        Nat.mul_pos (Nat.mul_pos (by omega) (by omega)) (by omega)
      omega
    · intro hdim
      rw [hdim] at hzero
      exact absurd hzero (by decide)
  · have hxp : 0 < dim.x := Nat.pos_of_ne_zero (fun h => hzero (by rw [h]; simp))
    have hyp : 0 < dim.y := Nat.pos_of_ne_zero (fun h => hzero (by rw [h]; simp))
    have hzp : 0 < dim.z := Nat.pos_of_ne_zero (fun h => hzero (by rw [h]; simp))
    have hxle : dim.x ≤ dim.x * dim.y * dim.z := by
      calc dim.x = dim.x * 1 := (Nat.mul_one _).symm
        _ ≤ dim.x * (dim.y * dim.z) := Nat.mul_le_mul_left _ (Nat.mul_pos hyp hzp)
        _ = dim.x * dim.y * dim.z := by ring
    have hyle : dim.y ≤ dim.x * dim.y * dim.z := by
      calc dim.y = dim.y * 1 := (Nat.mul_one _).symm
        _ ≤ dim.y * (dim.x * dim.z) := Nat.mul_le_mul_left _ (Nat.mul_pos hxp hzp)
        _ = dim.x * dim.y * dim.z := by ring
    have hzle : dim.z ≤ dim.x * dim.y * dim.z := by
      calc dim.z = dim.z * 1 := (Nat.mul_one _).symm
        _ ≤ dim.z * (dim.x * dim.y) := Nat.mul_le_mul_left _ (Nat.mul_pos hxp hyp)
        _ = dim.x * dim.y * dim.z := by ring
    have hp := IrradianceGrid.configure_probes g dim (by omega) (by omega) (by omega)
    rw [hempty, List.nil_append] at hp
    refine ⟨?_, ?_, ?_, ?_⟩
    · rw [hp]
      simp
    · intro n p hn
      rw [hp, List.getElem?_map] at hn
      cases hr : (List.range (dim.x * dim.y * dim.z))[n]? with
      | none => simp [hr] at hn
      | some m =>
        rw [hr] at hn
        simp only [Option.map_some', Option.some.injEq] at hn
        obtain ⟨hlt, hm⟩ := List.getElem?_eq_some_iff.mp hr
        rw [List.getElem_range] at hm
        subst hm
        rw [List.length_range] at hlt
        rw [← hn]
        simp only [latticeProbe]
        rw [IrradianceGrid.probeIndex_exact dim _ _ _ (Nat.mod_lt _ hxp) (Nat.mod_lt _ hyp)
          (Nat.div_lt_of_lt_mul (by rw [Nat.mul_comm] at hlt; rw [Nat.mul_comm]; exact hlt))
          hbound]
        rw [← Nat.div_div_eq_div_mul, Nat.mod_add_div, Nat.mod_add_div]
    · intro i j k hi hj hk
      have hlt : i + dim.x * (j + dim.y * k) < dim.x * dim.y * dim.z := by
        have h1 : j + dim.y * k + 1 ≤ dim.y * dim.z := by
          calc j + dim.y * k + 1 ≤ dim.y + dim.y * k := by omega
            _ = dim.y * (k + 1) := by ring
            _ ≤ dim.y * dim.z := Nat.mul_le_mul_left _ hk
        calc i + dim.x * (j + dim.y * k) < dim.x + dim.x * (j + dim.y * k) := by omega
          _ = dim.x * (j + dim.y * k + 1) := by ring
          _ ≤ dim.x * (dim.y * dim.z) := Nat.mul_le_mul_left _ h1
          _ = dim.x * dim.y * dim.z := by ring
      obtain ⟨h1, h2, h3⟩ := lattice_decode dim.x dim.y i j k hi hj
      rw [hp, List.getElem?_map, List.getElem?_range hlt]
      simp only [Option.map_some', h1, h2, h3]
    · intro hdim
      rw [hp, hdim]
      rfl

/-- The scenario of the grid of dimensions `(2, 2, 1)`: four probes, with the indices
`0, 1, 2, 3` in lattice order. -/
theorem IrradianceGrid.configure_lattice_small :
    (emptyGrid.configure ⟨2, 2, 1⟩).probes.length = 2 * 2 * 1 ∧
    (∀ (n : Nat) (p : ProbeEntity ℚ),
      (emptyGrid.configure ⟨2, 2, 1⟩).probes[n]? = some p → p.index = n) ∧
    (∀ i j k : Nat, i < 2 → j < 2 → k < 1 →
      (emptyGrid.configure ⟨2, 2, 1⟩).probes[i + 2 * (j + 2 * k)]? =
        some (latticeProbe ⟨2, 2, 1⟩ i j k)) ∧
    ((⟨2, 2, 1⟩ : GridDim) = ⟨2, 2, 1⟩ →
      (emptyGrid.configure ⟨2, 2, 1⟩).probes.map (fun p => p.index) = [0, 1, 2, 3]) :=
  IrradianceGrid.configure_lattice emptyGrid ⟨2, 2, 1⟩ rfl (by decide)

/-- C7 (code defect). With the dimensions `(4097, 4097, 1)`, whole numbers that a `float`
holds, `IrradianceGrid::configure` on a grid without probes leaves `4097 * 4097` probes,
and the probe at list position `16777217 = 2 + 4097 * 4095`, created for the lattice
coordinates `(2, 4095, 0)`, has `index = 16777216`: the index expression is evaluated
in `float`, which does not hold `16777217`. -/
theorem IrradianceGrid.configure_index_rounded :
    (emptyGrid.configure ⟨4097, 4097, 1⟩).probes.length = 4097 * 4097 * 1 ∧
    (emptyGrid.configure ⟨4097, 4097, 1⟩).probes[16777217]? =
      some (latticeProbe ⟨4097, 4097, 1⟩ 2 4095 0) ∧
    (latticeProbe ⟨4097, 4097, 1⟩ 2 4095 0 : ProbeEntity ℚ).index = 16777216 ∧
    ((emptyGrid.configure ⟨4097, 4097, 1⟩).probes[16777217]?).map (fun p => p.index) =
      some 16777216 := by
  have hp := IrradianceGrid.configure_probes emptyGrid ⟨4097, 4097, 1⟩ (by decide)
    (by decide) (by decide)
  have hempty : emptyGrid.probes = [] := rfl
  rw [hempty, List.nil_append] at hp
  have hlt : 16777217 < 4097 * 4097 * 1 := by decide
  have hget : (emptyGrid.configure ⟨4097, 4097, 1⟩).probes[16777217]? =
      some (latticeProbe ⟨4097, 4097, 1⟩ 2 4095 0) := by
    rw [hp, List.getElem?_map, List.getElem?_range hlt]
    rfl
  have hidx : (latticeProbe ⟨4097, 4097, 1⟩ 2 4095 0 : ProbeEntity ℚ).index = 16777216 := by
    decide
  refine ⟨?_, hget, hidx, ?_⟩
  · rw [hp]
    simp
  · rw [hget, Option.map_some', hidx]

end GridTheorems

/-! ## Reflection probes, light configuration and shadow passes -/

section ProbeAndShadowTheorems

variable {A D M V Cam : Type}

/-- C6 (failing input). In the scene whose prefab precedes its reflection probe, the call
built by `fetchSceneEntities` (all flags set) has no probe, although the scene holds a
visible reflection probe, which the same fetch stores in `reflection_probes`. -/
theorem fetchSceneEntities_probe_missed :
    (fetchSceneEntities lineFramework insertionSortCalls probeLastScene 0 true true true
      true emptyRenderer).calls.map (fun c => c.probe) = [none] ∧
    (fetchSceneEntities lineFramework insertionSortCalls probeLastScene 0 true true true
      true emptyRenderer).reflection_probes = [{ name := "probe", model := 6 }] ∧
    (BaseEntity.reflection_probe { name := "probe", visible := true, model := 6 } :
      BaseEntity Nat ℚ Int) ∈ probeLastScene.entities := by
  refine ⟨by decide, by decide, ?_⟩
  simp [probeLastScene]

/-- C8 (counterexample). A light described as `SPOT` with `cast_shadows` false has, after
the constructor and `configure` at quality tier 1, a shadow render-target of side 2048. -/
theorem LightEntity.configure_spot_without_shadows :
    plainSpotLight.cast_shadows = false ∧ plainSpotLight.light_type = eLightType.SPOT ∧
    plainSpotLight.shadow_fbo = some ⟨2048, 2048⟩ := by
  decide

/-- C8 (amended). After the constructor followed by `configure`, a light whose
`light_type` is `POINT` has no shadow render-target. -/
theorem LightEntity.configure_point_no_shadow_fbo [Zero D] (fw : Framework A D M V Cam)
    (quality : Nat) (json : LightJson D V) (name : String) (model : M)
    (light_type : eLightType) (max_distance cone_angle : D)
    (hpoint : ((LightEntity.new name model light_type max_distance cone_angle).configure
      fw quality json).light_type = eLightType.POINT) :
    ((LightEntity.new name model light_type max_distance cone_angle).configure
      fw quality json).shadow_fbo = none := by
  revert hpoint
  unfold LightEntity.configure LightEntity.new
  cases json.light_type <;> cases json.max_dist <;> cases json.target <;>
    cases json.cone_angle <;> cases json.cast_shadows <;> simp only <;>
    (try split_ifs) <;> simp

/-- Instance of the amended C8 on the point light described with `cast_shadows` true. -/
theorem LightEntity.configure_point_no_shadow_fbo_witness :
    pointShadowLight.shadow_fbo = none :=
  LightEntity.configure_point_no_shadow_fbo lineFramework 1
    { light_type := some "POINT", max_dist := some 50, cast_shadows := some true }
    "bulb" 3 eLightType.POINT 0 0 (by decide)

/-- C9 (failing input). For the scene holding a `POINT` light described with
`cast_shadows` true, `renderScene` in multi-pass mode runs `shadowMapping` on that light,
which dereferences its null shadow render-target. -/
theorem renderScene_shadowMapping_point_light :
    pointShadowLight.light_type = eLightType.POINT ∧
    pointShadowLight.cast_shadows = true ∧
    pointShadowLight.shadow_fbo = none ∧
    emptyRenderer.light_mode = eLightMode.MULTI ∧
    renderSceneShadows lineFramework insertionSortCalls 1 pointShadowScene 0 emptyRenderer =
      Except.error (Fault.nullShadowFbo pointShadowLight) := by
  refine ⟨by decide, by decide, by decide, by decide, ?_⟩
  rfl

/-- C10 (failing input). With a single shadow-casting spot light fetched,
`ceil(sqrt(1)) = 1`, yet `renderToAtlas` places the light in a grid of 2 cells per side
and allocates an atlas of 2 by 2 cells (side 2048 for cells of 1024). -/
theorem renderToAtlas_cells_per_side_single_light :
    ceilSqrt 1 = 1 ∧
    (renderSceneShadows lineFramework insertionSortCalls 0 spotShadowScene 0
        singlePassRenderer).toOption.map
      (fun out => (out.1.lights.filter
        (fun l => l.cast_shadows && decide (l.light_type ≠ eLightType.POINT))).length) =
      some 1 ∧
    (renderSceneShadows lineFramework insertionSortCalls 0 spotShadowScene 0
        singlePassRenderer).toOption.map
      (fun out => out.2.2.map (fun c => (c.cells_per_side, c.x, c.y, c.size))) =
      some [(2, 0, 0, 1024)] ∧
    (renderSceneShadows lineFramework insertionSortCalls 0 spotShadowScene 0
        singlePassRenderer).toOption.map (fun out => out.1.atlas) =
      some (some ⟨2048, 2048⟩) := by
  refine ⟨by decide, by decide, by decide, by decide⟩

end ProbeAndShadowTheorems

/-! ## Shadow atlas -/

section AtlasTheorems

variable {A D M V Cam : Type} [LinearOrder A]

theorem ceilSqrt_four : ceilSqrt 4 = 2 := by decide

/-- What `atlasLoop` records for the cell at position `k` of its output: the counter value
`c + k`, the grid size, the rectangle in pixels, the `uvs` written on the light, and the
draws of the inner loop for that light. -/
theorem atlasLoop_cell [LinearOrder D] [DivisionRing D] (fw : Framework A D M V Cam)
    (shadow_count res : Nat) (calls : List (RenderCall A D M))
    (lights : List (LightEntity D M)) (c : Nat)
    (out : List (LightEntity D M) × List (AtlasCell D M))
    (h : atlasLoop fw shadow_count res calls lights c = Except.ok out)
    (k : Nat) (cell : AtlasCell D M) (hk : out.2[k]? = some cell) :
    cell.index = c + k ∧ cell.cells_per_side = ceilSqrt shadow_count ∧
    cell.x = (cell.index % ceilSqrt shadow_count) * res ∧
    cell.y = (cell.index / ceilSqrt shadow_count) * res ∧ cell.size = res ∧
    cell.light.uvs =
      (((cell.index % ceilSqrt shadow_count : Nat) : D) / (ceilSqrt shadow_count : D),
        ((cell.index / ceilSqrt shadow_count : Nat) : D) / (ceilSqrt shadow_count : D),
        1 / (ceilSqrt shadow_count : D)) ∧
    cell.light.light_type ≠ eLightType.POINT ∧
    atlasDraws fw cell.light calls = Except.ok cell.draws := by
  induction lights generalizing c out k with
  | nil =>
    simp only [atlasLoop, Except.ok.injEq] at h
    subst h
    simp at hk
  | cons light rest ih =>
    rw [atlasLoop] at h
    split_ifs at h with hp
    · cases hrest : atlasLoop fw shadow_count res calls rest c with
      | error e => simp [hrest, Except.map] at h
      | ok o =>
        simp only [hrest, Except.map, Except.ok.injEq] at h
        subst h
        exact ih c o hrest k hk
    · cases hu : updateLight light with
      | error e => simp [hu, Except.bind] at h
      | ok u =>
        simp only [hu, Except.bind] at h
        generalize hl1 : ({ light with
          uvs := (((c % ceilSqrt shadow_count : Nat) : D) / (ceilSqrt shadow_count : D),
            ((c / ceilSqrt shadow_count : Nat) : D) / (ceilSqrt shadow_count : D),
            1 / (ceilSqrt shadow_count : D)) } : LightEntity D M) = light1 at h
        cases hd : atlasDraws fw light1 calls with
        | error e => simp [hd] at h
        | ok ds =>
          simp only [hd] at h
          cases hrest : atlasLoop fw shadow_count res calls rest (c + 1) with
          | error e => simp [hrest, Except.map] at h
          | ok o =>
            simp only [hrest, Except.map, Except.ok.injEq] at h
            subst h
            cases k with
            | zero =>
              simp only [List.getElem?_cons_zero, Option.some.injEq] at hk
              subst hk
              subst hl1
              exact ⟨rfl, rfl, rfl, rfl, rfl, rfl, hp, hd⟩
            | succ k =>
              simp only [List.getElem?_cons_succ] at hk
              have := ih (c + 1) o hrest k hk
              rw [show c + (k + 1) = c + 1 + k by omega]
              exact this

/-- The same description for `renderToAtlas`: the grid has `ceil(sqrt(4)) = 2` cells per
side, since the function sets `shadow_count = 4` before it places the lights. -/
theorem renderToAtlas_cell [LinearOrder D] [DivisionRing D] (fw : Framework A D M V Cam)
    (quality : Nat) (r : Renderer A D M) (k : Nat) (cell : AtlasCell D M)
    (hk : (atlasCells (renderToAtlas fw quality r))[k]? = some cell) :
    cell.index = k ∧ cell.cells_per_side = 2 ∧
    cell.x = (k % 2) * shadowResolution quality ∧
    cell.y = (k / 2) * shadowResolution quality ∧ cell.size = shadowResolution quality ∧
    cell.light.uvs = (((k % 2 : Nat) : D) / ((2 : Nat) : D),
      ((k / 2 : Nat) : D) / ((2 : Nat) : D), 1 / ((2 : Nat) : D)) ∧
    cell.light.light_type ≠ eLightType.POINT ∧
    atlasDraws fw cell.light r.calls = Except.ok cell.draws := by
  unfold renderToAtlas at hk
  split_ifs at hk with h1 h2
  · simp [atlasCells] at hk
  · simp [atlasCells] at hk
  · simp only at hk
    cases hloop : atlasLoop fw 4 (shadowResolution quality) r.calls r.lights 0 with
    | error e =>
      cases hat : r.atlas <;> simp [hat, hloop, Except.map, atlasCells] at hk
    | ok o =>
      have hk2 : o.2[k]? = some cell := by
        cases hat : r.atlas <;> simpa [hat, hloop, Except.map, atlasCells] using hk
      have := atlasLoop_cell fw 4 (shadowResolution quality) r.calls r.lights 0 o hloop k
        cell hk2
      rw [ceilSqrt_four, Nat.zero_add] at this
      obtain ⟨hi, h2, h3, h4, h5, h6, h7, h8⟩ := this
      rw [hi] at h3 h4 h6
      exact ⟨hi, h2, h3, h4, h5, h6, h7, h8⟩

theorem cast_half_lt_imp_le {D : Type} [LinearOrderedField D] (a b : Nat)
    (h : (a : D) / ((2 : Nat) : D) < (b : D) / ((2 : Nat) : D) + 1 / ((2 : Nat) : D)) :
    a ≤ b := by
  have h2 : (0 : D) < ((2 : Nat) : D) := by norm_num
  rw [← add_div, div_lt_div_iff_of_pos_right h2] at h
  have h3 : a < b + 1 := by exact_mod_cast h
  omega

/-- C11. Any two different cells assigned in one run of `renderToAtlas` carry `uvs`
rectangles (offset `uvs.xy`, side `uvs.z`) whose interiors do not overlap. -/
theorem renderToAtlas_cells_disjoint {D : Type} [LinearOrderedField D]
    (fw : Framework A D M V Cam) (quality : Nat) (r : Renderer A D M) (i j : Nat)
    (ui uj : D × D × D) (hij : i ≠ j)
    (hi : ((atlasCells (renderToAtlas fw quality r)).map (fun c => c.light.uvs))[i]? =
      some ui)
    (hj : ((atlasCells (renderToAtlas fw quality r)).map (fun c => c.light.uvs))[j]? =
      some uj) :
    ¬ uvInteriorsOverlap ui uj := by
  rw [List.getElem?_map] at hi hj
  cases hci : (atlasCells (renderToAtlas fw quality r))[i]? with
  | none => simp [hci] at hi
  | some ci =>
    cases hcj : (atlasCells (renderToAtlas fw quality r))[j]? with
    | none => simp [hcj] at hj
    | some cj =>
      rw [hci] at hi
      rw [hcj] at hj
      simp only [Option.map_some', Option.some.injEq] at hi hj
      obtain ⟨_, _, _, _, _, hui, _, _⟩ := renderToAtlas_cell fw quality r i ci hci
      obtain ⟨_, _, _, _, _, huj, _, _⟩ := renderToAtlas_cell fw quality r j cj hcj
      rw [← hi, ← hj, hui, huj]
      rintro ⟨h1, h2, h3, h4⟩
      simp only at h1 h2 h3 h4
      have e1 : i % 2 = j % 2 :=
        Nat.le_antisymm (cast_half_lt_imp_le _ _ h1) (cast_half_lt_imp_le _ _ h2)
      have e2 : i / 2 = j / 2 :=
        Nat.le_antisymm (cast_half_lt_imp_le _ _ h3) (cast_half_lt_imp_le _ _ h4)
      omega

/-- Instance of C11: the two spot lights of `twoSpotRenderer` get the rectangles
`(0, 0, 1/2)` and `(1/2, 0, 1/2)`. -/
theorem renderToAtlas_cells_disjoint_witness :
    ¬ uvInteriorsOverlap ((0 : ℚ), (0 : ℚ), (1 / 2 : ℚ)) ((1 / 2 : ℚ), (0 : ℚ), (1 / 2 : ℚ)) :=
  renderToAtlas_cells_disjoint lineFramework 0 twoSpotRenderer 0 1 _ _ (by decide)
    (by decide!) (by decide!)

/-- C12 (failing input). With the light list `[spot without shadows, spot with shadows]`,
`renderToAtlas` gives cell 0 to the light that does not cast shadows and cell 1 (column
1, row 0) to the shadow-casting one, which is the first shadow-casting light of the
list. -/
theorem renderToAtlas_cell_without_cast_shadows :
    twoSpotRenderer.lights.map (fun l => (l.name, l.light_type, l.cast_shadows)) =
      [("lamp", eLightType.SPOT, false), ("spot", eLightType.SPOT, true)] ∧
    (atlasCells (renderToAtlas lineFramework 0 twoSpotRenderer)).map
      (fun c => (c.light.name, c.index, c.x, c.y)) =
      [("lamp", 0, 0, 0), ("spot", 1, 1024, 0)] := by
  refine ⟨by decide, by decide⟩

/-- C13 (failing input). In single-pass mode, for the scene whose only light is a spot
light that does not cast shadows, `renderScene` allocates the atlas and submits a shadow
draw. -/
theorem renderScene_atlas_without_shadow_caster :
    (renderSceneShadows lineFramework insertionSortCalls 0 plainSpotScene 0
        singlePassRenderer).toOption.map
      (fun out => out.1.lights.map (fun l => (l.light_type, l.cast_shadows))) =
      some [(eLightType.SPOT, false)] ∧
    singlePassRenderer.atlas = none ∧
    (renderSceneShadows lineFramework insertionSortCalls 0 plainSpotScene 0
        singlePassRenderer).toOption.map (fun out => out.1.atlas) =
      some (some ⟨2048, 2048⟩) ∧
    (renderSceneShadows lineFramework insertionSortCalls 0 plainSpotScene 0
        singlePassRenderer).toOption.map
      (fun out => out.2.2.map (fun c => c.draws.map (fun d => d.mesh.name))) =
      some [["crate"]] := by
  refine ⟨by decide, by decide, by decide, by decide⟩

theorem atlasDraws_skip_blend [LinearOrder D] (fw : Framework A D M V Cam)
    (light : LightEntity D M) (pre post : List (RenderCall A D M)) (call : RenderCall A D M)
    (me : Mesh) (ma : Material A) (hmesh : call.mesh = some me)
    (hmat : call.material = some ma) (hblend : ma.alpha_mode = fw.BLEND) :
    atlasDraws fw light (pre ++ call :: post) = atlasDraws fw light (pre ++ post) := by
  induction pre with
  | nil =>
    simp only [List.nil_append]
    rw [atlasDraws, hmesh]
    simp only [hmat, hblend, if_true]
    split_ifs <;> rfl
  | cons c pre ih =>
    simp only [List.cons_append]
    rw [atlasDraws, atlasDraws, ih]

theorem shadowMappingDraws_skip_blend [LinearOrder D] (fw : Framework A D M V Cam)
    (light : LightEntity D M) (pre post : List (RenderCall A D M)) (call : RenderCall A D M)
    (me : Mesh) (ma : Material A) (hmesh : call.mesh = some me)
    (hmat : call.material = some ma) (hblend : ma.alpha_mode = fw.BLEND) :
    shadowMappingDraws fw light (pre ++ call :: post) =
      shadowMappingDraws fw light (pre ++ post) := by
  induction pre with
  | nil =>
    have hnone : ∀ mesh : Option Mesh,
        renderMeshWithMaterialShadow fw call.model mesh (some ma) light = [] := by
      intro mesh
      cases mesh <;> simp [renderMeshWithMaterialShadow, hblend]
    simp only [List.nil_append]
    rw [shadowMappingDraws, hmesh]
    simp only [hmat, hnone, ite_self, List.nil_append]
    cases shadowMappingDraws fw light post <;> simp [Except.map]
  | cons c pre ih =>
    simp only [List.cons_append]
    rw [shadowMappingDraws, shadowMappingDraws, ih]

/-- C19. A call whose material has alpha mode `BLEND` is drawn in no shadow pass:
`renderMeshWithMaterialShadow` submits no draw for it, the multi-pass loop of
`shadowMapping` draws what it would draw without the call, and every cell rendered by
`renderToAtlas` holds the draws of the calls list without the call. -/
theorem blend_call_not_drawn_in_shadow_passes [LinearOrder D] [DivisionRing D]
    (fw : Framework A D M V Cam) (quality : Nat) (r : Renderer A D M)
    (pre post : List (RenderCall A D M)) (call : RenderCall A D M) (me : Mesh)
    (ma : Material A) (hcalls : r.calls = pre ++ call :: post) (hmesh : call.mesh = some me)
    (hmat : call.material = some ma) (hblend : ma.alpha_mode = fw.BLEND) :
    (∀ light : LightEntity D M,
      renderMeshWithMaterialShadow fw call.model call.mesh call.material light = []) ∧
    (∀ light : LightEntity D M,
      shadowMappingDraws fw light r.calls = shadowMappingDraws fw light (pre ++ post)) ∧
    (∀ cell ∈ atlasCells (renderToAtlas fw quality r),
      atlasDraws fw cell.light (pre ++ post) = Except.ok cell.draws) := by
  refine ⟨?_, ?_, ?_⟩
  · intro light
    rw [hmesh, hmat]
    simp [renderMeshWithMaterialShadow, hblend]
  · intro light
    rw [hcalls]
    exact shadowMappingDraws_skip_blend fw light pre post call me ma hmesh hmat hblend
  · intro cell hcell
    obtain ⟨k, hk⟩ := List.getElem?_of_mem hcell
    obtain ⟨_, _, _, _, _, _, _, hd⟩ := renderToAtlas_cell fw quality r k cell hk
    rw [← hd, hcalls]
    exact (atlasDraws_skip_blend fw cell.light pre post call me ma hmesh hmat hblend).symm

/-- Instance of C19: the blended call `glass` of `glassRenderer`, listed after the call
`crate`. -/
theorem blend_call_not_drawn_in_shadow_passes_witness :
    (∀ light : LightEntity ℚ Int,
      renderMeshWithMaterialShadow lineFramework (sampleCall "glass" 2 4).model
        (sampleCall "glass" 2 4).mesh (sampleCall "glass" 2 4).material light = []) ∧
    (∀ light : LightEntity ℚ Int,
      shadowMappingDraws lineFramework light glassRenderer.calls =
        shadowMappingDraws lineFramework light ([sampleCall "crate" 0 5] ++ [])) ∧
    (∀ cell ∈ atlasCells (renderToAtlas lineFramework 0 glassRenderer),
      atlasDraws lineFramework cell.light ([sampleCall "crate" 0 5] ++ []) =
        Except.ok cell.draws) :=
  blend_call_not_drawn_in_shadow_passes lineFramework 0 glassRenderer
    [sampleCall "crate" 0 5] [] (sampleCall "glass" 2 4) { name := "glass" }
    { name := "glass", alpha_mode := 2 } (by decide) (by decide) (by decide) (by decide)

/-- The inner loop of `renderToAtlas` runs to its end when every call has a mesh and a
material. -/
theorem atlasDraws_completes [LinearOrder D] (fw : Framework A D M V Cam)
    (light : LightEntity D M) (calls : List (RenderCall A D M))
    (hcalls : ∀ c ∈ calls, c.mesh ≠ none ∧ c.material ≠ none) :
    ∃ ds, atlasDraws fw light calls = Except.ok ds := by
  induction calls with
  | nil => exact ⟨[], rfl⟩
  | cons call rest ih =>
    obtain ⟨ds, hds⟩ := ih (fun c hc => hcalls c (List.mem_cons_of_mem _ hc))
    obtain ⟨hme, hma⟩ := hcalls call (List.mem_cons_self _ _)
    cases hm : call.mesh with
    | none => exact absurd hm hme
    | some me =>
      cases hmat : call.material with
      | none => exact absurd hmat hma
      | some ma =>
        simp only [atlasDraws, hm, hmat, hds]
        split_ifs
        · exact ⟨ds, rfl⟩
        · exact ⟨ds, rfl⟩
        · exact ⟨_, rfl⟩

/-- The loop of `renderToAtlas` over the lights runs to its end when every call has a
mesh and a material and every `DIRECTIONAL` light has its `shadow_fbo`; it renders one
cell for each light that is not `POINT`, in list order, the cell holding that light with
new `uvs`, and the lights it leaves are those of the cells, the `POINT` lights staying
as they were. -/
theorem atlasLoop_completes [LinearOrder D] [DivisionRing D] (fw : Framework A D M V Cam)
    (shadow_count res : Nat) (calls : List (RenderCall A D M))
    (hcalls : ∀ c ∈ calls, c.mesh ≠ none ∧ c.material ≠ none)
    (lights : List (LightEntity D M)) (c : Nat)
    (hfbo : ∀ l ∈ lights, l.light_type = eLightType.DIRECTIONAL → l.shadow_fbo ≠ none) :
    ∃ out, atlasLoop fw shadow_count res calls lights c = Except.ok out ∧
      List.Forall₂ (fun l cell => cell.light = { l with uvs := cell.light.uvs })
        (lights.filter (fun l => decide (l.light_type ≠ eLightType.POINT))) out.2 ∧
      out.1.filter (fun l => decide (l.light_type ≠ eLightType.POINT)) =
        out.2.map (fun cell => cell.light) ∧
      out.1.filter (fun l => decide (l.light_type = eLightType.POINT)) =
        lights.filter (fun l => decide (l.light_type = eLightType.POINT)) := by
  induction lights generalizing c with
  | nil => exact ⟨([], []), rfl, List.Forall₂.nil, rfl, rfl⟩
  | cons light rest ih =>
    have hrest : ∀ l ∈ rest, l.light_type = eLightType.DIRECTIONAL → l.shadow_fbo ≠ none :=
      fun l hl => hfbo l (List.mem_cons_of_mem _ hl)
    by_cases hp : light.light_type = eLightType.POINT
    · obtain ⟨out, hout, h1, h2, h3⟩ := ih c hrest
      refine ⟨(light :: out.1, out.2), ?_, ?_, ?_, ?_⟩
      · simp [atlasLoop, hp, hout, Except.map]
      · simpa [hp] using h1
      · simpa [hp] using h2
      · simpa [hp] using h3
    · obtain ⟨out, hout, h1, h2, h3⟩ := ih (c + 1) hrest
      have hu : updateLight light = Except.ok () := by
        unfold updateLight
        cases hty : light.light_type with
        | POINT => rfl
        | SPOT => rfl
        | NO_LIGHT => rfl
        | DIRECTIONAL =>
          cases hf : light.shadow_fbo with
          | none => exact absurd hf (hfbo light (List.mem_cons_self _ _) hty)
          | some f => rfl
      generalize hl1 : ({ light with
        uvs := (((c % ceilSqrt shadow_count : Nat) : D) / (ceilSqrt shadow_count : D),
          ((c / ceilSqrt shadow_count : Nat) : D) / (ceilSqrt shadow_count : D),
          1 / (ceilSqrt shadow_count : D)) } : LightEntity D M) = light1
      have hty : light1.light_type = light.light_type := by rw [← hl1]
      have hsame : light1 = { light with uvs := light1.uvs } := by rw [← hl1]
      obtain ⟨ds, hds⟩ := atlasDraws_completes fw light1 calls hcalls
      have hrun : atlasLoop fw shadow_count res calls (light :: rest) c =
          Except.ok (light1 :: out.1,
            { light := light1, index := c, cells_per_side := ceilSqrt shadow_count,
              x := (c % ceilSqrt shadow_count) * res,
              y := (c / ceilSqrt shadow_count) * res, size := res, draws := ds } :: out.2) := by
        simp only [atlasLoop, if_neg hp, hu, Except.bind, hl1, hds, hout, Except.map]
      refine ⟨_, hrun, ?_, ?_, ?_⟩
      · simp only [hp, ne_eq, not_false_eq_true, decide_True, List.filter_cons_of_pos]
        exact List.Forall₂.cons hsame h1
      · simp only [hp, hty, ne_eq, not_false_eq_true, decide_True, List.filter_cons_of_pos,
          List.map_cons, h2]
      · simpa [hp, hty] using h3

/-- C30. In a run of `renderToAtlas` at quality tier `quality`, the cell at position `c`
of the cells rendered has the counter value `c`, `N = 2` cells per side and the
resolution `res = 1024 * 2 ^ quality`; its scissor and viewport offsets are
`(c mod N) * res` and `floor(c / N) * res`; and the `uvs` recorded on its light give
them back, `uvs.x * (N * res) = x`, `uvs.y * (N * res) = y`, `uvs.z * (N * res) = res`,
in every ordered field of floats. When `shadow_count` is not zero, there is a call,
the shader `shadowmap` is found, every call has a mesh and a material and every
`DIRECTIONAL` light has its `shadow_fbo`, the run completes, the cells are one for each
light that is not `POINT`, in list order, each holding that light with its new `uvs`,
and these are the lights the renderer holds afterwards. -/
theorem renderToAtlas_uvs_match_pixels {D : Type} [LinearOrderedField D]
    (fw : Framework A D M V Cam) (quality : Nat) (r : Renderer A D M) :
    (∀ (c : Nat) (cell : AtlasCell D M),
      (atlasCells (renderToAtlas fw quality r))[c]? = some cell →
        cell.index = c ∧ cell.cells_per_side = 2 ∧ cell.size = 1024 * 2 ^ quality ∧
        cell.x = (c % 2) * (1024 * 2 ^ quality) ∧
        cell.y = (c / 2) * (1024 * 2 ^ quality) ∧
        cell.light.uvs.1 * ((2 * (1024 * 2 ^ quality) : Nat) : D) =
          (((c % 2) * (1024 * 2 ^ quality) : Nat) : D) ∧
        cell.light.uvs.2.1 * ((2 * (1024 * 2 ^ quality) : Nat) : D) =
          (((c / 2) * (1024 * 2 ^ quality) : Nat) : D) ∧
        cell.light.uvs.2.2 * ((2 * (1024 * 2 ^ quality) : Nat) : D) =
          ((1024 * 2 ^ quality : Nat) : D)) ∧
    (r.shadow_count ≠ 0 → r.calls ≠ [] → fw.shaderGet "shadowmap" = true →
      (∀ call ∈ r.calls, call.mesh ≠ none ∧ call.material ≠ none) →
      (∀ l ∈ r.lights, l.light_type = eLightType.DIRECTIONAL → l.shadow_fbo ≠ none) →
      ∃ r1 cells, renderToAtlas fw quality r = Except.ok (r1, cells) ∧
        List.Forall₂ (fun l cell => cell.light = { l with uvs := cell.light.uvs })
          (r.lights.filter (fun l => decide (l.light_type ≠ eLightType.POINT))) cells ∧
        r1.lights.filter (fun l => decide (l.light_type ≠ eLightType.POINT)) =
          cells.map (fun cell => cell.light)) := by
  refine ⟨?_, ?_⟩
  · intro c cell hc
    obtain ⟨hi, hn, hx, hy, hs, hu, _, _⟩ := renderToAtlas_cell fw quality r c cell hc
    rw [hu]
    refine ⟨hi, hn, hs, hx, hy, ?_, ?_, ?_⟩
    · push_cast
      field_simp
      ring
    · push_cast
      field_simp
      ring
    · push_cast
      field_simp
  · intro hcount hne hshader hcalls hfbo
    obtain ⟨out, hout, h1, h2, _⟩ :=
      atlasLoop_completes fw 4 (shadowResolution quality) r.calls hcalls r.lights 0 hfbo
    have hempty : r.calls.isEmpty = false := by
      cases hc : r.calls with
      | nil => exact absurd hc hne
      | cons a l => rfl
    have hrun : ∃ r1, renderToAtlas fw quality r = Except.ok (r1, out.2) ∧
        r1.lights = out.1 := by
      unfold renderToAtlas
      cases hat : r.atlas with
      | none =>
        simp only [hcount, hempty, hshader, hat, hout, Except.map, decide_False,
          Bool.or_self, Bool.not_true, Bool.false_eq_true, if_false]
        exact ⟨_, rfl, rfl⟩
      | some f =>
        simp only [hcount, hempty, hshader, hat, hout, Except.map, decide_False,
          Bool.or_self, Bool.not_true, Bool.false_eq_true, if_false]
        exact ⟨_, rfl, rfl⟩
    obtain ⟨r1, hr1, hl⟩ := hrun
    exact ⟨r1, out.2, hr1, h1, by rw [hl]; exact h2⟩

/-- Instance of C30: the run on `twoSpotRenderer` at quality tier 0 completes with the
two spot lights in the cells 0 and 1, of 1024 pixels, at the offsets `(0, 0)` and
`(1024, 0)`, with the `uvs` `(0, 0, 1/2)` and `(1/2, 0, 1/2)`. -/
theorem renderToAtlas_uvs_match_pixels_witness :
    (∃ r1 cells, renderToAtlas lineFramework 0 twoSpotRenderer = Except.ok (r1, cells) ∧
      List.Forall₂ (fun l cell => cell.light = { l with uvs := cell.light.uvs })
        (twoSpotRenderer.lights.filter (fun l => decide (l.light_type ≠ eLightType.POINT)))
        cells ∧
      r1.lights.filter (fun l => decide (l.light_type ≠ eLightType.POINT)) =
        cells.map (fun cell => cell.light)) ∧
    (atlasCells (renderToAtlas lineFramework 0 twoSpotRenderer)).map
        (fun cell => (cell.light.name, cell.index, cell.cells_per_side, cell.x, cell.y)) =
      [("lamp", 0, 2, 0, 0), ("spot", 1, 2, 1024, 0)] ∧
    (atlasCells (renderToAtlas lineFramework 0 twoSpotRenderer)).map
        (fun cell => (cell.size, cell.light.uvs)) =
      [(1024, ((0 : ℚ), (0 : ℚ), (1 / 2 : ℚ))), (1024, ((1 / 2 : ℚ), (0 : ℚ), (1 / 2 : ℚ)))] ∧
    (∀ cell, (atlasCells (renderToAtlas lineFramework 0 twoSpotRenderer))[1]? = some cell →
      cell.light.uvs.1 * ((2 * (1024 * 2 ^ 0) : Nat) : ℚ) =
        (((1 % 2) * (1024 * 2 ^ 0) : Nat) : ℚ)) :=
  ⟨(renderToAtlas_uvs_match_pixels lineFramework 0 twoSpotRenderer).2 (by decide)
      (List.cons_ne_nil _ _) rfl (by decide) (by decide),
    by decide, by decide!,
    fun cell hcell =>
      ((renderToAtlas_uvs_match_pixels lineFramework 0 twoSpotRenderer).1 1 cell
        hcell).2.2.2.2.2.1⟩

/-- C25 (failing input). With five shadow-casting spot lights, `renderToAtlas` allocates
an atlas of 2048 x 2048 pixels (a grid of 2 x 2 cells of side 1024) and gives the fifth
light the cell of index 4 at the pixel offset `(0, 2048)` with `uvs = (0, 1, 1/2)`:
the rectangle starts at the upper edge of the atlas and lies outside it. -/
theorem renderToAtlas_fifth_light_outside_atlas :
    fiveSpotRenderer.lights.map (fun l => (l.light_type, l.cast_shadows)) =
      List.replicate 5 (eLightType.SPOT, true) ∧
    (renderToAtlas lineFramework 0 fiveSpotRenderer).toOption.map (fun out => out.1.atlas) =
      some (some ⟨2048, 2048⟩) ∧
    (atlasCells (renderToAtlas lineFramework 0 fiveSpotRenderer)).map
        (fun c => (c.index, c.cells_per_side, c.x, c.y, c.size)) =
      [(0, 2, 0, 0, 1024), (1, 2, 1024, 0, 1024), (2, 2, 0, 1024, 1024),
        (3, 2, 1024, 1024, 1024), (4, 2, 0, 2048, 1024)] ∧
    ((atlasCells (renderToAtlas lineFramework 0 fiveSpotRenderer)).map
        (fun c => c.light.uvs))[4]? = some ((0 : ℚ), (1 : ℚ), (1 / 2 : ℚ)) := by
  refine ⟨by decide, by decide, by decide, by decide!⟩

theorem shadowMappingDraws_in_frustum [LinearOrder D] (fw : Framework A D M V Cam)
    (light : LightEntity D M) (calls : List (RenderCall A D M)) (ds : List (ShadowDraw M))
    (h : shadowMappingDraws fw light calls = Except.ok ds) :
    ∀ d ∈ ds, ∃ call ∈ calls, call.mesh = some d.mesh ∧ call.model = d.model ∧
      fw.shadowFrustumTest light call.model d.mesh = true := by
  induction calls generalizing ds with
  | nil =>
    simp only [shadowMappingDraws, Except.ok.injEq] at h
    subst h
    simp
  | cons call rest ih =>
    rw [shadowMappingDraws] at h
    cases hme : call.mesh with
    | none => simp [hme] at h
    | some me =>
      simp only [hme] at h
      cases hrest : shadowMappingDraws fw light rest with
      | error e => simp [hrest, Except.map] at h
      | ok tail =>
        simp only [hrest, Except.map, Except.ok.injEq] at h
        subst h
        intro d hd
        rw [List.mem_append] at hd
        rcases hd with hd | hd
        · by_cases ht : fw.shadowFrustumTest light call.model me = true
          · simp only [ht, if_true] at hd
            unfold renderMeshWithMaterialShadow at hd
            cases hma : call.material with
            | none => simp [hma] at hd
            | some ma =>
              simp only [hma] at hd
              split_ifs at hd with h1 h2
              · simp at hd
              · simp at hd
              · simp only [List.mem_singleton] at hd
                subst hd
                exact ⟨call, List.mem_cons_self _ _, hme, rfl, ht⟩
          · simp [ht] at hd
        · obtain ⟨c, hc, hres⟩ := ih tail hrest d hd
          exact ⟨c, List.mem_cons_of_mem _ hc, hres⟩

theorem atlasDraws_in_frustum [LinearOrder D] (fw : Framework A D M V Cam)
    (light : LightEntity D M) (hdir : light.light_type ≠ eLightType.DIRECTIONAL)
    (calls : List (RenderCall A D M)) (ds : List (ShadowDraw M))
    (h : atlasDraws fw light calls = Except.ok ds) :
    ∀ d ∈ ds, ∃ call ∈ calls, call.mesh = some d.mesh ∧ call.model = d.model ∧
      fw.shadowFrustumTest light call.model d.mesh = true := by
  induction calls generalizing ds with
  | nil =>
    simp only [atlasDraws, Except.ok.injEq] at h
    subst h
    simp
  | cons call rest ih =>
    have hlift : ∀ tail : List (ShadowDraw M),
        (∀ d ∈ tail, ∃ c ∈ rest, c.mesh = some d.mesh ∧ c.model = d.model ∧
          fw.shadowFrustumTest light c.model d.mesh = true) →
        ∀ d ∈ tail, ∃ c ∈ call :: rest, c.mesh = some d.mesh ∧ c.model = d.model ∧
          fw.shadowFrustumTest light c.model d.mesh = true := by
      intro tail ht d hd
      obtain ⟨c, hc, hres⟩ := ht d hd
      exact ⟨c, List.mem_cons_of_mem _ hc, hres⟩
    rw [atlasDraws] at h
    cases hme : call.mesh with
    | none => simp [hme] at h
    | some me =>
      simp only [hme] at h
      by_cases ht : fw.shadowFrustumTest light call.model me = true
      · simp only [ht, Bool.not_true, Bool.false_and, Bool.false_eq_true, if_false] at h
        cases hma : call.material with
        | none => simp [hma] at h
        | some ma =>
          simp only [hma] at h
          by_cases hb : ma.alpha_mode = fw.BLEND
          · simp only [hb, if_true] at h
            exact hlift ds (ih ds h)
          · simp only [hb, if_false] at h
            cases hrest : atlasDraws fw light rest with
            | error e => simp [hrest, Except.map] at h
            | ok tail =>
              simp only [hrest, Except.map, Except.ok.injEq] at h
              subst h
              intro d hd
              rw [List.mem_cons] at hd
              rcases hd with hd | hd
              · subst hd
                exact ⟨call, List.mem_cons_self _ _, hme, rfl, ht⟩
              · exact hlift tail (ih tail hrest) d hd
      · have hskip : (!fw.shadowFrustumTest light call.model me
            && decide (light.light_type ≠ eLightType.DIRECTIONAL)) = true := by
          simp [ht, hdir]
        simp only [hskip, if_true] at h
        exact hlift ds (ih ds h)

theorem atlasDraws_directional [LinearOrder D] (fw : Framework A D M V Cam)
    (light : LightEntity D M) (hdir : light.light_type = eLightType.DIRECTIONAL)
    (calls : List (RenderCall A D M)) (ds : List (ShadowDraw M))
    (h : atlasDraws fw light calls = Except.ok ds) :
    ∀ call ∈ calls, ∀ me ma, call.mesh = some me → call.material = some ma →
      ma.alpha_mode ≠ fw.BLEND →
      ({ mesh := me, model := call.model, two_sided := ma.two_sided } : ShadowDraw M) ∈ ds := by
  induction calls generalizing ds with
  | nil => simp
  | cons call rest ih =>
    have hnoskip : ∀ me, (!fw.shadowFrustumTest light call.model me
        && decide (light.light_type ≠ eLightType.DIRECTIONAL)) = false := by
      intro me
      simp [hdir]
    rw [atlasDraws] at h
    cases hme : call.mesh with
    | none => simp [hme] at h
    | some me =>
      simp only [hme, hnoskip, Bool.false_eq_true, if_false] at h
      cases hma : call.material with
      | none => simp [hma] at h
      | some ma =>
        simp only [hma] at h
        by_cases hb : ma.alpha_mode = fw.BLEND
        · simp only [hb, if_true] at h
          intro c hc me2 ma2 hme2 hma2 hnb
          rw [List.mem_cons] at hc
          rcases hc with hc | hc
          · subst hc
            rw [hma] at hma2
            cases hma2
            exact absurd hb hnb
          · exact ih ds h c hc me2 ma2 hme2 hma2 hnb
        · simp only [hb, if_false] at h
          cases hrest : atlasDraws fw light rest with
          | error e => simp [hrest, Except.map] at h
          | ok tail =>
            simp only [hrest, Except.map, Except.ok.injEq] at h
            subst h
            intro c hc me2 ma2 hme2 hma2 hnb
            rw [List.mem_cons] at hc
            rcases hc with hc | hc
            · subst hc
              rw [hme] at hme2
              rw [hma] at hma2
              cases hme2
              cases hma2
              exact List.mem_cons_self _ _
            · exact List.mem_cons_of_mem _ (ih tail hrest c hc me2 ma2 hme2 hma2 hnb)

/-- C24 (counterexample). With shadow cameras whose frustum test fails for every call,
`renderToAtlas` still draws the call into the cell of a directional light. -/
theorem renderToAtlas_directional_ignores_frustum :
    sunRenderer.lights.map (fun l => l.light_type) = [eLightType.DIRECTIONAL] ∧
    (∀ (l : LightEntity ℚ Int) (m : Int) (me : Mesh),
      blindFramework.shadowFrustumTest l m me = false) ∧
    (atlasCells (renderToAtlas blindFramework 0 sunRenderer)).map
        (fun c => (c.light.name, c.draws.map (fun d => d.mesh.name))) =
      [("sun", ["crate"])] := by
  refine ⟨by decide, fun _ _ _ => rfl, by decide⟩

/-- C24 (amended). A call is drawn by `shadowMapping` only if its world box passes the
frustum test of the shadow camera of the light, for every light; a call is drawn by
`renderToAtlas` into the cell of a light that is not `DIRECTIONAL` only if it passes
that test; and into the cell of a `DIRECTIONAL` light `renderToAtlas` draws every call
whose material is not `BLEND`, whatever the test gives. -/
theorem shadow_draws_pass_frustum_test [LinearOrder D] [DivisionRing D]
    (fw : Framework A D M V Cam) (quality : Nat) (r : Renderer A D M) :
    (∀ (light : LightEntity D M) (pass : ShadowPass D M),
      shadowMapping fw r light = Except.ok pass →
      ∀ d ∈ pass.draws, ∃ call ∈ r.calls, call.mesh = some d.mesh ∧ call.model = d.model ∧
        fw.shadowFrustumTest light call.model d.mesh = true) ∧
    (∀ cell ∈ atlasCells (renderToAtlas fw quality r),
      cell.light.light_type ≠ eLightType.DIRECTIONAL →
      ∀ d ∈ cell.draws, ∃ call ∈ r.calls, call.mesh = some d.mesh ∧ call.model = d.model ∧
        fw.shadowFrustumTest cell.light call.model d.mesh = true) ∧
    (∀ cell ∈ atlasCells (renderToAtlas fw quality r),
      cell.light.light_type = eLightType.DIRECTIONAL →
      ∀ call ∈ r.calls, ∀ me ma, call.mesh = some me → call.material = some ma →
        ma.alpha_mode ≠ fw.BLEND →
        ({ mesh := me, model := call.model, two_sided := ma.two_sided } : ShadowDraw M)
          ∈ cell.draws) := by
  refine ⟨?_, ?_, ?_⟩
  · intro light pass hpass
    unfold shadowMapping at hpass
    cases hu : updateLight light with
    | error e => simp [hu, Except.bind] at hpass
    | ok u =>
      simp only [hu, Except.bind] at hpass
      cases hf : light.shadow_fbo with
      | none => simp [hf] at hpass
      | some fbo =>
        simp only [hf] at hpass
        cases hd : shadowMappingDraws fw light r.calls with
        | error e => simp [hd, Except.map] at hpass
        | ok ds =>
          simp only [hd, Except.map, Except.ok.injEq] at hpass
          subst hpass
          exact shadowMappingDraws_in_frustum fw light r.calls ds hd
  · intro cell hcell hdir
    obtain ⟨k, hk⟩ := List.getElem?_of_mem hcell
    obtain ⟨_, _, _, _, _, _, _, hdraws⟩ := renderToAtlas_cell fw quality r k cell hk
    exact atlasDraws_in_frustum fw cell.light hdir r.calls cell.draws hdraws
  · intro cell hcell hdir
    obtain ⟨k, hk⟩ := List.getElem?_of_mem hcell
    obtain ⟨_, _, _, _, _, _, _, hdraws⟩ := renderToAtlas_cell fw quality r k cell hk
    exact atlasDraws_directional fw cell.light hdir r.calls cell.draws hdraws

/-- Instance of the amended C24: the pass of `shadowMapping` for the shadow-casting spot
light over the calls of `glassRenderer` draws the crate, which passes the test. -/
theorem shadow_draws_pass_frustum_test_witness :
    ∃ call ∈ glassRenderer.calls, call.mesh = some { name := "crate" } ∧ call.model = 5 ∧
      lineFramework.shadowFrustumTest spotShadowLight call.model { name := "crate" } = true :=
  (shadow_draws_pass_frustum_test lineFramework 0 glassRenderer).1 spotShadowLight
    { light := spotShadowLight, target := ⟨1024, 1024⟩,
      draws := [{ mesh := { name := "crate" }, model := 5, two_sided := false }] }
    rfl { mesh := { name := "crate" }, model := 5, two_sided := false }
    (List.mem_singleton.mpr rfl)

end AtlasTheorems

/-! ## Mesh passes -/

section MeshPassTheorems

variable {A D M V Cam : Type}

/-- C17. A call whose mesh is null, whose mesh has zero vertices, or whose material is
null makes `renderMeshWithMaterial` (in any pipeline and renderer state) and
`renderMeshWithMaterialShadow` return normally with an empty command list: no draw is
submitted and no command that changes the graphics state is issued. -/
theorem renderMeshWithMaterial_skips_malformed_call [LinearOrder A]
    (fw : Framework A D M V Cam) (r : Renderer A D M) (call : RenderCall A D M) (pipeline : eRenderMode)
    (light : LightEntity D M)
    (h : call.mesh = none ∨ (∃ me, call.mesh = some me ∧ me.num_vertices = 0)
      ∨ call.material = none) :
    renderMeshWithMaterial fw r call pipeline = Except.ok [] ∧
    renderMeshWithMaterialShadowCommands fw call.model call.mesh call.material light = [] ∧
    renderMeshWithMaterialShadow fw call.model call.mesh call.material light = [] := by
  rcases h with h | ⟨me, hme, hz⟩ | h
  · simp [renderMeshWithMaterial, renderMeshWithMaterialShadowCommands,
      renderMeshWithMaterialShadow, h]
  · cases hma : call.material with
    | none =>
      simp [renderMeshWithMaterial, renderMeshWithMaterialShadowCommands,
        renderMeshWithMaterialShadow, hme, hma]
    | some ma =>
      simp [renderMeshWithMaterial, renderMeshWithMaterialShadowCommands,
        renderMeshWithMaterialShadow, hme, hma, hz]
  · cases hme : call.mesh with
    | none =>
      simp [renderMeshWithMaterial, renderMeshWithMaterialShadowCommands,
        renderMeshWithMaterialShadow, hme, h]
    | some me =>
      simp [renderMeshWithMaterial, renderMeshWithMaterialShadowCommands,
        renderMeshWithMaterialShadow, hme, h]

/-- Instance of C17: a call without material, in the forward renderer before the first
frame. -/
theorem renderMeshWithMaterial_skips_malformed_call_witness :
    renderMeshWithMaterial lineFramework emptyRenderer
        { sampleCall "crate" 0 5 with material := none } eRenderMode.FORWARD = Except.ok [] ∧
    renderMeshWithMaterialShadowCommands lineFramework
        ({ sampleCall "crate" 0 5 with material := none } : RenderCall Nat ℚ Int).model
        ({ sampleCall "crate" 0 5 with material := none } : RenderCall Nat ℚ Int).mesh
        ({ sampleCall "crate" 0 5 with material := none } : RenderCall Nat ℚ Int).material
        spotShadowLight = [] ∧
    renderMeshWithMaterialShadow lineFramework
        ({ sampleCall "crate" 0 5 with material := none } : RenderCall Nat ℚ Int).model
        ({ sampleCall "crate" 0 5 with material := none } : RenderCall Nat ℚ Int).mesh
        ({ sampleCall "crate" 0 5 with material := none } : RenderCall Nat ℚ Int).material
        spotShadowLight = [] :=
  renderMeshWithMaterial_skips_malformed_call lineFramework emptyRenderer
    { sampleCall "crate" 0 5 with material := none } eRenderMode.FORWARD spotShadowLight
    (Or.inr (Or.inr rfl))

/-- The draws in the command list of `renderMeshWithMaterialShadow` are those that the
function of the shadow passes lists. -/
theorem renderMeshWithMaterialShadowCommands_draws [LinearOrder A]
    (fw : Framework A D M V Cam) (model : M) (mesh : Option Mesh)
    (material : Option (Material A)) (light : LightEntity D M) :
    (renderMeshWithMaterialShadowCommands fw model mesh material light).filterMap
        GLCmd.drawnMesh =
      (renderMeshWithMaterialShadow fw model mesh material light).map (fun d => d.mesh) := by
  unfold renderMeshWithMaterialShadowCommands renderMeshWithMaterialShadow
  cases mesh with
  | none => rfl
  | some me =>
    cases material with
    | none => rfl
    | some ma =>
      by_cases hz : me.num_vertices = 0
      · simp [hz]
      · by_cases hs : (!fw.shaderGet "shadowmap" || decide (ma.alpha_mode = fw.BLEND)) = true
        · simp only [hz, hs, if_true, if_false, List.filterMap_nil, List.map_nil]
        · simp only [hz, hs, if_false]
          by_cases hts : ma.two_sided = true <;>
            simp [hts, GLCmd.drawnMesh, untrackedUniform]

/-- The uniform that a command list holds after a further upload to it. -/
theorem lastUniform_append_set (name : String) (v : UVal D M) (pre post : List (GLCmd D M))
    (hpost : ∀ c ∈ post, ∀ w, c ≠ GLCmd.setUniform name w) :
    lastUniform name (pre ++ GLCmd.setUniform name v :: post) = some v := by
  unfold lastUniform
  rw [List.foldl_append, List.foldl_cons]
  simp only [if_true]
  induction post with
  | nil => rfl
  | cons c rest ih =>
    rw [List.foldl_cons]
    have hc := hpost c (List.mem_cons_self _ _)
    have hrest : ∀ c ∈ rest, ∀ w, c ≠ GLCmd.setUniform name w :=
      fun d hd => hpost d (List.mem_cons_of_mem _ hd)
    cases c with
    | setUniform n w =>
      have hn : n ≠ name := by
        intro hnn
        exact hc w (by rw [hnn])
      simp only [hn, if_false]
      exact ih hrest
    | _ => exact ih hrest

/-- The draws among the uploads of `meshUniforms`: none. -/
theorem meshUniforms_no_draw (r : Renderer A D M) (call : RenderCall A D M)
    (shader : String) :
    (meshUniforms r call shader).filterMap GLCmd.drawnMesh = [] := by
  simp [meshUniforms, untrackedUniform, GLCmd.drawnMesh]

/-- The draws among the uploads of `environmentUniform`: none. -/
theorem environmentUniform_no_draw (call : RenderCall A D M) :
    (environmentUniform call : List (GLCmd D M)).filterMap GLCmd.drawnMesh = [] := by
  unfold environmentUniform
  cases call.probe with
  | none => rfl
  | some p => by_cases hp : p.cubemap = true <;> simp [hp, GLCmd.drawnMesh]

/-- The draws among the uploads of `deferredFlagUniforms`: none. -/
theorem deferredFlagUniforms_no_draw (r : Renderer A D M) (pipeline : eRenderMode) :
    (deferredFlagUniforms r pipeline : List (GLCmd D M)).filterMap GLCmd.drawnMesh = [] := by
  unfold deferredFlagUniforms
  by_cases hp : pipeline = eRenderMode.DEFERRED_ALPHA <;>
    by_cases hs : r.activate_ssao = true <;>
    simp [hp, hs, untrackedUniform, GLCmd.drawnMesh]

/-- A run of `reflectionUniforms` that completes submits no draw. -/
theorem reflectionUniforms_no_draw (r : Renderer A D M) (call : RenderCall A D M)
    (cmds : List (GLCmd D M)) (h : reflectionUniforms r call = Except.ok cmds) :
    cmds.filterMap GLCmd.drawnMesh = [] := by
  unfold reflectionUniforms at h
  by_cases hr : r.reflections = true
  · cases hp : call.probe with
    | none => simp [hr, hp] at h
    | some p =>
      simp only [hr, hp, if_true, Except.ok.injEq] at h
      subst h
      simp [GLCmd.drawnMesh]
  · simp only [hr] at h
    simp only [Bool.false_eq_true, if_false, Except.ok.injEq] at h
    subst h
    simp [GLCmd.drawnMesh]

/-- A run of `irradianceUniforms` that completes submits no draw. -/
theorem irradianceUniforms_no_draw (r : Renderer A D M) (cmds : List (GLCmd D M))
    (h : irradianceUniforms r = Except.ok cmds) :
    cmds.filterMap GLCmd.drawnMesh = [] := by
  unfold irradianceUniforms at h
  by_cases hr : r.probes_texture = true
  · cases hg : r.grid with
    | none => simp [hr, hg] at h
    | some g =>
      simp only [hr, hg, if_true, Except.ok.injEq] at h
      subst h
      simp [GLCmd.drawnMesh, untrackedUniform]
  · simp only [hr] at h
    simp only [Bool.false_eq_true, if_false, Except.ok.injEq] at h
    subst h
    rfl

/-- The block `reflectionUniforms` completes when `reflections` is off or the call has a
probe. -/
theorem reflectionUniforms_ok (r : Renderer A D M) (call : RenderCall A D M)
    (h : r.reflections = true → call.probe ≠ none) :
    ∃ cmds : List (GLCmd D M), reflectionUniforms r call = Except.ok cmds := by
  unfold reflectionUniforms
  by_cases hr : r.reflections = true
  · cases hp : call.probe with
    | none => exact absurd hp (h hr)
    | some p =>
      simp only [hr, if_true]
      exact ⟨_, rfl⟩
  · simp only [hr]
    exact ⟨_, rfl⟩

/-- The block `irradianceUniforms` completes when there is no probes texture or there is
a grid. -/
theorem irradianceUniforms_ok (r : Renderer A D M)
    (h : r.probes_texture = true → r.grid ≠ none) :
    ∃ cmds : List (GLCmd D M), irradianceUniforms r = Except.ok cmds := by
  unfold irradianceUniforms
  by_cases hr : r.probes_texture = true
  · cases hg : r.grid with
    | none => exact absurd hg (h hr)
    | some g =>
      simp only [hr, if_true]
      exact ⟨_, rfl⟩
  · simp only [hr]
    exact ⟨_, rfl⟩

/-- A run of `renderSinglePass` with an empty light list completes and submits exactly
the draw of the mesh. -/
theorem renderSinglePass_no_lights (r : Renderer A D M) (me : Mesh)
    (hlights : r.lights = [])
    (hgrid : r.probes_texture = true → r.grid ≠ none)
    (hatlas : r.shadow_count ≠ 0 → r.atlas ≠ none) :
    ∃ cmds : List (GLCmd D M), renderSinglePass r me = Except.ok cmds ∧
      cmds.filterMap GLCmd.drawnMesh = [me] := by
  obtain ⟨irr, hirr⟩ := irradianceUniforms_ok r hgrid
  have hirr0 := irradianceUniforms_no_draw r irr hirr
  unfold renderSinglePass
  simp only [hlights, singlePassSlots, List.enum_nil, List.find?_nil, hirr, Except.bind]
  by_cases hc : r.shadow_count = 0
  · simp only [hc, ne_eq, not_true_eq_false, if_false, Except.map]
    refine ⟨_, rfl, ?_⟩
    simp [List.filterMap_append, hirr0, GLCmd.drawnMesh, singlePassArrays]
  · cases ha : r.atlas with
    | none => exact absurd ha (hatlas hc)
    | some fbo =>
      simp only [hc, ne_eq, not_false_eq_true, if_true, Except.map]
      refine ⟨_, rfl, ?_⟩
      simp [List.filterMap_append, hirr0, GLCmd.drawnMesh, singlePassArrays]

/-- C16. With an empty light list, `renderMeshWithMaterial` in the forward pipeline, for
a call with a mesh that has vertices, a material and a shader that is found, completes
(given that the pointers it reads besides are set: the probe of the call when
reflections are on and, in single-pass mode, the grid when there is a probes texture
and the atlas when `shadow_count` is not zero) and submits exactly one draw, that of
the mesh of the call; in multi-pass mode the last values uploaded to `u_light_type`
and `u_light_eq` before that draw are `NO_LIGHT` and `NO_EQ`. -/
theorem renderMeshWithMaterial_no_lights [LinearOrder A] (fw : Framework A D M V Cam)
    (r : Renderer A D M) (call : RenderCall A D M) (me : Mesh) (ma : Material A)
    (shader : String)
    (hlights : r.lights = [])
    (hmesh : call.mesh = some me) (hverts : me.num_vertices ≠ 0)
    (hmat : call.material = some ma)
    (hshader : chooseShader r eRenderMode.FORWARD = some shader)
    (hfound : fw.shaderGet shader = true)
    (hprobe : r.reflections = true → call.probe ≠ none)
    (hgrid : r.light_mode = eLightMode.SINGLE → r.probes_texture = true → r.grid ≠ none)
    (hatlas : r.light_mode = eLightMode.SINGLE → r.shadow_count ≠ 0 → r.atlas ≠ none) :
    ∃ cmds, renderMeshWithMaterial fw r call eRenderMode.FORWARD = Except.ok cmds ∧
      cmds.filterMap GLCmd.drawnMesh = [me] ∧
      (r.light_mode = eLightMode.MULTI →
        ∃ pre post, cmds = pre ++ GLCmd.draw me :: post ∧
          lastUniform "u_light_type" pre = some (UVal.int eLightType.NO_LIGHT.toInt) ∧
          lastUniform "u_light_eq" pre = some (UVal.int eLightEq.NO_EQ.toInt)) := by
  obtain ⟨refl, hrefl⟩ := reflectionUniforms_ok (D := D) r call hprobe
  have hrefl0 := reflectionUniforms_no_draw r call refl hrefl
  have hmu := meshUniforms_no_draw (D := D) r call shader
  have henv := environmentUniform_no_draw (D := D) call
  have hflag := deferredFlagUniforms_no_draw (D := D) (M := M) r eRenderMode.FORWARD
  have hfilter : (chooseShader r eRenderMode.FORWARD).filter fw.shaderGet = some shader := by
    rw [hshader]
    simp [Option.filter, hfound]
  cases hlm : r.light_mode with
  | BRUH => simp [chooseShader, hlm] at hshader
  | MULTI =>
    have hpass : meshLightingPass fw r me ma eRenderMode.FORWARD =
        Except.ok ((if ma.alpha_mode = fw.BLEND then
            [GLCmd.enable GLCap.BLEND,
              GLCmd.blendFunc GLFactor.SRC_ALPHA GLFactor.ONE_MINUS_SRC_ALPHA]
          else [GLCmd.disable GLCap.BLEND, GLCmd.blendFunc GLFactor.SRC_ALPHA GLFactor.ONE]) ++
          [GLCmd.setUniform "u_light_type" (UVal.int eLightType.NO_LIGHT.toInt),
            GLCmd.setUniform "u_light_eq" (UVal.int eLightEq.NO_EQ.toInt), GLCmd.draw me]) := by
      simp [meshLightingPass, hlm, hlights]
    have hblend0 : ((if ma.alpha_mode = fw.BLEND then
            [GLCmd.enable GLCap.BLEND,
              GLCmd.blendFunc GLFactor.SRC_ALPHA GLFactor.ONE_MINUS_SRC_ALPHA]
          else [GLCmd.disable GLCap.BLEND, GLCmd.blendFunc GLFactor.SRC_ALPHA GLFactor.ONE]) :
          List (GLCmd D M)).filterMap GLCmd.drawnMesh = [] := by
      by_cases hb : ma.alpha_mode = fw.BLEND <;> simp [hb, GLCmd.drawnMesh]
    have hrun : renderMeshWithMaterial fw r call eRenderMode.FORWARD =
        Except.ok ([if ma.two_sided then GLCmd.disable GLCap.CULL_FACE
            else GLCmd.enable GLCap.CULL_FACE] ++ meshUniforms r call shader ++
          environmentUniform call ++ deferredFlagUniforms r eRenderMode.FORWARD ++ refl ++
          ((if ma.alpha_mode = fw.BLEND then
            [GLCmd.enable GLCap.BLEND,
              GLCmd.blendFunc GLFactor.SRC_ALPHA GLFactor.ONE_MINUS_SRC_ALPHA]
          else [GLCmd.disable GLCap.BLEND, GLCmd.blendFunc GLFactor.SRC_ALPHA GLFactor.ONE]) ++
          [GLCmd.setUniform "u_light_type" (UVal.int eLightType.NO_LIGHT.toInt),
            GLCmd.setUniform "u_light_eq" (UVal.int eLightEq.NO_EQ.toInt), GLCmd.draw me]) ++
          [GLCmd.shaderDisable shader, GLCmd.disable GLCap.BLEND,
            GLCmd.depthFunc GLDepthFunc.LESS]) := by
      unfold renderMeshWithMaterial
      simp only [hmesh, hmat, hverts, if_false, hfilter, hrefl, hpass, Except.bind,
        Except.map]
    refine ⟨_, hrun, ?_, ?_⟩
    · simp only [List.filterMap_append, hmu, henv, hflag, hrefl0, hblend0]
      by_cases hts : ma.two_sided = true <;> simp [hts, GLCmd.drawnMesh]
    · intro _
      refine ⟨[if ma.two_sided then GLCmd.disable GLCap.CULL_FACE
            else GLCmd.enable GLCap.CULL_FACE] ++ meshUniforms r call shader ++
          environmentUniform call ++ deferredFlagUniforms r eRenderMode.FORWARD ++ refl ++
          (if ma.alpha_mode = fw.BLEND then
            [GLCmd.enable GLCap.BLEND,
              GLCmd.blendFunc GLFactor.SRC_ALPHA GLFactor.ONE_MINUS_SRC_ALPHA]
          else [GLCmd.disable GLCap.BLEND, GLCmd.blendFunc GLFactor.SRC_ALPHA GLFactor.ONE]) ++
          [GLCmd.setUniform "u_light_type" (UVal.int eLightType.NO_LIGHT.toInt),
            GLCmd.setUniform "u_light_eq" (UVal.int eLightEq.NO_EQ.toInt)],
        [GLCmd.shaderDisable shader, GLCmd.disable GLCap.BLEND,
          GLCmd.depthFunc GLDepthFunc.LESS], ?_, ?_, ?_⟩
      · simp only [List.append_assoc, List.cons_append, List.nil_append]
      · exact lastUniform_append_set "u_light_type" _ _ _ (by
          intro c hc w
          simp only [List.mem_singleton] at hc
          subst hc
          simp)
      · have := lastUniform_append_set (D := D) (M := M) "u_light_eq"
          (UVal.int eLightEq.NO_EQ.toInt)
          ([if ma.two_sided then GLCmd.disable GLCap.CULL_FACE
            else GLCmd.enable GLCap.CULL_FACE] ++ meshUniforms r call shader ++
          environmentUniform call ++ deferredFlagUniforms r eRenderMode.FORWARD ++ refl ++
          (if ma.alpha_mode = fw.BLEND then
            [GLCmd.enable GLCap.BLEND,
              GLCmd.blendFunc GLFactor.SRC_ALPHA GLFactor.ONE_MINUS_SRC_ALPHA]
          else [GLCmd.disable GLCap.BLEND, GLCmd.blendFunc GLFactor.SRC_ALPHA GLFactor.ONE]) ++
          [GLCmd.setUniform "u_light_type" (UVal.int eLightType.NO_LIGHT.toInt)]) []
          (by intro c hc; simp at hc)
        simpa only [List.append_assoc, List.cons_append, List.nil_append] using this
  | SINGLE =>
    obtain ⟨sp, hsp, hsp1⟩ := renderSinglePass_no_lights r me hlights (hgrid hlm) (hatlas hlm)
    have hpass : meshLightingPass fw r me ma eRenderMode.FORWARD =
        Except.ok ((if ma.alpha_mode = fw.BLEND then
            [GLCmd.enable GLCap.BLEND,
              GLCmd.blendFunc GLFactor.SRC_ALPHA GLFactor.ONE_MINUS_SRC_ALPHA]
          else []) ++ sp) := by
      simp [meshLightingPass, hlm, hsp, Except.map]
    have hblend0 : ((if ma.alpha_mode = fw.BLEND then
            [GLCmd.enable GLCap.BLEND,
              GLCmd.blendFunc GLFactor.SRC_ALPHA GLFactor.ONE_MINUS_SRC_ALPHA]
          else []) : List (GLCmd D M)).filterMap GLCmd.drawnMesh = [] := by
      by_cases hb : ma.alpha_mode = fw.BLEND <;> simp [hb, GLCmd.drawnMesh]
    have hrun : renderMeshWithMaterial fw r call eRenderMode.FORWARD =
        Except.ok ([if ma.two_sided then GLCmd.disable GLCap.CULL_FACE
            else GLCmd.enable GLCap.CULL_FACE] ++ meshUniforms r call shader ++
          environmentUniform call ++ deferredFlagUniforms r eRenderMode.FORWARD ++ refl ++
          ((if ma.alpha_mode = fw.BLEND then
            [GLCmd.enable GLCap.BLEND,
              GLCmd.blendFunc GLFactor.SRC_ALPHA GLFactor.ONE_MINUS_SRC_ALPHA]
          else []) ++ sp) ++
          [GLCmd.shaderDisable shader, GLCmd.disable GLCap.BLEND,
            GLCmd.depthFunc GLDepthFunc.LESS]) := by
      unfold renderMeshWithMaterial
      simp only [hmesh, hmat, hverts, if_false, hfilter, hrefl, hpass, Except.bind,
        Except.map]
    refine ⟨_, hrun, ?_, ?_⟩
    · simp only [List.filterMap_append, hmu, henv, hflag, hrefl0, hblend0, hsp1]
      by_cases hts : ma.two_sided = true <;> simp [hts, GLCmd.drawnMesh]
    · intro h
      cases h

/-- Instance of C16: the forward multi-pass renderer before the first frame, one call
with mesh and material, every shader found. -/
theorem renderMeshWithMaterial_no_lights_witness :
    ∃ cmds, renderMeshWithMaterial lineFramework emptyRenderer (sampleCall "crate" 0 5)
        eRenderMode.FORWARD = Except.ok cmds ∧
      cmds.filterMap GLCmd.drawnMesh = [{ name := "crate" }] ∧
      (emptyRenderer.light_mode = eLightMode.MULTI →
        ∃ pre post, cmds = pre ++ GLCmd.draw { name := "crate" } :: post ∧
          lastUniform "u_light_type" pre = some (UVal.int eLightType.NO_LIGHT.toInt) ∧
          lastUniform "u_light_eq" pre = some (UVal.int eLightEq.NO_EQ.toInt)) :=
  renderMeshWithMaterial_no_lights lineFramework emptyRenderer (sampleCall "crate" 0 5)
    { name := "crate" } { name := "crate", alpha_mode := 0 } "light_multi" rfl rfl
    (by decide) rfl rfl rfl (by decide) (fun h => absurd h (by decide))
    (fun h => absurd h (by decide))

/-- C15 (code defect). With `max_lights + 1 = 101` lights in the list, the filling loop
of `renderSinglePass` writes the slots `0 .. 100` of arrays that have `max_lights = 100`
entries: the write to slot `100` is past their end, and the run does not complete. -/
theorem renderSinglePass_overflows_light_arrays :
    crowdedRenderer.lights.length = max_lights + 1 ∧
    (singlePassSlots crowdedRenderer.lights).map Prod.fst = List.range (max_lights + 1) ∧
    renderSinglePass crowdedRenderer { name := "crate" } =
      Except.error (Fault.arrayOverflow max_lights) := by
  refine ⟨rfl, rfl, rfl⟩

/-- C14 (code defect). In deferred mode without a directional light the quality-change
handling appends the null `directional_light` to `lights` and the loop then reads
`lights[i]->light_type` through it: the handling does not complete, for the new tier 2
and a renderer that holds one shadow-casting spot light and an atlas. -/
theorem renderDebugGUI_quality_change_null_directional_light :
    deferredSpotRenderer.render_mode = eRenderMode.DEFERRED ∧
    deferredSpotRenderer.directional_light = none ∧
    renderDebugGUIQualityChange 2 deferredSpotRenderer = Except.error Fault.nullLight := by
  refine ⟨rfl, rfl, rfl⟩

/-- C18 (code defect). With the shader `deferred_multi` absent (every other shader
found), `renderDeferred` on an empty scene does not return normally: it calls
`sh->enable()` on the null pointer that `Shader::Get("deferred_multi")` returned, where
`renderMeshWithMaterial`, `renderMeshWithMaterialShadow` and `renderToAtlas` test the
pointer and return. -/
theorem renderDeferred_missing_shader_aborts :
    (frameworkWithout "deferred_multi").shaderGet "deferred_multi" = false ∧
    renderDeferred (frameworkWithout "deferred_multi") deferredRenderer [] (0 : Int)
      { entities := [] } = Except.error (Fault.nullShader "deferred_multi") := by
  refine ⟨by decide, ?_⟩
  rfl

/-- The functions that test the shader pointer: when the lookup of the shader chosen for
the pipeline finds nothing, `renderMeshWithMaterial` returns normally without a draw;
when the lookup of `shadowmap` finds nothing, `renderMeshWithMaterialShadow` issues no
command and `renderToAtlas` returns normally without a cell, the renderer unchanged. -/
theorem missing_shader_skips_mesh_and_shadow_passes [LinearOrder A] [LinearOrder D]
    [DivisionRing D] (fw : Framework A D M V Cam) (r : Renderer A D M)
    (call : RenderCall A D M) (pipeline : eRenderMode) (quality : Nat)
    (light : LightEntity D M) :
    ((chooseShader r pipeline).filter fw.shaderGet = none →
      ∃ cmds, renderMeshWithMaterial fw r call pipeline = Except.ok cmds ∧
        cmds.filterMap GLCmd.drawnMesh = []) ∧
    (fw.shaderGet "shadowmap" = false →
      renderMeshWithMaterialShadowCommands fw call.model call.mesh call.material light = [] ∧
      renderMeshWithMaterialShadow fw call.model call.mesh call.material light = [] ∧
      renderToAtlas fw quality r = Except.ok (r, [])) := by
  refine ⟨?_, ?_⟩
  · intro hnone
    unfold renderMeshWithMaterial
    cases hme : call.mesh with
    | none => exact ⟨[], by simp, rfl⟩
    | some me =>
      cases hma : call.material with
      | none => exact ⟨[], by simp, rfl⟩
      | some ma =>
        by_cases hz : me.num_vertices = 0
        · exact ⟨[], by simp [hz], rfl⟩
        · refine ⟨[if ma.two_sided then GLCmd.disable GLCap.CULL_FACE
            else GLCmd.enable GLCap.CULL_FACE], by simp [hz, hnone], ?_⟩
          by_cases hts : ma.two_sided = true <;> simp [hts, GLCmd.drawnMesh]
  · intro hmissing
    refine ⟨?_, ?_, ?_⟩
    · unfold renderMeshWithMaterialShadowCommands
      cases call.mesh <;> cases call.material <;> simp [hmissing]
    · unfold renderMeshWithMaterialShadow
      cases call.mesh <;> cases call.material <;> simp [hmissing]
    · unfold renderToAtlas
      by_cases h0 : (r.shadow_count = 0 || r.calls.isEmpty) = true
      · simp only [h0, if_true]
      · simp only [h0, hmissing]
        simp

/-- C26 (failing input). The scene has a prefab and no reflection probe, so the call
that `fetchSceneEntities` builds has `probe == NULL`; with the `reflections` flag on,
`renderCalls` reaches `call.probe->cubemap` in `renderMeshWithMaterial` and does not
complete. -/
theorem renderCalls_reflections_without_probe :
    reflectiveRenderer.reflections = true ∧
    (fetchSceneEntities lineFramework insertionSortCalls crateScene 0 true true true true
        reflectiveRenderer).calls.map (fun c => (c.mesh.map (fun m => m.name), c.probe)) =
      [(some "crate", none)] ∧
    renderCalls lineFramework
        (fetchSceneEntities lineFramework insertionSortCalls crateScene 0 true true true true
          reflectiveRenderer)
        (fetchSceneEntities lineFramework insertionSortCalls crateScene 0 true true true true
          reflectiveRenderer).calls
        (0 : Int) crateScene eRenderMode.FORWARD = Except.error Fault.nullProbe := by
  refine ⟨rfl, by decide, rfl⟩

/-- C27 (failing input). Forward multi-pass mode, depth viewport on. The first frame
fetches two lights and its `renderShadowmaps` completes; the key `1` then sets
`depth_light = (0 + 1) % 2 = 1`; the next frame, with the camera moved, fetches one
light, and `renderShadowmaps` selects `lights[1]` in a vector of size 1. -/
theorem renderShadowmaps_depth_light_out_of_range :
    firstFrame.lights.map (fun l => l.name) = ["near lamp", "far lamp"] ∧
    (renderShadowmaps lineFramework firstFrame).toOption.isSome = true ∧
    afterKeyPress.depth_light = 1 ∧
    secondFrame.lights.map (fun l => l.name) = ["near lamp"] ∧
    (secondFrame.depth_viewport = true ∧ secondFrame.light_mode = eLightMode.MULTI ∧
      secondFrame.depth_light = 1) ∧
    renderShadowmaps lineFramework secondFrame = Except.error (Fault.vectorOutOfRange 1) := by
  refine ⟨by decide, by decide, by decide, by decide, by decide, ?_⟩
  rfl

/-! ## Graphics state at the draws -/

theorem GLState.run_append (s : GLState D M) (a b : List (GLCmd D M)) :
    s.run (a ++ b) = (s.run a).run b := by
  simp [GLState.run, List.foldl_append]

theorem statesAtDraws_append (s : GLState D M) (a b : List (GLCmd D M)) :
    statesAtDraws s (a ++ b) = statesAtDraws s a ++ statesAtDraws (s.run a) b := by
  induction a generalizing s with
  | nil => simp [statesAtDraws, GLState.run]
  | cons c a ih =>
    cases c <;> simp [statesAtDraws, GLState.run, GLState.step, ih]

theorem statesAtDraws_cons_of_not_draw (s : GLState D M) (c : GLCmd D M)
    (a : List (GLCmd D M)) (h : GLCmd.drawnMesh c = none) :
    statesAtDraws s (c :: a) = statesAtDraws (s.step c) a := by
  cases c <;> simp [statesAtDraws, GLCmd.drawnMesh] at h ⊢

theorem statesAtDraws_no_draw (s : GLState D M) (a : List (GLCmd D M))
    (h : a.filterMap GLCmd.drawnMesh = []) : statesAtDraws s a = [] := by
  induction a generalizing s with
  | nil => rfl
  | cons c a ih =>
    cases hc : GLCmd.drawnMesh c with
    | some m =>
      rw [List.filterMap_cons_some hc] at h
      exact absurd h (List.cons_ne_nil _ _)
    | none =>
      rw [List.filterMap_cons_none hc] at h
      rw [statesAtDraws_cons_of_not_draw s c a hc]
      exact ih _ h

/-- The uploads of `uploadLightParams`, for a light that owns a shadow target when it
casts shadows: they complete, hold no draw, leave the blend state, the ambient, emissive
and model uniforms alone, and set `u_light_type` and `u_shadows` from the light. -/
theorem uploadLightParams_props (light : LightEntity D M)
    (hfbo : light.cast_shadows = true → light.shadow_fbo ≠ none) :
    ∃ up : List (GLCmd D M), light.uploadLightParams = Except.ok up ∧
      up.filterMap GLCmd.drawnMesh = [] ∧
      ∀ s : GLState D M,
        (s.run up).blend = s.blend ∧ (s.run up).blendFunc = s.blendFunc ∧
        (s.run up).uniform "u_light_type" = some (UVal.int light.light_type.toInt) ∧
        (s.run up).uniform "u_shadows" = some (UVal.bool light.cast_shadows) ∧
        (s.run up).uniform "u_ambient_light" = s.uniform "u_ambient_light" ∧
        (s.run up).uniform "u_emissive" = s.uniform "u_emissive" ∧
        (s.run up).uniform "u_model" = s.uniform "u_model" := by
  unfold LightEntity.uploadLightParams
  by_cases hc : light.cast_shadows = true
  · cases hf : light.shadow_fbo with
    | none => exact absurd hf (hfbo hc)
    | some fbo =>
      simp only [hc, if_true, Except.map]
      refine ⟨_, rfl, ?_, ?_⟩
      · simp [GLCmd.drawnMesh, untrackedUniform]
      · intro s
        simp [GLState.run, GLState.step, untrackedUniform]
  · simp only [hc, Bool.false_eq_true, if_false, Except.map]
    refine ⟨_, rfl, ?_, ?_⟩
    · simp [GLCmd.drawnMesh, untrackedUniform]
    · intro s
      simp [GLState.run, GLState.step, untrackedUniform, hc]

/-- The commands that `renderMultiPass` issues before `uploadLightParams` for the light
of index `i`: no draw; for `i ≠ 0` they zero the ambient and emissive uniforms and make
blending additive in a state that is ready for it; and they keep a state ready. -/
theorem multiPassPrelude_props [LinearOrder A] (fw : Framework A D M V Cam) (ma : Material A)
    (pipeline : eRenderMode) (i : Nat) (s : GLState D M) :
    (multiPassPrelude fw (some ma) pipeline i : List (GLCmd D M)).filterMap
      GLCmd.drawnMesh = [] ∧
    (i ≠ 0 →
      (s.run (multiPassPrelude fw (some ma) pipeline i)).uniform "u_ambient_light" =
        some UVal.zero ∧
      (s.run (multiPassPrelude fw (some ma) pipeline i)).uniform "u_emissive" =
        some (if pipeline = eRenderMode.DEFERRED then UVal.bool false else UVal.zero) ∧
      (s.blendReady (decide (ma.alpha_mode = fw.BLEND)) →
        (s.run (multiPassPrelude fw (some ma) pipeline i)).additiveBlend)) ∧
    (s.blendReady (decide (ma.alpha_mode = fw.BLEND)) →
      (s.run (multiPassPrelude fw (some ma) pipeline i)).blendReady
        (decide (ma.alpha_mode = fw.BLEND))) := by
  by_cases hi : i = 0
  · subst hi
    simp [multiPassPrelude, GLState.run]
  · by_cases hb : ma.alpha_mode = fw.BLEND <;>
      by_cases hp : pipeline = eRenderMode.DEFERRED <;>
      simp [multiPassPrelude, hi, hb, hp, GLState.run, GLState.step, GLCmd.drawnMesh,
        GLState.blendReady, GLState.additiveBlend]

/-- The loop of `renderMultiPass` from the light of index `i` on, entered in the state
`s`: it completes, draws the mesh once per light, each draw issued with the type and
the shadow flag of its light, and every draw other than that of the light of index 0
is issued with zero ambient and emissive uniforms and, when `s` is ready for it, with
additive blending. -/
theorem multiPassLoop_states [LinearOrder A] (fw : Framework A D M V Cam) (mesh : Mesh)
    (ma : Material A) (pipeline : eRenderMode) (lights : List (LightEntity D M))
    (hfbo : ∀ l ∈ lights, l.cast_shadows = true → l.shadow_fbo ≠ none) (i : Nat)
    (s : GLState D M) :
    ∃ body, multiPassLoop fw mesh (some ma) pipeline lights i = Except.ok body ∧
      body.filterMap GLCmd.drawnMesh = List.replicate lights.length mesh ∧
      (statesAtDraws s body).map
          (fun st => (st.uniform "u_light_type", st.uniform "u_shadows")) =
        lights.map (fun l =>
          (some (UVal.int l.light_type.toInt), some (UVal.bool l.cast_shadows))) ∧
      ∀ k st, (statesAtDraws s body)[k]? = some st → i + k ≠ 0 →
        st.uniform "u_ambient_light" = some UVal.zero ∧
        st.uniform "u_emissive" =
          some (if pipeline = eRenderMode.DEFERRED then UVal.bool false else UVal.zero) ∧
        (s.blendReady (decide (ma.alpha_mode = fw.BLEND)) → st.additiveBlend) := by
  induction lights generalizing i s with
  | nil => exact ⟨[], rfl, rfl, rfl, by simp [statesAtDraws]⟩
  | cons light rest ih =>
    obtain ⟨up, hup, hup0, hups⟩ :=
      uploadLightParams_props light (hfbo light (List.mem_cons_self _ _))
    obtain ⟨hpre0, hpre1, hpre2⟩ := multiPassPrelude_props fw ma pipeline i s
    obtain ⟨hb1, hb2, ht1, ht2, ha1, he1, _⟩ :=
      hups (s.run (multiPassPrelude fw (some ma) pipeline i))
    obtain ⟨tail, htail, htail0, htail1, htail2⟩ :=
      ih (fun l hl => hfbo l (List.mem_cons_of_mem _ hl)) (i + 1)
        ((s.run (multiPassPrelude fw (some ma) pipeline i)).run up)
    have hrun : s.run (multiPassPrelude fw (some ma) pipeline i ++ up ++ [GLCmd.draw mesh]) =
        (s.run (multiPassPrelude fw (some ma) pipeline i)).run up := by
      rw [GLState.run_append, GLState.run_append]
      rfl
    have hstates : statesAtDraws s
        (multiPassPrelude fw (some ma) pipeline i ++ up ++ [GLCmd.draw mesh] ++ tail) =
        (s.run (multiPassPrelude fw (some ma) pipeline i)).run up ::
          statesAtDraws ((s.run (multiPassPrelude fw (some ma) pipeline i)).run up) tail := by
      rw [statesAtDraws_append, hrun, statesAtDraws_append,
        statesAtDraws_no_draw s _ (by rw [List.filterMap_append, hpre0, hup0]; rfl),
        GLState.run_append]
      rfl
    refine ⟨multiPassPrelude fw (some ma) pipeline i ++ up ++ [GLCmd.draw mesh] ++ tail,
      ?_, ?_, ?_, ?_⟩
    · rw [multiPassLoop, hup]
      simp only [Except.bind, htail, Except.map]
    · simp only [List.filterMap_append, hpre0, hup0, htail0, List.nil_append,
        List.length_cons, List.replicate_succ]
      rfl
    · rw [hstates, List.map_cons, List.map_cons, htail1, ht1, ht2]
    · intro k st hk hik
      rw [hstates] at hk
      have hready : s.blendReady (decide (ma.alpha_mode = fw.BLEND)) →
          ((s.run (multiPassPrelude fw (some ma) pipeline i)).run up).blendReady
            (decide (ma.alpha_mode = fw.BLEND)) := by
        intro hs
        have h1 := hpre2 hs
        unfold GLState.blendReady at h1 ⊢
        rw [hb1, hb2]
        exact h1
      cases k with
      | zero =>
        simp only [List.getElem?_cons_zero, Option.some.injEq] at hk
        subst hk
        have hi : i ≠ 0 := by omega
        obtain ⟨p1, p2, p3⟩ := hpre1 hi
        refine ⟨ha1.trans p1, he1.trans p2, ?_⟩
        intro hs
        have h1 := p3 hs
        unfold GLState.additiveBlend at h1 ⊢
        rw [hb1, hb2]
        exact h1
      | succ k =>
        simp only [List.getElem?_cons_succ] at hk
        obtain ⟨q1, q2, q3⟩ := htail2 k st hk (by omega)
        exact ⟨q1, q2, fun hs => q3 (hready hs)⟩

/-- A run of `irradianceUniforms` that completes leaves the blend state alone. -/
theorem irradianceUniforms_keeps_blend (r : Renderer A D M) (cmds : List (GLCmd D M))
    (h : irradianceUniforms r = Except.ok cmds) (s : GLState D M) :
    (s.run cmds).blend = s.blend ∧ (s.run cmds).blendFunc = s.blendFunc := by
  unfold irradianceUniforms at h
  by_cases hr : r.probes_texture = true
  · cases hg : r.grid with
    | none => simp [hr, hg] at h
    | some g =>
      simp only [hr, hg, if_true, Except.ok.injEq] at h
      subst h
      simp [GLState.run, GLState.step, untrackedUniform]
  · simp only [hr] at h
    simp only [Bool.false_eq_true, if_false, Except.ok.injEq] at h
    subst h
    simp [GLState.run]

/-- The run of `renderMeshWithMaterial` around its lighting pass: for a call with a mesh
that has vertices, a material, a shader that is found and a probe when reflections are
on, the commands are those of the lighting pass, preceded by commands without a draw
and followed by the restoring commands. -/
theorem renderMeshWithMaterial_of_pass [LinearOrder A] (fw : Framework A D M V Cam)
    (r : Renderer A D M) (call : RenderCall A D M) (me : Mesh) (ma : Material A)
    (shader : String) (pipeline : eRenderMode) (pass : List (GLCmd D M))
    (hmesh : call.mesh = some me) (hverts : me.num_vertices ≠ 0)
    (hmat : call.material = some ma)
    (hshader : (chooseShader r pipeline).filter fw.shaderGet = some shader)
    (hprobe : r.reflections = true → call.probe ≠ none)
    (hpass : meshLightingPass fw r me ma pipeline = Except.ok pass) :
    ∃ pre : List (GLCmd D M),
      renderMeshWithMaterial fw r call pipeline =
        Except.ok (pre ++ pass ++
          [GLCmd.shaderDisable shader, GLCmd.disable GLCap.BLEND,
            GLCmd.depthFunc GLDepthFunc.LESS]) ∧
      pre.filterMap GLCmd.drawnMesh = [] := by
  obtain ⟨refl, hrefl⟩ := reflectionUniforms_ok (D := D) r call hprobe
  have hrefl0 := reflectionUniforms_no_draw r call refl hrefl
  have hmu := meshUniforms_no_draw (D := D) r call shader
  have henv := environmentUniform_no_draw (D := D) call
  have hflag := deferredFlagUniforms_no_draw (D := D) (M := M) r pipeline
  refine ⟨[if ma.two_sided then GLCmd.disable GLCap.CULL_FACE
      else GLCmd.enable GLCap.CULL_FACE] ++ meshUniforms r call shader ++
      environmentUniform call ++ deferredFlagUniforms r pipeline ++ refl, ?_, ?_⟩
  · unfold renderMeshWithMaterial
    simp only [hmesh, hmat, hverts, if_false, hshader, hrefl, hpass, Except.bind, Except.map]
  · simp only [List.filterMap_append, hmu, henv, hflag, hrefl0]
    by_cases hts : ma.two_sided = true <;> simp [hts, GLCmd.drawnMesh]

/-- The method `renderMultiPass` on a material, with the grid there when the probes
texture is and a shadow target for every light that casts shadows: it completes, draws
the mesh once per light, each draw issued with the type and the shadow flag of its
light, and every draw but the first is issued with zero ambient and emissive uniforms
and, when the state at entry is ready for it, with additive blending. -/
theorem renderMultiPass_states [LinearOrder A] (fw : Framework A D M V Cam)
    (r : Renderer A D M) (mesh : Mesh) (ma : Material A) (pipeline : eRenderMode)
    (hgrid : r.probes_texture = true → r.grid ≠ none)
    (hfbo : ∀ l ∈ r.lights, l.cast_shadows = true → l.shadow_fbo ≠ none) :
    ∃ pass, renderMultiPass fw r mesh (some ma) pipeline = Except.ok pass ∧
      pass.filterMap GLCmd.drawnMesh = List.replicate r.lights.length mesh ∧
      ∀ s : GLState D M,
        (statesAtDraws s pass).map
            (fun st => (st.uniform "u_light_type", st.uniform "u_shadows")) =
          r.lights.map (fun l =>
            (some (UVal.int l.light_type.toInt), some (UVal.bool l.cast_shadows))) ∧
        ∀ k st, (statesAtDraws s pass)[k]? = some st → k ≠ 0 →
          st.uniform "u_ambient_light" = some UVal.zero ∧
          st.uniform "u_emissive" =
            some (if pipeline = eRenderMode.DEFERRED then UVal.bool false else UVal.zero) ∧
          (s.blendReady (decide (ma.alpha_mode = fw.BLEND)) → st.additiveBlend) := by
  obtain ⟨irr, hirr⟩ := irradianceUniforms_ok r hgrid
  have hirr0 := irradianceUniforms_no_draw r irr hirr
  obtain ⟨body, hbody, hbody0, _, _⟩ :=
    multiPassLoop_states fw mesh ma pipeline r.lights hfbo 0 GLState.unknown
  have hhead0 : ([GLCmd.enable GLCap.DEPTH_TEST, GLCmd.depthFunc GLDepthFunc.LEQUAL,
      GLCmd.setUniform "u_pcf" (UVal.bool r.pcf)] ++ irr ++
      [GLCmd.setUniform "u_irr" (UVal.bool r.activate_irr)] :
      List (GLCmd D M)).filterMap GLCmd.drawnMesh = [] := by
    simp [List.filterMap_append, hirr0, GLCmd.drawnMesh]
  refine ⟨[GLCmd.enable GLCap.DEPTH_TEST, GLCmd.depthFunc GLDepthFunc.LEQUAL,
      GLCmd.setUniform "u_pcf" (UVal.bool r.pcf)] ++ irr ++
      [GLCmd.setUniform "u_irr" (UVal.bool r.activate_irr)] ++ body, ?_, ?_, ?_⟩
  · unfold renderMultiPass
    simp only [hirr, hbody, Except.bind, Except.map]
  · rw [List.filterMap_append, hhead0, hbody0, List.nil_append]
  · intro s
    obtain ⟨body2, hbody2, _, hmap, hstates⟩ := multiPassLoop_states fw mesh ma pipeline
      r.lights hfbo 0
      (s.run ([GLCmd.enable GLCap.DEPTH_TEST, GLCmd.depthFunc GLDepthFunc.LEQUAL,
        GLCmd.setUniform "u_pcf" (UVal.bool r.pcf)] ++ irr ++
        [GLCmd.setUniform "u_irr" (UVal.bool r.activate_irr)]))
    have hsame : body2 = body := by
      rw [hbody] at hbody2
      exact (Except.ok.inj hbody2).symm
    subst hsame
    rw [statesAtDraws_append, statesAtDraws_no_draw s _ hhead0, List.nil_append]
    refine ⟨hmap, ?_⟩
    intro k st hk hk0
    obtain ⟨q1, q2, q3⟩ := hstates k st hk (by omega)
    refine ⟨q1, q2, fun hs => q3 ?_⟩
    obtain ⟨i1, i2⟩ := irradianceUniforms_keeps_blend r irr hirr
      (s.run [GLCmd.enable GLCap.DEPTH_TEST, GLCmd.depthFunc GLDepthFunc.LEQUAL,
        GLCmd.setUniform "u_pcf" (UVal.bool r.pcf)])
    unfold GLState.blendReady at hs ⊢
    rw [GLState.run_append, GLState.run_append]
    have e1 : (((s.run [GLCmd.enable GLCap.DEPTH_TEST, GLCmd.depthFunc GLDepthFunc.LEQUAL,
        GLCmd.setUniform "u_pcf" (UVal.bool r.pcf)]).run irr).run
        [GLCmd.setUniform "u_irr" (UVal.bool r.activate_irr)]).blend = s.blend := by
      simp [GLState.run, GLState.step] at i1 ⊢
      exact i1
    have e2 : (((s.run [GLCmd.enable GLCap.DEPTH_TEST, GLCmd.depthFunc GLDepthFunc.LEQUAL,
        GLCmd.setUniform "u_pcf" (UVal.bool r.pcf)]).run irr).run
        [GLCmd.setUniform "u_irr" (UVal.bool r.activate_irr)]).blendFunc = s.blendFunc := by
      simp [GLState.run, GLState.step] at i2 ⊢
      exact i2
    rw [e1, e2]
    exact hs

/-- The run of `renderMeshWithMaterial` through `renderMultiPass` (forward multi-pass
mode or the alpha overlay of the deferred pipeline, with a non-empty light list). -/
theorem renderMeshWithMaterial_multi_pass [LinearOrder A] (fw : Framework A D M V Cam)
    (r : Renderer A D M) (call : RenderCall A D M) (me : Mesh) (ma : Material A)
    (pipeline : eRenderMode)
    (hlights : r.lights ≠ [])
    (hmesh : call.mesh = some me) (hverts : me.num_vertices ≠ 0)
    (hmat : call.material = some ma)
    (hpipe : (pipeline = eRenderMode.FORWARD ∧ r.light_mode = eLightMode.MULTI)
      ∨ pipeline = eRenderMode.DEFERRED_ALPHA)
    (hshader : fw.shaderGet "light_multi" = true)
    (hprobe : r.reflections = true → call.probe ≠ none)
    (hgrid : r.probes_texture = true → r.grid ≠ none)
    (hfbo : ∀ l ∈ r.lights, l.cast_shadows = true → l.shadow_fbo ≠ none) :
    ∃ pre pass post,
      renderMultiPass fw r me (some ma) pipeline = Except.ok pass ∧
      renderMeshWithMaterial fw r call pipeline = Except.ok (pre ++ pass ++ post) ∧
      pre.filterMap GLCmd.drawnMesh = [] ∧ post.filterMap GLCmd.drawnMesh = [] ∧
      pass.filterMap GLCmd.drawnMesh = List.replicate r.lights.length me ∧
      ∀ s0 : GLState D M,
        (statesAtDraws (s0.run pre) pass).map
            (fun st => (st.uniform "u_light_type", st.uniform "u_shadows")) =
          r.lights.map (fun l =>
            (some (UVal.int l.light_type.toInt), some (UVal.bool l.cast_shadows))) ∧
        ∀ k st, 0 < k → (statesAtDraws (s0.run pre) pass)[k]? = some st →
          st.uniform "u_ambient_light" = some UVal.zero ∧
          st.uniform "u_emissive" = some UVal.zero ∧ st.additiveBlend := by
  obtain ⟨pass, hpass, hdraws, hst⟩ := renderMultiPass_states fw r me ma pipeline hgrid hfbo
  have hlen : r.lights.length ≠ 0 := by
    intro h
    exact hlights (List.length_eq_zero.mp h)
  have hnd : pipeline ≠ eRenderMode.DEFERRED := by
    rcases hpipe with ⟨h, _⟩ | h <;> rw [h] <;> decide
  have hlp : meshLightingPass fw r me ma pipeline =
      Except.ok ((if ma.alpha_mode = fw.BLEND then
          [GLCmd.enable GLCap.BLEND,
            GLCmd.blendFunc GLFactor.SRC_ALPHA GLFactor.ONE_MINUS_SRC_ALPHA]
        else [GLCmd.disable GLCap.BLEND, GLCmd.blendFunc GLFactor.SRC_ALPHA GLFactor.ONE]) ++
        pass) := by
    unfold meshLightingPass
    simp only [hpipe, if_true, hlen, if_false, hpass, Except.map]
  have hfilter : (chooseShader r pipeline).filter fw.shaderGet = some "light_multi" := by
    rcases hpipe with ⟨h1, h2⟩ | h <;> simp [chooseShader, *, Option.filter]
  obtain ⟨pre0, hrun, hpre0⟩ := renderMeshWithMaterial_of_pass fw r call me ma "light_multi"
    pipeline _ hmesh hverts hmat hfilter hprobe hlp
  have hblend0 : ((if ma.alpha_mode = fw.BLEND then
          [GLCmd.enable GLCap.BLEND,
            GLCmd.blendFunc GLFactor.SRC_ALPHA GLFactor.ONE_MINUS_SRC_ALPHA]
        else [GLCmd.disable GLCap.BLEND, GLCmd.blendFunc GLFactor.SRC_ALPHA GLFactor.ONE]) :
        List (GLCmd D M)).filterMap GLCmd.drawnMesh = [] := by
    by_cases hb : ma.alpha_mode = fw.BLEND <;> simp [hb, GLCmd.drawnMesh]
  refine ⟨pre0 ++ (if ma.alpha_mode = fw.BLEND then
          [GLCmd.enable GLCap.BLEND,
            GLCmd.blendFunc GLFactor.SRC_ALPHA GLFactor.ONE_MINUS_SRC_ALPHA]
        else [GLCmd.disable GLCap.BLEND, GLCmd.blendFunc GLFactor.SRC_ALPHA GLFactor.ONE]),
    pass, [GLCmd.shaderDisable "light_multi", GLCmd.disable GLCap.BLEND,
      GLCmd.depthFunc GLDepthFunc.LESS], hpass, ?_, ?_, ?_, hdraws, ?_⟩
  · rw [hrun]
    simp only [List.append_assoc]
  · rw [List.filterMap_append, hpre0, hblend0]
    rfl
  · simp [GLCmd.drawnMesh]
  · intro s0
    obtain ⟨hmap, hk⟩ := hst (s0.run (pre0 ++ (if ma.alpha_mode = fw.BLEND then
          [GLCmd.enable GLCap.BLEND,
            GLCmd.blendFunc GLFactor.SRC_ALPHA GLFactor.ONE_MINUS_SRC_ALPHA]
        else [GLCmd.disable GLCap.BLEND, GLCmd.blendFunc GLFactor.SRC_ALPHA GLFactor.ONE])))
    refine ⟨hmap, ?_⟩
    intro k st hk0 hst2
    obtain ⟨q1, q2, q3⟩ := hk k st hst2 (by omega)
    refine ⟨q1, ?_, q3 ?_⟩
    · rw [q2]
      simp only [hnd, if_false]
    · rw [GLState.run_append]
      by_cases hb : ma.alpha_mode = fw.BLEND <;>
        simp [hb, GLState.run, GLState.step, GLState.blendReady]

/-- C21. For a non-empty light list of `n` lights (each light that casts shadows owning
its shadow target), as called from `renderMeshWithMaterial` in forward multi-pass mode
or in the alpha overlay of the deferred pipeline, `renderMultiPass` completes and
submits exactly `n` draws of the mesh, the `k`-th issued with the type and the shadow
flag of the `k`-th light uploaded; every draw but the first is issued with the ambient
and emissive uniforms at zero and with blending enabled and a blend function whose
destination factor is `ONE`. The other draws of `renderMeshWithMaterial`: none. -/
theorem renderMultiPass_one_draw_per_light [LinearOrder A] (fw : Framework A D M V Cam)
    (r : Renderer A D M) (call : RenderCall A D M) (me : Mesh) (ma : Material A)
    (pipeline : eRenderMode)
    (hlights : r.lights ≠ [])
    (hmesh : call.mesh = some me) (hverts : me.num_vertices ≠ 0)
    (hmat : call.material = some ma)
    (hpipe : (pipeline = eRenderMode.FORWARD ∧ r.light_mode = eLightMode.MULTI)
      ∨ pipeline = eRenderMode.DEFERRED_ALPHA)
    (hshader : fw.shaderGet "light_multi" = true)
    (hprobe : r.reflections = true → call.probe ≠ none)
    (hgrid : r.probes_texture = true → r.grid ≠ none)
    (hfbo : ∀ l ∈ r.lights, l.cast_shadows = true → l.shadow_fbo ≠ none) :
    ∃ pre pass post,
      renderMultiPass fw r me (some ma) pipeline = Except.ok pass ∧
      renderMeshWithMaterial fw r call pipeline = Except.ok (pre ++ pass ++ post) ∧
      pre.filterMap GLCmd.drawnMesh = [] ∧ post.filterMap GLCmd.drawnMesh = [] ∧
      pass.filterMap GLCmd.drawnMesh = List.replicate r.lights.length me ∧
      ∀ s0 : GLState D M,
        (statesAtDraws (s0.run pre) pass).map
            (fun st => (st.uniform "u_light_type", st.uniform "u_shadows")) =
          r.lights.map (fun l =>
            (some (UVal.int l.light_type.toInt), some (UVal.bool l.cast_shadows))) ∧
        ∀ k st, 0 < k → (statesAtDraws (s0.run pre) pass)[k]? = some st →
          st.uniform "u_ambient_light" = some UVal.zero ∧
          st.uniform "u_emissive" = some UVal.zero ∧ st.additiveBlend :=
  renderMeshWithMaterial_multi_pass fw r call me ma pipeline hlights hmesh hverts hmat hpipe
    hshader hprobe hgrid hfbo

/-- Instance of C21: the forward multi-pass renderer with two spot lights, one call. -/
theorem renderMultiPass_one_draw_per_light_witness :
    ∃ pre pass post,
      renderMultiPass lineFramework twoLightForwardRenderer { name := "crate" }
        (some { name := "crate", alpha_mode := 0 }) eRenderMode.FORWARD = Except.ok pass ∧
      renderMeshWithMaterial lineFramework twoLightForwardRenderer (sampleCall "crate" 0 5)
        eRenderMode.FORWARD = Except.ok (pre ++ pass ++ post) ∧
      pre.filterMap GLCmd.drawnMesh = [] ∧ post.filterMap GLCmd.drawnMesh = [] ∧
      pass.filterMap GLCmd.drawnMesh =
        List.replicate twoLightForwardRenderer.lights.length { name := "crate" } ∧
      ∀ s0 : GLState ℚ Int,
        (statesAtDraws (s0.run pre) pass).map
            (fun st => (st.uniform "u_light_type", st.uniform "u_shadows")) =
          twoLightForwardRenderer.lights.map (fun l =>
            (some (UVal.int l.light_type.toInt), some (UVal.bool l.cast_shadows))) ∧
        ∀ k st, 0 < k → (statesAtDraws (s0.run pre) pass)[k]? = some st →
          st.uniform "u_ambient_light" = some UVal.zero ∧
          st.uniform "u_emissive" = some UVal.zero ∧ st.additiveBlend :=
  renderMultiPass_one_draw_per_light lineFramework twoLightForwardRenderer
    (sampleCall "crate" 0 5) { name := "crate" } { name := "crate", alpha_mode := 0 }
    eRenderMode.FORWARD (List.cons_ne_nil _ _) rfl (by decide) rfl (Or.inl ⟨rfl, rfl⟩) rfl
    (fun h => absurd h (by decide)) (fun h => absurd h (by decide)) (by decide)

end MeshPassTheorems

/-! ## Post-processing chain -/

section PostFXTheorems

variable {A D M V Cam : Type}

/-- The labels of the blur passes. -/
theorem blurPasses_names (n : Nat) (b : Bool) :
    (blurPasses n b).map PostStage.name = List.replicate n "blur" := by
  induction n generalizing b with
  | zero => rfl
  | succ n ih => simp [blurPasses, List.replicate_succ, ih]

/-- The shaders of the blur passes. -/
theorem blurPasses_shaders (n : Nat) (b : Bool) :
    (blurPasses n b).filterMap PostStage.shader = List.replicate n "blur" := by
  induction n generalizing b with
  | zero => rfl
  | succ n ih => simp [blurPasses, List.replicate_succ, ih]

/-- The flags `horizontal` of the blur passes alternate, starting with `b`. -/
theorem blurPasses_horizontal (n : Nat) (b : Bool) :
    (blurPasses n b).filterMap PostStage.horizontal =
      (List.range n).map (fun i => if i % 2 = 0 then b else !b) := by
  induction n generalizing b with
  | zero => rfl
  | succ n ih =>
    rw [List.range_succ_eq_map, blurPasses, List.filterMap_cons_some (f := PostStage.horizontal) (b := b) rfl, ih]
    simp only [List.map_cons, List.map_map, Nat.zero_mod, if_true]
    congr 1
    apply List.map_congr_left
    intro i _
    simp only [Function.comp_apply, Nat.succ_eq_add_one]
    rcases Nat.mod_two_eq_zero_or_one i with h | h
    · have h1 : (i + 1) % 2 = 1 := by omega
      simp [h, h1]
    · have h1 : (i + 1) % 2 = 0 := by omega
      simp [h, h1]

/-- No blur pass is on the main chain. -/
theorem blurPasses_off_main_chain (n : Nat) (b : Bool) :
    (blurPasses n b).filter PostStage.onMainChain = [] := by
  induction n generalizing b with
  | zero => rfl
  | succ n ih =>
    rw [blurPasses, List.filter_cons_of_neg (by simp [PostStage.onMainChain])]
    exact ih _

/-- C20. When the eight post-processing shaders are found, the post-processing chain of
`renderToFBO` completes, for every renderer state, and its passes are in order: fxaa,
the copy into the blur texture, `blur_iterations` blur passes whose flag `horizontal`
alternates starting with true, dof, motionblur, the bloom extraction of `applyBloom`,
the additive bloom composite, ca, grain, hdr. The passes of the main chain (those that
render into `ping`, `pong` or the screen) are fxaa, dof, motionblur, bloom composite,
ca, grain, hdr, and each of them from dof on has among its colour inputs the scratch
texture `ping` or `pong` into which the main-chain pass before it rendered. -/
theorem renderToFBO_post_chain [LinearOrder A] [LinearOrder D] (fw : Framework A D M V Cam)
    (r : Renderer A D M) (hshaders : ∀ name ∈ postShaders, fw.shaderGet name = true) :
    ∃ stages, renderToFBOPostFX fw r = Except.ok stages ∧
      stages.map PostStage.name =
        ["fxaa", "copy"] ++ List.replicate r.blur_iterations "blur" ++
          ["dof", "motionblur", "bloom", "bloom composite", "ca", "grain", "hdr"] ∧
      stages.filterMap PostStage.shader =
        ["fxaa"] ++ List.replicate r.blur_iterations "blur" ++
          ["dof", "motionblur", "bloom", "ca", "grain", "hdr"] ∧
      stages.filterMap PostStage.horizontal =
        (List.range r.blur_iterations).map (fun i => decide (i % 2 = 0)) ∧
      (stages.filter PostStage.onMainChain).map PostStage.name =
        ["fxaa", "dof", "motionblur", "bloom composite", "ca", "grain", "hdr"] ∧
      List.Chain'
        (fun s t => (s.target = "ping" ∨ s.target = "pong") ∧ s.target ∈ t.colourInputs)
        (stages.filter PostStage.onMainChain) := by
  have h1 : fw.shaderGet "fxaa" = true := hshaders _ (by decide)
  have h2 : fw.shaderGet "blur" = true := hshaders _ (by decide)
  have h3 : fw.shaderGet "dof" = true := hshaders _ (by decide)
  have h4 : fw.shaderGet "motionblur" = true := hshaders _ (by decide)
  have h5 : fw.shaderGet "bloom" = true := hshaders _ (by decide)
  have h6 : fw.shaderGet "ca" = true := hshaders _ (by decide)
  have h7 : fw.shaderGet "grain" = true := hshaders _ (by decide)
  have h8 : fw.shaderGet "hdr" = true := hshaders _ (by decide)
  simp only [renderToFBOPostFX, requireShader, h1, h2, h3, h4, h5, h6, h7, h8, if_true,
    Except.bind, Except.map]
  refine ⟨_, rfl, ?_, ?_, ?_, ?_, ?_⟩
  · simp [blurPasses_names]
  · simp [List.filterMap_append, blurPasses_shaders]
  · simp only [List.filterMap_append, blurPasses_horizontal]
    simp
  · simp only [List.filter_append, blurPasses_off_main_chain]
    decide
  · simp only [List.filter_append, blurPasses_off_main_chain]
    simp [PostStage.onMainChain, PostStage.colourInputs]

/-- Instance of C20: every shader found, the renderer before the first frame (ten blur
iterations). -/
theorem renderToFBO_post_chain_witness :
    (∀ name ∈ postShaders, lineFramework.shaderGet name = true) ∧
    ∃ stages, renderToFBOPostFX lineFramework emptyRenderer = Except.ok stages ∧
      stages.map PostStage.name =
        ["fxaa", "copy"] ++ List.replicate emptyRenderer.blur_iterations "blur" ++
          ["dof", "motionblur", "bloom", "bloom composite", "ca", "grain", "hdr"] ∧
      stages.filterMap PostStage.shader =
        ["fxaa"] ++ List.replicate emptyRenderer.blur_iterations "blur" ++
          ["dof", "motionblur", "bloom", "ca", "grain", "hdr"] ∧
      stages.filterMap PostStage.horizontal =
        (List.range emptyRenderer.blur_iterations).map (fun i => decide (i % 2 = 0)) ∧
      (stages.filter PostStage.onMainChain).map PostStage.name =
        ["fxaa", "dof", "motionblur", "bloom composite", "ca", "grain", "hdr"] ∧
      List.Chain'
        (fun s t => (s.target = "ping" ∨ s.target = "pong") ∧ s.target ∈ t.colourInputs)
        (stages.filter PostStage.onMainChain) :=
  ⟨fun _ _ => rfl, renderToFBO_post_chain lineFramework emptyRenderer (fun _ _ => rfl)⟩

end PostFXTheorems

/-! ## Fetch of calls and lights -/

section FetchTheorems

variable {A D M V Cam : Type}

theorem forall₂_right_of {α β : Type} (R : α → β → Prop) (P : β → Prop) (l₁ : List α)
    (l₂ : List β) (h : List.Forall₂ R l₁ l₂) (hP : ∀ a b, R a b → P b) : ∀ b ∈ l₂, P b := by
  induction h with
  | nil => simp
  | cons hab _ ih =>
    intro b hb
    rw [List.mem_cons] at hb
    rcases hb with hb | hb
    · subst hb
      exact hP _ _ hab
    · exact ih b hb

/-- One iteration of the entity loop appends the calls of the drawable nodes of the
entity, when it is a visible prefab entity, and no call otherwise. -/
theorem fetchEntity_calls [LinearOrder A] [LinearOrder D] [Zero D]
    (fw : Framework A D M V Cam) (camera : Cam) (fl fp fg : Bool) (r : Renderer A D M)
    (ent : BaseEntity A D M) :
    ∃ appended, (fetchEntity fw camera true fl fp fg r ent).calls = r.calls ++ appended ∧
      List.Forall₂
        (fun p c => CallBuiltFrom fw p c ∧ c.mesh.isSome = true ∧ c.material.isSome = true)
        (entityDrawableNodes ent) appended := by
  cases ent with
  | prefab name visible model pent =>
    cases visible with
    | false =>
      exact ⟨[], by simp [fetchEntity, BaseEntity.visible], by simp [entityDrawableNodes]⟩
    | true =>
      cases pent with
      | none =>
        exact ⟨[], by simp [fetchEntity, BaseEntity.visible], by simp [entityDrawableNodes]⟩
      | some root =>
        obtain ⟨appended, h1, h2⟩ := getCallsFromNode_related fw model root (some camera) r
          (fun n c => CallBuiltFrom fw (model, n) c ∧ c.mesh.isSome = true ∧
            c.material.isSome = true)
          (by
            intro n me ma hme hma
            obtain ⟨b1, b2, b3⟩ := buildCall_fields fw r.reflection_probes (some camera)
              (fw.mul n.getGlobalMatrix model) me ma
            simp [CallBuiltFrom, b1, b2, b3, hme, hma])
        refine ⟨appended, ?_, ?_⟩
        · simpa [fetchEntity, BaseEntity.visible, getCallsFromPrefab] using h1
        · simp only [entityDrawableNodes]
          exact List.forall₂_map_left_iff.mpr h2
  | light l =>
    refine ⟨[], ?_, by simp [entityDrawableNodes]⟩
    simp only [fetchEntity, BaseEntity.visible, List.append_nil]
    split_ifs <;> rfl
  | reflection_probe pent =>
    refine ⟨[], ?_, by simp [entityDrawableNodes]⟩
    simp only [fetchEntity, BaseEntity.visible, List.append_nil]
    split_ifs <;> rfl
  | irradiance_grid g =>
    refine ⟨[], ?_, by simp [entityDrawableNodes]⟩
    simp only [fetchEntity, BaseEntity.visible, List.append_nil]
    split_ifs <;> rfl
  | other t v m =>
    refine ⟨[], ?_, by simp [entityDrawableNodes]⟩
    simp only [fetchEntity, BaseEntity.visible, List.append_nil]
    split_ifs <;> rfl

/-- The entity loop appends, in entity order, the calls of the drawable nodes of the
visible prefab entities. -/
theorem fetchEntities_calls [LinearOrder A] [LinearOrder D] [Zero D]
    (fw : Framework A D M V Cam) (camera : Cam) (fl fp fg : Bool)
    (entities : List (BaseEntity A D M)) (r : Renderer A D M) :
    ∃ appended,
      (entities.foldl (fetchEntity fw camera true fl fp fg) r).calls = r.calls ++ appended ∧
      List.Forall₂
        (fun p c => CallBuiltFrom fw p c ∧ c.mesh.isSome = true ∧ c.material.isSome = true)
        (entities.flatMap entityDrawableNodes) appended := by
  induction entities generalizing r with
  | nil => exact ⟨[], by simp, by simp⟩
  | cons e es ih =>
    obtain ⟨a1, h1, f1⟩ := fetchEntity_calls fw camera fl fp fg r e
    obtain ⟨a2, h2, f2⟩ := ih (fetchEntity fw camera true fl fp fg r e)
    refine ⟨a1 ++ a2, ?_, ?_⟩
    · rw [List.foldl_cons, h2, h1, List.append_assoc]
    · rw [List.flatMap_cons]
      exact List.rel_append f1 f2

/-- The calls that the entity loop of `fetchSceneEntities` leaves, before the sort. -/
theorem fetchLoop_calls [LinearOrder A] [LinearOrder D] [Zero D]
    (fw : Framework A D M V Cam) (scene : Scene A D M) (camera : Cam) (fl fp fg : Bool)
    (r : Renderer A D M) :
    List.Forall₂
      (fun p c => CallBuiltFrom fw p c ∧ c.mesh.isSome = true ∧ c.material.isSome = true)
      (sceneDrawableNodes scene) (fetchLoop fw scene camera true fl fp fg r).calls := by
  have key : ∀ r0 : Renderer A D M, r0.calls = [] →
      List.Forall₂
        (fun p c => CallBuiltFrom fw p c ∧ c.mesh.isSome = true ∧ c.material.isSome = true)
        (sceneDrawableNodes scene)
        (scene.entities.foldl (fetchEntity fw camera true fl fp fg) r0).calls := by
    intro r0 h0
    obtain ⟨appended, h1, h2⟩ := fetchEntities_calls fw camera fl fp fg scene.entities r0
    rw [h1, h0, List.nil_append]
    exact h2
  dsimp only [fetchLoop]
  apply key
  cases fl <;> cases fp <;> rfl

/-- C28. After `fetchSceneEntities` with `fetch_prefabs = true`, provided `std::sort`
met its postcondition on the traversed calls: `calls` is a permutation of the list of
calls built, in entity order, for the drawable nodes of the visible prefab entities
(each with the mesh, the material and the composed matrix of its node), whatever
`calls` held before; and every call in it has a non-null mesh and a non-null material. -/
theorem fetchSceneEntities_calls_permutation [LinearOrder A] [LinearOrder D] [Zero D]
    (fw : Framework A D M V Cam) (sort : List (RenderCall A D M) → List (RenderCall A D M))
    (scene : Scene A D M) (camera : Cam) (fetch_lights fetch_probes fetch_grid : Bool)
    (r : Renderer A D M)
    (hsort : StdSortPost
      (fetchLoop fw scene camera true fetch_lights fetch_probes fetch_grid r).calls
      (sort (fetchLoop fw scene camera true fetch_lights fetch_probes fetch_grid r).calls)) :
    ∃ traversed,
      List.Forall₂ (CallBuiltFrom fw) (sceneDrawableNodes scene) traversed ∧
      (fetchSceneEntities fw sort scene camera true fetch_lights fetch_probes
        fetch_grid r).calls.Perm traversed ∧
      ∀ c ∈ (fetchSceneEntities fw sort scene camera true fetch_lights fetch_probes
        fetch_grid r).calls, c.mesh ≠ none ∧ c.material ≠ none := by
  have hloop := fetchLoop_calls fw scene camera fetch_lights fetch_probes fetch_grid r
  have hcalls : (fetchSceneEntities fw sort scene camera true fetch_lights fetch_probes
      fetch_grid r).calls =
      sort (fetchLoop fw scene camera true fetch_lights fetch_probes fetch_grid r).calls := by
    simp [fetchSceneEntities]
  refine ⟨(fetchLoop fw scene camera true fetch_lights fetch_probes fetch_grid r).calls,
    hloop.imp (fun _ _ h => h.1), ?_, ?_⟩
  · rw [hcalls]
    exact hsort.1
  · intro c hc
    rw [hcalls] at hc
    have hc2 := hsort.1.mem_iff.mp hc
    have hsome : c.mesh.isSome = true ∧ c.material.isSome = true := forall₂_right_of _
      (fun c : RenderCall A D M => c.mesh.isSome = true ∧ c.material.isSome = true) _ _ hloop
      (fun _ _ h => h.2) c hc2
    constructor
    · intro hn
      rw [hn] at hsome
      simp at hsome
    · intro hn
      rw [hn] at hsome
      simp at hsome

/-- Instance of C28: the scene of three prefabs, sorted by the insertion sort. -/
theorem fetchSceneEntities_calls_permutation_witness :
    ∃ traversed,
      List.Forall₂ (CallBuiltFrom lineFramework) (sceneDrawableNodes threePrefabScene)
        traversed ∧
      (fetchSceneEntities lineFramework insertionSortCalls threePrefabScene 0 true true true
        true emptyRenderer).calls.Perm traversed ∧
      ∀ c ∈ (fetchSceneEntities lineFramework insertionSortCalls threePrefabScene 0 true true
        true true emptyRenderer).calls, c.mesh ≠ none ∧ c.material ≠ none :=
  fetchSceneEntities_calls_permutation lineFramework insertionSortCalls threePrefabScene 0
    true true true emptyRenderer (by decide)

/-- One iteration of the entity loop with `fetch_lights = true`: the render mode is
kept, a visible light that is listed is appended to `lights`, and in `DEFERRED` mode a
visible directional light replaces `directional_light`. -/
theorem fetchEntity_lights [LinearOrder A] [LinearOrder D] [Zero D]
    (fw : Framework A D M V Cam) (camera : Cam) (fpre fpro fg : Bool) (r : Renderer A D M)
    (ent : BaseEntity A D M) :
    (fetchEntity fw camera fpre true fpro fg r ent).render_mode = r.render_mode ∧
    (fetchEntity fw camera fpre true fpro fg r ent).lights =
      r.lights ++ (entityVisibleLight ent).toList.filter (lightListed fw camera r.render_mode) ∧
    (fetchEntity fw camera fpre true fpro fg r ent).directional_light =
      if r.render_mode = eRenderMode.DEFERRED then
        (((entityVisibleLight ent).toList.filter
          (fun l => decide (l.light_type = eLightType.DIRECTIONAL))).getLast?).or
          r.directional_light
      else r.directional_light := by
  cases ent with
  | prefab name visible model pent =>
    cases visible <;> cases fpre <;> cases pent <;>
      simp [fetchEntity, BaseEntity.visible, entityVisibleLight, getCallsFromPrefab,
        getCallsFromNode_eq fw model _ (some camera) r [] (by simp)]
  | light l =>
    by_cases hv : l.visible = true <;>
      by_cases hd : l.light_type = eLightType.DIRECTIONAL <;>
      by_cases hm : r.render_mode = eRenderMode.DEFERRED <;>
      by_cases hb : l.lightBounding fw camera = true <;>
      by_cases hp : l.light_type = eLightType.POINT <;>
      simp [fetchEntity, BaseEntity.visible, entityVisibleLight, lightListed, hv, hd, hm, hb,
        hp]
  | reflection_probe pent =>
    cases fpro <;> cases hv : pent.visible <;>
      simp [fetchEntity, BaseEntity.visible, entityVisibleLight, hv]
  | irradiance_grid g =>
    cases fg <;> cases hv : g.visible <;>
      simp [fetchEntity, BaseEntity.visible, entityVisibleLight, hv]
  | other t v m =>
    cases v <;> simp [fetchEntity, BaseEntity.visible, entityVisibleLight]

/-- The entity loop with `fetch_lights = true`, from any renderer state. -/
theorem fetchEntities_lights [LinearOrder A] [LinearOrder D] [Zero D]
    (fw : Framework A D M V Cam) (camera : Cam) (fpre fpro fg : Bool)
    (entities : List (BaseEntity A D M)) (r : Renderer A D M) :
    (entities.foldl (fetchEntity fw camera fpre true fpro fg) r).render_mode = r.render_mode ∧
    (entities.foldl (fetchEntity fw camera fpre true fpro fg) r).lights =
      r.lights ++
        (entities.filterMap entityVisibleLight).filter (lightListed fw camera r.render_mode) ∧
    (entities.foldl (fetchEntity fw camera fpre true fpro fg) r).directional_light =
      if r.render_mode = eRenderMode.DEFERRED then
        (((entities.filterMap entityVisibleLight).filter
          (fun l => decide (l.light_type = eLightType.DIRECTIONAL))).getLast?).or
          r.directional_light
      else r.directional_light := by
  induction entities generalizing r with
  | nil => simp
  | cons e es ih =>
    obtain ⟨m1, l1, d1⟩ := fetchEntity_lights fw camera fpre fpro fg r e
    obtain ⟨m2, l2, d2⟩ := ih (fetchEntity fw camera fpre true fpro fg r e)
    rw [List.foldl_cons]
    refine ⟨m2.trans m1, ?_, ?_⟩
    · rw [l2, l1, m1]
      cases hl : entityVisibleLight e with
      | none => simp [List.filterMap_cons_none hl]
      | some l =>
        rw [List.filterMap_cons_some hl, Option.toList_some, List.append_assoc,
          ← List.filter_append]
        rfl
    · rw [d2, d1, m1]
      by_cases hm : r.render_mode = eRenderMode.DEFERRED
      · simp only [hm, if_true]
        cases hl : entityVisibleLight e with
        | none => simp [List.filterMap_cons_none hl]
        | some l =>
          rw [List.filterMap_cons_some hl, Option.toList_some,
            show l :: List.filterMap entityVisibleLight es =
              [l] ++ List.filterMap entityVisibleLight es from rfl,
            List.filter_append, List.getLast?_append, Option.or_assoc]
      · simp only [hm, if_false]

/-- The lights and the directional light that `fetchSceneEntities` leaves with
`fetch_lights = true`. -/
theorem fetched_lights_eq [LinearOrder A] [LinearOrder D] [Zero D]
    (fw : Framework A D M V Cam) (sort : List (RenderCall A D M) → List (RenderCall A D M))
    (scene : Scene A D M) (camera : Cam) (fetch_prefabs fetch_probes fetch_grid : Bool)
    (r : Renderer A D M) :
    (fetchSceneEntities fw sort scene camera fetch_prefabs true fetch_probes
        fetch_grid r).lights =
      (visibleLights scene).filter (lightListed fw camera r.render_mode) ∧
    (fetchSceneEntities fw sort scene camera fetch_prefabs true fetch_probes
        fetch_grid r).directional_light =
      (if r.render_mode = eRenderMode.DEFERRED then
        ((visibleLights scene).filter
          (fun l => decide (l.light_type = eLightType.DIRECTIONAL))).getLast?
      else none) ∧
    (fetchSceneEntities fw sort scene camera fetch_prefabs true fetch_probes
        fetch_grid r).lights.filter
      (fun l => decide (r.render_mode = eRenderMode.DEFERRED ∧
        l.light_type = eLightType.DIRECTIONAL)) = [] := by
  have key : ∀ r0 : Renderer A D M, r0.render_mode = r.render_mode → r0.lights = [] →
      r0.directional_light = none →
      (scene.entities.foldl (fetchEntity fw camera fetch_prefabs true fetch_probes
        fetch_grid) r0).lights =
        (visibleLights scene).filter (lightListed fw camera r.render_mode) ∧
      (scene.entities.foldl (fetchEntity fw camera fetch_prefabs true fetch_probes
        fetch_grid) r0).directional_light =
        (if r.render_mode = eRenderMode.DEFERRED then
          ((visibleLights scene).filter
            (fun l => decide (l.light_type = eLightType.DIRECTIONAL))).getLast?
        else none) := by
    intro r0 hm hl hd
    obtain ⟨_, l1, d1⟩ := fetchEntities_lights fw camera fetch_prefabs fetch_probes
      fetch_grid scene.entities r0
    rw [l1, d1, hm, hl, hd]
    simp [visibleLights]
  have hloop : (fetchLoop fw scene camera fetch_prefabs true fetch_probes fetch_grid r).lights =
        (visibleLights scene).filter (lightListed fw camera r.render_mode) ∧
      (fetchLoop fw scene camera fetch_prefabs true fetch_probes
        fetch_grid r).directional_light =
        (if r.render_mode = eRenderMode.DEFERRED then
          ((visibleLights scene).filter
            (fun l => decide (l.light_type = eLightType.DIRECTIONAL))).getLast?
        else none) := by
    dsimp only [fetchLoop]
    apply key
    · cases fetch_prefabs <;> cases fetch_probes <;> rfl
    · cases fetch_prefabs <;> cases fetch_probes <;> rfl
    · cases fetch_prefabs <;> cases fetch_probes <;> rfl
  have hlights : (fetchSceneEntities fw sort scene camera fetch_prefabs true fetch_probes
      fetch_grid r).lights =
      (fetchLoop fw scene camera fetch_prefabs true fetch_probes fetch_grid r).lights := by
    cases fetch_prefabs <;> rfl
  have hdir : (fetchSceneEntities fw sort scene camera fetch_prefabs true fetch_probes
      fetch_grid r).directional_light =
      (fetchLoop fw scene camera fetch_prefabs true fetch_probes
        fetch_grid r).directional_light := by
    cases fetch_prefabs <;> rfl
  refine ⟨hlights.trans hloop.1, hdir.trans hloop.2, ?_⟩
  rw [hlights, hloop.1, List.filter_filter]
  rw [List.filter_eq_nil_iff]
  intro l _
  by_cases hm : r.render_mode = eRenderMode.DEFERRED <;>
    by_cases hd : l.light_type = eLightType.DIRECTIONAL <;>
    simp [lightListed, hm, hd]

/-- C29. After `fetchSceneEntities` with `fetch_lights = true`, from any renderer state:
`lights` holds, in entity order, the visible lights that are listed for the render mode
(in `DEFERRED` mode the lights that are not `DIRECTIONAL` and pass `lightBounding`; in
any other mode the `DIRECTIONAL` lights and the lights that pass `lightBounding`);
`directional_light` is in `DEFERRED` mode the last visible `DIRECTIONAL` light in entity
order (null when there is none) and null in any other mode; and in `DEFERRED` mode
`lights` holds no `DIRECTIONAL` light. -/
theorem fetchSceneEntities_lights [LinearOrder A] [LinearOrder D] [Zero D]
    (fw : Framework A D M V Cam) (sort : List (RenderCall A D M) → List (RenderCall A D M))
    (scene : Scene A D M) (camera : Cam) (fetch_prefabs fetch_probes fetch_grid : Bool)
    (r : Renderer A D M) :
    (fetchSceneEntities fw sort scene camera fetch_prefabs true fetch_probes
        fetch_grid r).lights =
      (visibleLights scene).filter (lightListed fw camera r.render_mode) ∧
    (fetchSceneEntities fw sort scene camera fetch_prefabs true fetch_probes
        fetch_grid r).directional_light =
      (if r.render_mode = eRenderMode.DEFERRED then
        ((visibleLights scene).filter
          (fun l => decide (l.light_type = eLightType.DIRECTIONAL))).getLast?
      else none) ∧
    (fetchSceneEntities fw sort scene camera fetch_prefabs true fetch_probes
        fetch_grid r).lights.filter
      (fun l => decide (r.render_mode = eRenderMode.DEFERRED ∧
        l.light_type = eLightType.DIRECTIONAL)) = [] :=
  fetched_lights_eq fw sort scene camera fetch_prefabs fetch_probes fetch_grid r

/-! ## Light volumes of the deferred pipeline -/

/-- The loop of `renderMultiPassSphere`, entered in the state `s`: it completes, draws
the sphere once per light, and each draw is issued with the model matrix of its light
uploaded. -/
theorem sphereLoop_states (fw : Framework A D M V Cam) (lights : List (LightEntity D M))
    (hfbo : ∀ l ∈ lights, l.cast_shadows = true → l.shadow_fbo ≠ none) (s : GLState D M) :
    ∃ body, sphereLoop fw lights = Except.ok body ∧
      body.filterMap GLCmd.drawnMesh = List.replicate lights.length sphereMesh ∧
      (statesAtDraws s body).map (fun st => st.uniform "u_model") =
        lights.map (fun l =>
          some (UVal.matrix (fw.sphereModel (fw.getTranslation l.model) l.max_distance))) := by
  induction lights generalizing s with
  | nil => exact ⟨[], rfl, rfl, rfl⟩
  | cons light rest ih =>
    obtain ⟨up, hup, hup0, hups⟩ :=
      uploadLightParams_props light (hfbo light (List.mem_cons_self _ _))
    obtain ⟨_, _, _, _, _, _, hmodel⟩ := hups
      (s.run [untrackedUniform "u_viewprojection",
        GLCmd.setUniform "u_model"
          (UVal.matrix (fw.sphereModel (fw.getTranslation light.model) light.max_distance))])
    have hstate : (s.run ([untrackedUniform "u_viewprojection",
        GLCmd.setUniform "u_model"
          (UVal.matrix (fw.sphereModel (fw.getTranslation light.model) light.max_distance))]
        ++ up)).uniform "u_model" =
        some (UVal.matrix (fw.sphereModel (fw.getTranslation light.model)
          light.max_distance)) := by
      rw [GLState.run_append, hmodel]
      simp [GLState.run, GLState.step, untrackedUniform]
    obtain ⟨tail, htail, htail0, htail1⟩ :=
      ih (fun l hl => hfbo l (List.mem_cons_of_mem _ hl))
        (s.run ([untrackedUniform "u_viewprojection",
          GLCmd.setUniform "u_model"
            (UVal.matrix (fw.sphereModel (fw.getTranslation light.model) light.max_distance))]
          ++ up))
    have hhead0 : ([untrackedUniform "u_viewprojection",
        GLCmd.setUniform "u_model"
          (UVal.matrix (fw.sphereModel (fw.getTranslation light.model) light.max_distance))]
        ++ up : List (GLCmd D M)).filterMap GLCmd.drawnMesh = [] := by
      rw [List.filterMap_append, hup0]
      simp [GLCmd.drawnMesh, untrackedUniform]
    refine ⟨[untrackedUniform "u_viewprojection",
        GLCmd.setUniform "u_model"
          (UVal.matrix (fw.sphereModel (fw.getTranslation light.model) light.max_distance))]
        ++ up ++ [GLCmd.frontFace GLWinding.CW, GLCmd.draw sphereMesh] ++ tail, ?_, ?_, ?_⟩
    · rw [sphereLoop, hup]
      simp only [Except.bind, htail, Except.map]
    · rw [List.filterMap_append, List.filterMap_append, hhead0, htail0]
      simp [GLCmd.drawnMesh, List.replicate_succ]
    · have hrun : s.run ([untrackedUniform "u_viewprojection",
          GLCmd.setUniform "u_model"
            (UVal.matrix (fw.sphereModel (fw.getTranslation light.model) light.max_distance))]
          ++ up ++ [GLCmd.frontFace GLWinding.CW, GLCmd.draw sphereMesh]) =
          s.run ([untrackedUniform "u_viewprojection",
          GLCmd.setUniform "u_model"
            (UVal.matrix (fw.sphereModel (fw.getTranslation light.model) light.max_distance))]
          ++ up) := by
        rw [GLState.run_append]
        rfl
      have hstates : statesAtDraws s ([untrackedUniform "u_viewprojection",
          GLCmd.setUniform "u_model"
            (UVal.matrix (fw.sphereModel (fw.getTranslation light.model) light.max_distance))]
          ++ up ++ [GLCmd.frontFace GLWinding.CW, GLCmd.draw sphereMesh] ++ tail) =
          s.run ([untrackedUniform "u_viewprojection",
          GLCmd.setUniform "u_model"
            (UVal.matrix (fw.sphereModel (fw.getTranslation light.model) light.max_distance))]
          ++ up) ::
          statesAtDraws (s.run ([untrackedUniform "u_viewprojection",
          GLCmd.setUniform "u_model"
            (UVal.matrix (fw.sphereModel (fw.getTranslation light.model) light.max_distance))]
          ++ up)) tail := by
        rw [statesAtDraws_append, hrun, statesAtDraws_append,
          statesAtDraws_no_draw s _ hhead0]
        rfl
      rw [hstates, List.map_cons, List.map_cons, htail1, hstate]

/-- C22. In deferred mode, after `fetchSceneEntities` with `fetch_lights = true` on a
scene whose visible shadow-casting lights own their shadow target: `lights` holds the
visible lights that are not `DIRECTIONAL` and pass `lightBounding`, and
`renderMultiPassSphere` completes, draws the sphere exactly once for each of them, in
order, and nothing else, each sphere issued with the model matrix `translation to the
light position, scaled by max_distance` of its light. -/
theorem renderMultiPassSphere_one_sphere_per_light [LinearOrder A] [LinearOrder D] [Zero D]
    (fw : Framework A D M V Cam) (sort : List (RenderCall A D M) → List (RenderCall A D M))
    (scene : Scene A D M) (camera : Cam) (fetch_prefabs fetch_probes fetch_grid : Bool)
    (r : Renderer A D M) (sh : String)
    (hmode : r.render_mode = eRenderMode.DEFERRED)
    (hfbo : ∀ l ∈ visibleLights scene, l.cast_shadows = true → l.shadow_fbo ≠ none) :
    (fetchSceneEntities fw sort scene camera fetch_prefabs true fetch_probes
        fetch_grid r).lights =
      (visibleLights scene).filter
        (fun l => decide (l.light_type ≠ eLightType.DIRECTIONAL) && l.lightBounding fw camera) ∧
    ∃ cmds,
      renderMultiPassSphere fw
        (fetchSceneEntities fw sort scene camera fetch_prefabs true fetch_probes fetch_grid r)
        sh = Except.ok cmds ∧
      cmds.filterMap GLCmd.drawnMesh =
        List.replicate (fetchSceneEntities fw sort scene camera fetch_prefabs true
          fetch_probes fetch_grid r).lights.length sphereMesh ∧
      ∀ s0 : GLState D M,
        (statesAtDraws s0 cmds).map (fun st => st.uniform "u_model") =
          (fetchSceneEntities fw sort scene camera fetch_prefabs true fetch_probes
            fetch_grid r).lights.map (fun l =>
              some (UVal.matrix
                (fw.sphereModel (fw.getTranslation l.model) l.max_distance))) := by
  obtain ⟨hl, _, _⟩ := fetched_lights_eq fw sort scene camera fetch_prefabs
    fetch_probes fetch_grid r
  have hl2 : (fetchSceneEntities fw sort scene camera fetch_prefabs true fetch_probes
      fetch_grid r).lights =
      (visibleLights scene).filter
        (fun l => decide (l.light_type ≠ eLightType.DIRECTIONAL) &&
          l.lightBounding fw camera) := by
    rw [hl]
    apply List.filter_congr
    intro l _
    simp [lightListed, hmode]
  have hfbo2 : ∀ l ∈ (fetchSceneEntities fw sort scene camera fetch_prefabs true
      fetch_probes fetch_grid r).lights, l.cast_shadows = true → l.shadow_fbo ≠ none := by
    intro l hmem
    rw [hl2] at hmem
    exact hfbo l (List.mem_filter.mp hmem).1
  refine ⟨hl2, ?_⟩
  generalize fetchSceneEntities fw sort scene camera fetch_prefabs true fetch_probes
    fetch_grid r = r1 at hfbo2 ⊢
  obtain ⟨body, hbody, hbody0, _⟩ := sphereLoop_states fw r1.lights hfbo2 GLState.unknown
  have hhead0 : ([GLCmd.enable GLCap.BLEND, GLCmd.blendFunc GLFactor.ONE GLFactor.ONE,
      GLCmd.enable GLCap.CULL_FACE, GLCmd.setUniform "u_ambient_light" UVal.zero,
      GLCmd.setUniform "u_emissive" (UVal.bool false),
      GLCmd.setUniform "u_back" (UVal.bool false),
      GLCmd.setUniform "u_light_eq" (UVal.int r1.light_eq.toInt),
      untrackedUniform "u_camera_position", GLCmd.setUniform "u_pcf" (UVal.bool r1.pcf)] :
      List (GLCmd D M)).filterMap GLCmd.drawnMesh = [] := by
    simp [GLCmd.drawnMesh, untrackedUniform]
  have hfoot0 : ([GLCmd.shaderDisable sh, GLCmd.disable GLCap.DEPTH_TEST,
      GLCmd.disable GLCap.BLEND, GLCmd.frontFace GLWinding.CCW] :
      List (GLCmd D M)).filterMap GLCmd.drawnMesh = [] := by
    simp [GLCmd.drawnMesh]
  refine ⟨_, by
    unfold renderMultiPassSphere
    rw [hbody]
    rfl, ?_, ?_⟩
  · rw [List.filterMap_append, List.filterMap_append, hhead0, hfoot0, hbody0]
    simp
  · intro s0
    obtain ⟨body2, hbody2, _, hmap⟩ := sphereLoop_states fw r1.lights hfbo2
      (s0.run [GLCmd.enable GLCap.BLEND, GLCmd.blendFunc GLFactor.ONE GLFactor.ONE,
        GLCmd.enable GLCap.CULL_FACE, GLCmd.setUniform "u_ambient_light" UVal.zero,
        GLCmd.setUniform "u_emissive" (UVal.bool false),
        GLCmd.setUniform "u_back" (UVal.bool false),
        GLCmd.setUniform "u_light_eq" (UVal.int r1.light_eq.toInt),
        untrackedUniform "u_camera_position", GLCmd.setUniform "u_pcf" (UVal.bool r1.pcf)])
    have hsame : body2 = body := by
      rw [hbody] at hbody2
      exact (Except.ok.inj hbody2).symm
    subst hsame
    rw [statesAtDraws_append, statesAtDraws_append, statesAtDraws_no_draw s0 _ hhead0,
      statesAtDraws_no_draw _ _ hfoot0, List.nil_append, List.append_nil, hmap]

/-- Instance of C22: the deferred renderer on the scene with two lamps and a
directional light between them, the camera at 100. -/
theorem renderMultiPassSphere_one_sphere_per_light_witness :
    (fetchSceneEntities lineFramework insertionSortCalls sunLampScene 100 true true true
        true deferredRenderer).lights =
      (visibleLights sunLampScene).filter
        (fun l => decide (l.light_type ≠ eLightType.DIRECTIONAL) &&
          l.lightBounding lineFramework 100) ∧
    ∃ cmds,
      renderMultiPassSphere lineFramework
        (fetchSceneEntities lineFramework insertionSortCalls sunLampScene 100 true true true
          true deferredRenderer)
        "deferred_ws" = Except.ok cmds ∧
      cmds.filterMap GLCmd.drawnMesh =
        List.replicate (fetchSceneEntities lineFramework insertionSortCalls sunLampScene 100
          true true true true deferredRenderer).lights.length sphereMesh ∧
      ∀ s0 : GLState ℚ Int,
        (statesAtDraws s0 cmds).map (fun st => st.uniform "u_model") =
          (fetchSceneEntities lineFramework insertionSortCalls sunLampScene 100 true true
            true true deferredRenderer).lights.map (fun l =>
              some (UVal.matrix
                (lineFramework.sphereModel (lineFramework.getTranslation l.model)
                  l.max_distance))) :=
  renderMultiPassSphere_one_sphere_per_light lineFramework insertionSortCalls sunLampScene
    100 true true true deferredRenderer "deferred_ws" rfl (by decide)

/-! ## Geometry pass and alpha overlay of the deferred pipeline -/

/-- The draws of `renderMeshWithMaterial` in the pipeline `DEFERRED`: the mesh once when
dithering is on or the alpha mode is `NO_ALPHA`, nothing otherwise. -/
theorem renderMeshWithMaterial_geometry_draws [LinearOrder A] (fw : Framework A D M V Cam)
    (r : Renderer A D M) (call : RenderCall A D M) (me : Mesh) (ma : Material A)
    (hmesh : call.mesh = some me) (hverts : me.num_vertices ≠ 0)
    (hmat : call.material = some ma)
    (hshader : fw.shaderGet "gbuffers" = true)
    (hprobe : r.reflections = true → call.probe ≠ none)
    (hgrid : r.probes_texture = true → r.grid ≠ none) :
    ∃ cmds, renderMeshWithMaterial fw r call eRenderMode.DEFERRED = Except.ok cmds ∧
      cmds.filterMap GLCmd.drawnMesh =
        if (r.dithering || decide (ma.alpha_mode = fw.NO_ALPHA)) = true then [me] else [] := by
  obtain ⟨irr, hirr⟩ := irradianceUniforms_ok r hgrid
  have hirr0 := irradianceUniforms_no_draw r irr hirr
  have hlp : meshLightingPass fw r me ma eRenderMode.DEFERRED =
      Except.ok (irr ++ [GLCmd.setUniform "u_irr" (UVal.bool r.probes_texture)] ++
        (if (r.dithering || decide (ma.alpha_mode = fw.NO_ALPHA)) = true then [GLCmd.draw me]
          else [])) := by
    unfold meshLightingPass
    simp [hirr, Except.map]
  have hfilter : (chooseShader r eRenderMode.DEFERRED).filter fw.shaderGet =
      some "gbuffers" := by
    simp [chooseShader, Option.filter, hshader]
  obtain ⟨pre0, hrun, hpre0⟩ := renderMeshWithMaterial_of_pass fw r call me ma "gbuffers"
    eRenderMode.DEFERRED _ hmesh hverts hmat hfilter hprobe hlp
  refine ⟨_, hrun, ?_⟩
  simp only [List.filterMap_append, hpre0, hirr0]
  by_cases hd : (r.dithering || decide (ma.alpha_mode = fw.NO_ALPHA)) = true <;>
    simp [hd, GLCmd.drawnMesh]

/-- The draws of `renderMeshWithMaterial` in the pipeline `DEFERRED_ALPHA`: the mesh once
per light, and once when there is no light. -/
theorem renderMeshWithMaterial_overlay_draws [LinearOrder A] (fw : Framework A D M V Cam)
    (r : Renderer A D M) (call : RenderCall A D M) (me : Mesh) (ma : Material A)
    (hmesh : call.mesh = some me) (hverts : me.num_vertices ≠ 0)
    (hmat : call.material = some ma)
    (hshader : fw.shaderGet "light_multi" = true)
    (hprobe : r.reflections = true → call.probe ≠ none)
    (hgrid : r.probes_texture = true → r.grid ≠ none)
    (hfbo : ∀ l ∈ r.lights, l.cast_shadows = true → l.shadow_fbo ≠ none) :
    ∃ cmds, renderMeshWithMaterial fw r call eRenderMode.DEFERRED_ALPHA = Except.ok cmds ∧
      cmds.filterMap GLCmd.drawnMesh = List.replicate (max 1 r.lights.length) me := by
  by_cases hl : r.lights = []
  · have hlp : meshLightingPass fw r me ma eRenderMode.DEFERRED_ALPHA =
        Except.ok ((if ma.alpha_mode = fw.BLEND then
            [GLCmd.enable GLCap.BLEND,
              GLCmd.blendFunc GLFactor.SRC_ALPHA GLFactor.ONE_MINUS_SRC_ALPHA]
          else [GLCmd.disable GLCap.BLEND, GLCmd.blendFunc GLFactor.SRC_ALPHA GLFactor.ONE]) ++
          [GLCmd.setUniform "u_light_type" (UVal.int eLightType.NO_LIGHT.toInt),
            GLCmd.setUniform "u_light_eq" (UVal.int eLightEq.NO_EQ.toInt), GLCmd.draw me]) := by
      simp [meshLightingPass, hl]
    have hfilter : (chooseShader r eRenderMode.DEFERRED_ALPHA).filter fw.shaderGet =
        some "light_multi" := by
      simp [chooseShader, Option.filter, hshader]
    obtain ⟨pre0, hrun, hpre0⟩ := renderMeshWithMaterial_of_pass fw r call me ma
      "light_multi" eRenderMode.DEFERRED_ALPHA _ hmesh hverts hmat hfilter hprobe hlp
    refine ⟨_, hrun, ?_⟩
    simp only [List.filterMap_append, hpre0, hl]
    by_cases hb : ma.alpha_mode = fw.BLEND <;> simp [hb, GLCmd.drawnMesh]
  · obtain ⟨pre, pass, post, _, hrun, hpre0, hpost0, hpass0, _⟩ :=
      renderMeshWithMaterial_multi_pass fw r call me ma eRenderMode.DEFERRED_ALPHA hl hmesh
        hverts hmat (Or.inr rfl) hshader hprobe hgrid hfbo
    refine ⟨_, hrun, ?_⟩
    have hlen : 1 ≤ r.lights.length := by
      cases hls : r.lights with
      | nil => exact absurd hls hl
      | cons a b => simp
    rw [List.filterMap_append, List.filterMap_append, hpre0, hpost0, hpass0,
      List.nil_append, List.append_nil, Nat.max_eq_right hlen]

/-- A call whose mesh holds no vertex leaves `renderMeshWithMaterial` at its first test:
no command is issued, in any pipeline. -/
theorem renderMeshWithMaterial_no_vertices [LinearOrder A] (fw : Framework A D M V Cam)
    (r : Renderer A D M) (call : RenderCall A D M) (me : Mesh) (pipeline : eRenderMode)
    (hmesh : call.mesh = some me) (hverts : me.num_vertices = 0) :
    renderMeshWithMaterial fw r call pipeline = Except.ok [] := by
  unfold renderMeshWithMaterial
  cases hma : call.material with
  | none => simp [hmesh]
  | some ma => simp [hmesh, hverts]

/-- The draws of the geometry loop of `renderGBuffers`, in order: the mesh of every call
that passes the frustum test of the camera, has a vertex and, unless dithering is on,
has the alpha mode `NO_ALPHA`. -/
theorem renderCallsLoop_geometry_draws [LinearOrder A] (fw : Framework A D M V Cam)
    (r : Renderer A D M) (camera : Cam) (calls : List (RenderCall A D M))
    (hcalls : ∀ c ∈ calls, ∃ me ma, c.mesh = some me ∧ c.material = some ma)
    (hshader : fw.shaderGet "gbuffers" = true)
    (hprobe : r.reflections = true → ∀ c ∈ calls, c.probe ≠ none)
    (hgrid : r.probes_texture = true → r.grid ≠ none) :
    ∃ cmds, renderCallsLoop fw r camera eRenderMode.DEFERRED calls = Except.ok cmds ∧
      cmds.filterMap GLCmd.drawnMesh =
        (calls.filter (fun c => c.inCameraFrustum fw camera && c.hasVertices &&
          (r.dithering || c.hasAlphaMode fw.NO_ALPHA))).flatMap (RenderCall.drawnTimes 1) := by
  induction calls with
  | nil => exact ⟨[], rfl, rfl⟩
  | cons call rest ih =>
    obtain ⟨me, ma, hme, hma⟩ := hcalls call (List.mem_cons_self _ _)
    obtain ⟨tail, htail, htail0⟩ := ih (fun c hc => hcalls c (List.mem_cons_of_mem _ hc))
      (fun hr c hc => hprobe hr c (List.mem_cons_of_mem _ hc))
    by_cases ht : fw.cameraFrustumTest camera call.model me = true
    · by_cases hv : me.num_vertices = 0
      · refine ⟨tail, ?_, ?_⟩
        · rw [renderCallsLoop]
          simp only [hme, ht, if_true, renderMeshWithMaterial_no_vertices fw r call me _ hme hv,
            Except.bind, htail, Except.map, List.nil_append]
        · rw [htail0, List.filter_cons_of_neg (by
            simp [RenderCall.hasVertices, hme, hv])]
      · obtain ⟨here, hhere, hhere0⟩ := renderMeshWithMaterial_geometry_draws fw r call me ma
          hme hv hma hshader (fun hr => hprobe hr call (List.mem_cons_self _ _)) hgrid
        refine ⟨here ++ tail, ?_, ?_⟩
        · rw [renderCallsLoop]
          simp only [hme, ht, if_true, hhere, Except.bind, htail, Except.map]
        · rw [List.filterMap_append, hhere0, htail0]
          by_cases hd : (r.dithering || decide (ma.alpha_mode = fw.NO_ALPHA)) = true
          · rw [List.filter_cons_of_pos (by
              simp only [RenderCall.inCameraFrustum, RenderCall.hasVertices,
                RenderCall.hasAlphaMode, hme, hma, ht, hd, hv, ne_eq, not_false_eq_true,
                decide_True, Bool.and_true])]
            simp [hd, RenderCall.drawnTimes, hme]
          · rw [List.filter_cons_of_neg (by
              simp only [RenderCall.inCameraFrustum, RenderCall.hasAlphaMode, hme, hma, ht, hd,
                Bool.and_false, Bool.false_eq_true, not_false_eq_true])]
            simp [hd]
    · refine ⟨tail, ?_, ?_⟩
      · rw [renderCallsLoop]
        simp only [hme, ht, Bool.false_eq_true, if_false, Except.bind, htail, Except.map,
          List.nil_append]
      · rw [htail0, List.filter_cons_of_neg (by
          simp only [RenderCall.inCameraFrustum, hme, ht, Bool.false_and,
            Bool.false_eq_true, not_false_eq_true])]

/-- The draws of the alpha forward loop of `renderDeferred`, in order: for every call
that passes the frustum test of the camera, has a vertex and whose alpha mode is not
`NO_ALPHA`, the mesh once per light (once when there is no light). -/
theorem alphaForwardLoop_draws [LinearOrder A] (fw : Framework A D M V Cam)
    (r : Renderer A D M) (camera : Cam) (calls : List (RenderCall A D M))
    (hcalls : ∀ c ∈ calls, ∃ me ma, c.mesh = some me ∧ c.material = some ma)
    (hshader : fw.shaderGet "light_multi" = true)
    (hprobe : r.reflections = true → ∀ c ∈ calls, c.probe ≠ none)
    (hgrid : r.probes_texture = true → r.grid ≠ none)
    (hfbo : ∀ l ∈ r.lights, l.cast_shadows = true → l.shadow_fbo ≠ none) :
    ∃ cmds, alphaForwardLoop fw r camera calls = Except.ok cmds ∧
      cmds.filterMap GLCmd.drawnMesh =
        (calls.filter (fun c => c.inCameraFrustum fw camera && c.hasVertices &&
          !c.hasAlphaMode fw.NO_ALPHA)).flatMap
          (RenderCall.drawnTimes (max 1 r.lights.length)) := by
  induction calls with
  | nil => exact ⟨[], rfl, rfl⟩
  | cons call rest ih =>
    obtain ⟨me, ma, hme, hma⟩ := hcalls call (List.mem_cons_self _ _)
    obtain ⟨tail, htail, htail0⟩ := ih (fun c hc => hcalls c (List.mem_cons_of_mem _ hc))
      (fun hr c hc => hprobe hr c (List.mem_cons_of_mem _ hc))
    by_cases ha : ma.alpha_mode = fw.NO_ALPHA
    · refine ⟨tail, ?_, ?_⟩
      · rw [alphaForwardLoop]
        simp only [hma, ha, if_true, htail]
      · rw [htail0, List.filter_cons_of_neg (by
          simp [RenderCall.hasAlphaMode, hma, ha])]
    · by_cases ht : fw.cameraFrustumTest camera call.model me = true
      · by_cases hv : me.num_vertices = 0
        · refine ⟨tail, ?_, ?_⟩
          · rw [alphaForwardLoop]
            simp only [hma, ha, if_false, hme, ht, if_true,
              renderMeshWithMaterial_no_vertices fw r call me _ hme hv, Except.bind, htail,
              Except.map, List.nil_append]
          · rw [htail0, List.filter_cons_of_neg (by
              simp [RenderCall.hasVertices, hme, hv])]
        · obtain ⟨here, hhere, hhere0⟩ := renderMeshWithMaterial_overlay_draws fw r call me
            ma hme hv hma hshader (fun hr => hprobe hr call (List.mem_cons_self _ _)) hgrid
            hfbo
          refine ⟨here ++ tail, ?_, ?_⟩
          · rw [alphaForwardLoop]
            simp only [hma, ha, if_false, hme, ht, if_true, hhere, Except.bind, htail,
              Except.map]
          · rw [List.filterMap_append, hhere0, htail0, List.filter_cons_of_pos (by
              simp [RenderCall.inCameraFrustum, RenderCall.hasVertices,
                RenderCall.hasAlphaMode, hme, hma, ht, ha, hv])]
            simp [RenderCall.drawnTimes, hme]
      · refine ⟨tail, ?_, ?_⟩
        · rw [alphaForwardLoop]
          simp only [hma, ha, if_false, hme, ht, Bool.false_eq_true, Except.bind, htail,
            Except.map, List.nil_append]
        · rw [htail0, List.filter_cons_of_neg (by
            simp [RenderCall.inCameraFrustum, hme, ht])]

/-- C23 (counterexample). The call fetched from `huskScene` has a mesh without vertices
and a material of alpha mode `NO_ALPHA`, and it passes the frustum test of the camera;
with dithering off, the geometry loop of `renderGBuffers` and the alpha forward overlay
of `renderDeferred` both complete without a draw: the call is drawn in neither pass. -/
theorem renderDeferred_zero_vertex_call_not_drawn :
    huskRenderer.calls.map (fun c => (c.mesh, c.inCameraFrustum lineFramework (0 : Int),
        c.hasAlphaMode lineFramework.NO_ALPHA)) =
      [(some { name := "husk", num_vertices := 0 }, true, true)] ∧
    huskRenderer.render_mode = eRenderMode.DEFERRED ∧
    huskRenderer.dithering = false ∧
    (renderCallsLoop lineFramework huskRenderer (0 : Int) huskRenderer.render_mode
        huskRenderer.calls).map (fun cmds => cmds.filterMap GLCmd.drawnMesh) =
      Except.ok [] ∧
    (alphaForwardPass lineFramework huskRenderer (0 : Int) huskRenderer.calls).map
        (fun overlay => overlay.2.filterMap GLCmd.drawnMesh) = Except.ok [] := by
  refine ⟨by decide, rfl, rfl, rfl, rfl⟩

/-- C23 (amended). In the deferred pipeline (`render_mode = DEFERRED`), for calls that
have a mesh and a material, with the shaders `gbuffers` and `light_multi` found and the
pointers read on the way set: the geometry loop of `renderGBuffers` and the alpha
forward overlay of `renderDeferred` complete; the geometry loop draws, in order, the
mesh of every call that passes the frustum test of the camera, whose mesh has a vertex
and, with dithering off, whose alpha mode is `NO_ALPHA` (with dithering on, of every call
that passes the test and has a vertex); the overlay draws nothing with dithering on and,
with dithering off, the mesh of every call that passes the test, has a vertex and whose
alpha mode is not `NO_ALPHA`, once per light of the list it leaves (once when that list
is empty). A call whose mesh has no vertex is drawn in neither pass. -/
theorem renderDeferred_geometry_and_alpha_overlay [LinearOrder A]
    (fw : Framework A D M V Cam) (r : Renderer A D M) (camera : Cam)
    (calls : List (RenderCall A D M))
    (hmode : r.render_mode = eRenderMode.DEFERRED)
    (hcalls : ∀ c ∈ calls, ∃ me ma, c.mesh = some me ∧ c.material = some ma)
    (hgbuffers : fw.shaderGet "gbuffers" = true)
    (hmulti : fw.shaderGet "light_multi" = true)
    (hprobe : r.reflections = true → ∀ c ∈ calls, c.probe ≠ none)
    (hgrid : r.probes_texture = true → r.grid ≠ none)
    (hfbo : ∀ l ∈ r.lights, l.cast_shadows = true → l.shadow_fbo ≠ none)
    (hdir : ∀ dl, r.directional_light = some dl → dl.cast_shadows = true →
      dl.shadow_fbo ≠ none) :
    ∃ geometry overlay,
      renderCallsLoop fw r camera r.render_mode calls = Except.ok geometry ∧
      alphaForwardPass fw r camera calls = Except.ok overlay ∧
      geometry.filterMap GLCmd.drawnMesh =
        (calls.filter (fun c => c.inCameraFrustum fw camera && c.hasVertices &&
          (r.dithering || c.hasAlphaMode fw.NO_ALPHA))).flatMap (RenderCall.drawnTimes 1) ∧
      overlay.2.filterMap GLCmd.drawnMesh =
        if r.dithering = true then []
        else
          (calls.filter (fun c => c.inCameraFrustum fw camera && c.hasVertices &&
            !c.hasAlphaMode fw.NO_ALPHA)).flatMap
            (RenderCall.drawnTimes (max 1 overlay.1.lights.length)) := by
  obtain ⟨geometry, hgeo, hgeo0⟩ :=
    renderCallsLoop_geometry_draws fw r camera calls hcalls hgbuffers hprobe hgrid
  rw [← hmode] at hgeo
  by_cases hd : r.dithering = true
  · refine ⟨geometry, (r, []), hgeo, ?_, hgeo0, ?_⟩
    · simp [alphaForwardPass, hd]
    · simp [hd]
  · have key : ∀ r1 : Renderer A D M, r1.reflections = r.reflections →
        r1.probes_texture = r.probes_texture → r1.grid = r.grid →
        (∀ l ∈ r1.lights, l.cast_shadows = true → l.shadow_fbo ≠ none) →
        ∃ overlay : Renderer A D M × List (GLCmd D M),
          (alphaForwardLoop fw r1 camera calls).map (fun cmds => (r1, cmds)) =
            Except.ok overlay ∧
          overlay.2.filterMap GLCmd.drawnMesh =
            (calls.filter (fun c => c.inCameraFrustum fw camera && c.hasVertices &&
              !c.hasAlphaMode fw.NO_ALPHA)).flatMap
              (RenderCall.drawnTimes (max 1 overlay.1.lights.length)) := by
      intro r1 h1 h2 h3 h4
      obtain ⟨cmds, hcmds, hcmds0⟩ := alphaForwardLoop_draws fw r1 camera calls hcalls hmulti
        (by rw [h1]; exact hprobe) (by rw [h2, h3]; exact hgrid) h4
      exact ⟨(r1, cmds), by rw [hcmds]; rfl, hcmds0⟩
    have hover : ∃ overlay : Renderer A D M × List (GLCmd D M),
        alphaForwardPass fw r camera calls = Except.ok overlay ∧
        overlay.2.filterMap GLCmd.drawnMesh =
          (calls.filter (fun c => c.inCameraFrustum fw camera && c.hasVertices &&
            !c.hasAlphaMode fw.NO_ALPHA)).flatMap
            (RenderCall.drawnTimes (max 1 overlay.1.lights.length)) := by
      unfold alphaForwardPass
      rw [if_neg hd]
      dsimp only
      apply key
      · cases r.directional_light <;> rfl
      · cases r.directional_light <;> rfl
      · cases r.directional_light <;> rfl
      · cases hdl : r.directional_light with
        | none => exact hfbo
        | some dl =>
          intro l hl hc
          have hl2 : l ∈ r.lights ++ [dl] := hl
          rw [List.mem_append, List.mem_singleton] at hl2
          rcases hl2 with hl2 | hl2
          · exact hfbo l hl2 hc
          · subst hl2
            exact hdir l hdl hc
    obtain ⟨overlay, hov, hov0⟩ := hover
    refine ⟨geometry, overlay, hgeo, hov, hgeo0, ?_⟩
    simp only [hd, if_false]
    exact hov0

/-- Instance of the amended C23: the deferred renderer with an opaque call, a blended
call, a call without vertices and one light, dithering off, the camera at 0: the
geometry loop draws the opaque mesh and the overlay the blended one. -/
theorem renderDeferred_geometry_and_alpha_overlay_witness :
    ∃ geometry overlay,
      renderCallsLoop lineFramework deferredGlassRenderer (0 : Int)
        deferredGlassRenderer.render_mode
        (deferredGlassRenderer.calls ++ huskRenderer.calls) = Except.ok geometry ∧
      alphaForwardPass lineFramework deferredGlassRenderer (0 : Int)
        (deferredGlassRenderer.calls ++ huskRenderer.calls) = Except.ok overlay ∧
      geometry.filterMap GLCmd.drawnMesh =
        ((deferredGlassRenderer.calls ++ huskRenderer.calls).filter
          (fun c => c.inCameraFrustum lineFramework (0 : Int) && c.hasVertices &&
            (deferredGlassRenderer.dithering ||
              c.hasAlphaMode lineFramework.NO_ALPHA))).flatMap (RenderCall.drawnTimes 1) ∧
      overlay.2.filterMap GLCmd.drawnMesh =
        if deferredGlassRenderer.dithering = true then []
        else
          ((deferredGlassRenderer.calls ++ huskRenderer.calls).filter
            (fun c => c.inCameraFrustum lineFramework (0 : Int) && c.hasVertices &&
              !c.hasAlphaMode lineFramework.NO_ALPHA)).flatMap
            (RenderCall.drawnTimes (max 1 overlay.1.lights.length)) :=
  renderDeferred_geometry_and_alpha_overlay lineFramework deferredGlassRenderer (0 : Int)
    (deferredGlassRenderer.calls ++ huskRenderer.calls) rfl
    (fun c hc =>
      have h : c.mesh.isSome = true ∧ c.material.isSome = true :=
        (by decide : ∀ c ∈ deferredGlassRenderer.calls ++ huskRenderer.calls,
          c.mesh.isSome = true ∧ c.material.isSome = true) c hc
      ⟨c.mesh.get h.1, c.material.get h.2, by simp, by simp⟩)
    rfl rfl (fun h => absurd h (by decide)) (fun h => absurd h (by decide)) (by decide)
    (fun dl h => absurd h (by simp [deferredGlassRenderer, deferredRenderer, emptyRenderer]))

end FetchTheorems

end GTR
